import Mathlib

/-!
# loftctl: connectivity resolution (`cmd/use/vcluster.go`) and install/upgrade (`cmd/start.go`)

A shallow embedding of the two pieces of orchestration logic of the CLI:

* `Loftctl.Use`: `CreateVirtualClusterInstanceOptions`, `CreateVClusterContextOptions` and
  `getVirtualClusterInstanceAccessConfig` of `cmd/loftctl/cmd/use/vcluster.go`;
* `Loftctl.Cmd`: `StartCmd.Run`, `handleAlreadyExistingInstallation` and `upgradeLoft` of
  `cmd/loftctl/cmd/start.go`.

Calls that leave the file (the management API, helm, kubectl, the terminal) are answered by
explicit collaborator records, and every such call is written to a call log, so that "is never
invoked" and "is invoked at most twice" are statements about the log.
-/

namespace Loftctl

/-- A Go `error` value, observed through its `Error()` text; the `nil` error is `none` of
`Option GoError`. -/
abbrev GoError := String

/-- The `Error()` text of `errors.Wrap(err, message)` (github.com/pkg/errors) for a non-nil
`err`: the message, a colon and the cause. -/
def errorsWrap (err : GoError) (message : String) : GoError :=
  message ++ ": " ++ err

/-- A Go `map[string]string` read with `m[key]`: a missing key reads as the empty string. -/
def mapIndex (m : List (String × String)) (key : String) : String :=
  (m.lookup key).getD ""

namespace Use

/-! ## Data model of `vcluster.go` -/

/-- The fields of `kubeconfig.ContextOptions` that `vcluster.go` reads or assigns. The type is
declared in `pkg/kubeconfig`; the Go zero value `kubeconfig.ContextOptions{}` is `{}` here.
`CaData` is a byte slice, kept as the list of its bytes. -/
structure ContextOptions where
  Name : String := ""
  Server : String := ""
  CaData : List Nat := []
  ConfigPath : String := ""
  InsecureSkipTLSVerify : Bool := false
  VirtualClusterAccessPointEnabled : Bool := false
  SetActive : Bool := false
deriving DecidableEq, Repr

/-- The part of `managementv1.Cluster` the resolver looks at. `Annotations` is a Go map that
may be `nil` (`none`). -/
structure Cluster where
  Name : String := ""
  Annotations : Option (List (String × String)) := none
deriving DecidableEq, Repr

/-- `Status.VirtualCluster.AccessPoint.Ingress`. -/
structure IngressAccessPoint where
  Enabled : Bool := false
deriving DecidableEq, Repr

/-- `Status.VirtualCluster.AccessPoint`. -/
structure AccessPoint where
  Ingress : IngressAccessPoint := {}
deriving DecidableEq, Repr

/-- The value `Status.VirtualCluster` points to. -/
structure VirtualClusterStatusTemplate where
  AccessPoint : AccessPoint := {}
deriving DecidableEq, Repr

/-- `VirtualClusterInstance.Status`; `VirtualCluster` is a pointer (`none` is `nil`). -/
structure VirtualClusterInstanceStatus where
  VirtualCluster : Option VirtualClusterStatusTemplate := none
deriving DecidableEq, Repr

/-- `Spec.ClusterRef`. -/
structure ClusterRef where
  Cluster : String := ""
deriving DecidableEq, Repr

/-- `VirtualClusterInstance.Spec`. -/
structure VirtualClusterInstanceSpec where
  ClusterRef : ClusterRef := {}
deriving DecidableEq, Repr

/-- The part of `managementv1.VirtualClusterInstance` the resolver looks at. -/
structure VirtualClusterInstance where
  Name : String := ""
  Namespace : String := ""
  Spec : VirtualClusterInstanceSpec := {}
  Status : VirtualClusterInstanceStatus := {}
deriving DecidableEq, Repr

/-- One value of `api.Config.Clusters` (k8s.io/client-go/tools/clientcmd/api). The map holds
pointers; the kubeconfig loader stores a non-nil one for every entry. -/
structure ApiCluster where
  Server : String := ""
deriving DecidableEq, Repr

/-- The parsed kubeconfig, `api.Config`. `Clusters` is a Go map; the list holds its entries in
the order in which `for _, val := range kubeConfig.Clusters` visits them (an order the Go
runtime picks, so the list ranges over all orders). -/
structure ApiConfig where
  Clusters : List (String × ApiCluster) := []
deriving DecidableEq, Repr

/-- The value `clientcmd.NewClientConfigFromBytes` returns, with the answer of its
`RawConfig()` method. -/
structure ClientCfg where
  RawConfig : Except GoError ApiConfig

/-- The answer of `GetKubeConfig`: `Status.KubeConfig` of the returned object. -/
structure VirtualClusterInstanceKubeConfig where
  KubeConfig : String := ""
deriving DecidableEq, Repr

/-- The management client, `baseClient.Management()`: the one request the resolver sends,
`VirtualClusterInstances(namespace).GetKubeConfig(ctx, name, ...)`. -/
structure ManagementClient where
  GetKubeConfig : (ns name : String) → Except GoError VirtualClusterInstanceKubeConfig

/-- The value of `baseClient.Config()`. -/
structure Config where
  Host : String := ""
  Insecure : Bool := false
deriving DecidableEq, Repr

/-- The `client.Client` interface (`pkg/client`), with the three methods the resolver calls. -/
structure Client where
  Config : Config
  Management : Except GoError ManagementClient
  DirectClusterEndpointToken : (forceRefresh : Bool) → Except GoError String

/-- What `vcluster.go` uses and does not define: the annotation key
`LoftDirectClusterEndpoint`, the helpers `findProjectCluster`,
`ApplyDirectClusterEndpointOptions` and `retrieveCaData` of the same package, the context-name
builders of `pkg/kubeconfig`, and `clientcmd.NewClientConfigFromBytes`. They are parameters of
the embedding: every theorem holds for every choice of them. -/
structure Helpers where
  LoftDirectClusterEndpoint : String
  findProjectCluster : Client → (projectName cluster : String) → Except GoError Cluster
  ApplyDirectClusterEndpointOptions : ContextOptions → Cluster → (path : String) → ContextOptions
  retrieveCaData : Cluster → Except GoError (List Nat)
  VirtualClusterInstanceContextName : (projectName name : String) → String
  VirtualClusterContextName : (cluster space name : String) → String
  NewClientConfigFromBytes : (data : String) → Except GoError ClientCfg

/-- A call that leaves `vcluster.go`, as written to the call log. -/
inductive Call where
  | findProjectCluster (projectName cluster : String)
  | Management
  | GetKubeConfig (ns name : String)
  | NewClientConfigFromBytes (data : String)
  | RawConfig
  | ApplyDirectClusterEndpointOptions (path : String)
  | DirectClusterEndpointToken (forceRefresh : Bool)
  | Config
  | retrieveCaData (cluster : String)
deriving DecidableEq, Repr

/-- What a resolver call returns, `(kubeconfig.ContextOptions, error)`, and the calls it made,
oldest first. -/
structure Outcome where
  options : ContextOptions
  err : Option GoError
  calls : List Call
deriving DecidableEq, Repr

/-! ## The functions of `vcluster.go` -/

/-- `getVirtualClusterInstanceAccessConfig` (vcluster.go, lines 286-316): the `*api.Config`
or the error, and the calls made. -/
def getVirtualClusterInstanceAccessConfig (h : Helpers) (baseClient : Client)
    (virtualClusterInstance : VirtualClusterInstance) : Except GoError ApiConfig × List Call :=
  match baseClient.Management with
  | .error err => (.error err, [.Management])
  | .ok managementClient =>
    match managementClient.GetKubeConfig virtualClusterInstance.Namespace
        virtualClusterInstance.Name with
    | .error err =>
      (.error err,
        [.Management,
          .GetKubeConfig virtualClusterInstance.Namespace virtualClusterInstance.Name])
    | .ok kubeConfig =>
      match h.NewClientConfigFromBytes kubeConfig.KubeConfig with
      | .error err =>
        (.error (errorsWrap err ""),
          [.Management,
            .GetKubeConfig virtualClusterInstance.Namespace virtualClusterInstance.Name,
            .NewClientConfigFromBytes kubeConfig.KubeConfig])
      | .ok clientCfg =>
        match clientCfg.RawConfig with
        | .error err =>
          (.error err,
            [.Management,
              .GetKubeConfig virtualClusterInstance.Namespace virtualClusterInstance.Name,
              .NewClientConfigFromBytes kubeConfig.KubeConfig, .RawConfig])
        | .ok apiCfg =>
          (.ok apiCfg,
            [.Management,
              .GetKubeConfig virtualClusterInstance.Namespace virtualClusterInstance.Name,
              .NewClientConfigFromBytes kubeConfig.KubeConfig, .RawConfig])

/-- The condition of line 176: `Status.VirtualCluster != nil &&
Status.VirtualCluster.AccessPoint.Ingress.Enabled`. -/
def ingressEnabled (virtualClusterInstance : VirtualClusterInstance) : Bool :=
  match virtualClusterInstance.Status.VirtualCluster with
  | none => false
  | some vc => vc.AccessPoint.Ingress.Enabled

/-- The condition of lines 190 and 267: `disableClusterGateway == false &&
cluster.Annotations != nil && cluster.Annotations[LoftDirectClusterEndpoint] != ""`. -/
def useDirectClusterEndpoint (h : Helpers) (cluster : Cluster)
    (disableClusterGateway : Bool) : Bool :=
  disableClusterGateway == false &&
    (match cluster.Annotations with
     | none => false
     | some annotations => mapIndex annotations h.LoftDirectClusterEndpoint != "")

/-- The loop of lines 183-185, `for _, val := range kubeConfig.Clusters
{ contextOptions.Server = val.Server }`. -/
def rangeClustersServer (clusters : List (String × ApiCluster))
    (contextOptions : ContextOptions) : ContextOptions :=
  clusters.foldl (fun o val => { o with Server := val.2.Server }) contextOptions

/-- The text of the error of lines 194 and 271. -/
def directClusterEndpointTokenError (err : GoError) : GoError :=
  "retrieving direct cluster endpoint token: " ++ err ++
    ". Use --disable-direct-cluster-endpoint to create a context without using direct cluster endpoints"

/-- `CreateVirtualClusterInstanceOptions` (vcluster.go, lines 165-208). The logger argument is
left out: it only prints. -/
def CreateVirtualClusterInstanceOptions (h : Helpers) (baseClient : Client) (config : String)
    (projectName : String) (virtualClusterInstance : VirtualClusterInstance)
    (disableClusterGateway setActive : Bool) : Outcome :=
  let c0 : List Call :=
    [.findProjectCluster projectName virtualClusterInstance.Spec.ClusterRef.Cluster]
  match h.findProjectCluster baseClient projectName
      virtualClusterInstance.Spec.ClusterRef.Cluster with
  | .error err => ⟨{}, some (errorsWrap err "find space instance cluster"), c0⟩
  | .ok cluster =>
    let contextOptions : ContextOptions :=
      { Name := h.VirtualClusterInstanceContextName projectName virtualClusterInstance.Name
        ConfigPath := config
        SetActive := setActive }
    if ingressEnabled virtualClusterInstance then
      match getVirtualClusterInstanceAccessConfig h baseClient virtualClusterInstance with
      | (.error err, c1) => ⟨{}, some (errorsWrap err "retrieve kube config"), c0 ++ c1⟩
      | (.ok kubeConfig, c1) =>
        let contextOptions := rangeClustersServer kubeConfig.Clusters contextOptions
        let contextOptions := { contextOptions with InsecureSkipTLSVerify := true }
        let contextOptions := { contextOptions with VirtualClusterAccessPointEnabled := true }
        ⟨contextOptions, none, c0 ++ c1⟩
    else
      if useDirectClusterEndpoint h cluster disableClusterGateway then
        let path := "/kubernetes/project/" ++ projectName ++ "/virtualcluster/" ++
          virtualClusterInstance.Name
        let contextOptions := h.ApplyDirectClusterEndpointOptions contextOptions cluster path
        let c1 : List Call :=
          c0 ++ [.ApplyDirectClusterEndpointOptions path, .DirectClusterEndpointToken true]
        match baseClient.DirectClusterEndpointToken true with
        | .error err => ⟨{}, some (directClusterEndpointTokenError err), c1⟩
        | .ok _ =>
          match h.retrieveCaData cluster with
          | .error err => ⟨{}, some err, c1 ++ [.retrieveCaData cluster.Name]⟩
          | .ok data =>
            ⟨{ contextOptions with CaData := data }, none, c1 ++ [.retrieveCaData cluster.Name]⟩
      else
        let contextOptions :=
          { contextOptions with
            Server := baseClient.Config.Host ++ "/kubernetes/project/" ++ projectName ++
              "/virtualcluster/" ++ virtualClusterInstance.Name }
        let contextOptions :=
          { contextOptions with InsecureSkipTLSVerify := baseClient.Config.Insecure }
        let c1 : List Call := c0 ++ [.Config, .Config]
        match h.retrieveCaData cluster with
        | .error err => ⟨{}, some err, c1 ++ [.retrieveCaData cluster.Name]⟩
        | .ok data =>
          ⟨{ contextOptions with CaData := data }, none, c1 ++ [.retrieveCaData cluster.Name]⟩

/-- `CreateVClusterContextOptions` (vcluster.go, lines 261-284). The logger argument is left
out: it only prints. -/
def CreateVClusterContextOptions (h : Helpers) (baseClient : Client) (config : String)
    (cluster : Cluster) (spaceName virtualClusterName : String)
    (disableClusterGateway setActive : Bool) : Outcome :=
  let contextOptions : ContextOptions :=
    { Name := h.VirtualClusterContextName cluster.Name spaceName virtualClusterName
      ConfigPath := config
      SetActive := setActive }
  if useDirectClusterEndpoint h cluster disableClusterGateway then
    let path := "/kubernetes/virtualcluster/" ++ spaceName ++ "/" ++ virtualClusterName
    let contextOptions := h.ApplyDirectClusterEndpointOptions contextOptions cluster path
    let c1 : List Call :=
      [.ApplyDirectClusterEndpointOptions path, .DirectClusterEndpointToken true]
    match baseClient.DirectClusterEndpointToken true with
    | .error err => ⟨{}, some (directClusterEndpointTokenError err), c1⟩
    | .ok _ =>
      match h.retrieveCaData cluster with
      | .error err => ⟨{}, some err, c1 ++ [.retrieveCaData cluster.Name]⟩
      | .ok data =>
        ⟨{ contextOptions with CaData := data }, none, c1 ++ [.retrieveCaData cluster.Name]⟩
  else
    let contextOptions :=
      { contextOptions with
        Server := baseClient.Config.Host ++ "/kubernetes/virtualcluster/" ++ cluster.Name ++
          "/" ++ spaceName ++ "/" ++ virtualClusterName }
    let contextOptions :=
      { contextOptions with InsecureSkipTLSVerify := baseClient.Config.Insecure }
    let c1 : List Call := [.Config, .Config]
    match h.retrieveCaData cluster with
    | .error err => ⟨{}, some err, c1 ++ [.retrieveCaData cluster.Name]⟩
    | .ok data =>
      ⟨{ contextOptions with CaData := data }, none, c1 ++ [.retrieveCaData cluster.Name]⟩

/-- Whether a logged call belongs to the direct-cluster-endpoint strategy: applying the
direct-endpoint options or requesting the direct-cluster-endpoint token. -/
def Call.isDirectEndpoint : Call → Bool
  | .ApplyDirectClusterEndpointOptions _ => true
  | .DirectClusterEndpointToken _ => true
  | _ => false

/-! ## A concrete environment, for evaluating the resolver -/

/-- The annotation key used by the concrete environment below. -/
def sampleEndpointKey : String := "loft.sh/direct-cluster-endpoint"

/-- A cluster that carries a non-empty direct-cluster-endpoint annotation. -/
def sampleCluster : Cluster :=
  { Name := "c1", Annotations := some [(sampleEndpointKey, "direct.example:8443")] }

/-- A cluster without annotations (`Annotations == nil`). -/
def plainCluster : Cluster := { Name := "c2" }

/-- A kubeconfig with two cluster entries. -/
def sampleApiConfig : ApiConfig :=
  { Clusters := [("a", { Server := "https://a.example" }), ("b", { Server := "https://b.example" })] }

/-- Helpers of the concrete environment: the cluster lookup answers `cluster`, the
direct-endpoint options set the server from the annotation and some CA data, and
`retrieveCaData` answers `caData`. -/
def sampleHelpers (cluster : Cluster) (caData : Except GoError (List Nat)) : Helpers where
  LoftDirectClusterEndpoint := sampleEndpointKey
  findProjectCluster := fun _ _ _ => .ok cluster
  ApplyDirectClusterEndpointOptions := fun o c path =>
    { o with
      Server := "https://" ++ mapIndex (c.Annotations.getD []) sampleEndpointKey ++ path
      CaData := [9] }
  retrieveCaData := fun _ => caData
  VirtualClusterInstanceContextName := fun p n => "loft-vcluster_" ++ n ++ "_" ++ p
  VirtualClusterContextName := fun c s n => "loft-vcluster_" ++ n ++ "_" ++ s ++ "_" ++ c
  NewClientConfigFromBytes := fun _ => .ok { RawConfig := .ok sampleApiConfig }

/-- A client of the concrete environment, with the given answers for the access kubeconfig
request and for the direct-cluster-endpoint token. -/
def sampleClient (kubeConfig : Except GoError VirtualClusterInstanceKubeConfig)
    (token : Except GoError String) : Client where
  Config := { Host := "https://loft.example", Insecure := true }
  Management := .ok { GetKubeConfig := fun _ _ => kubeConfig }
  DirectClusterEndpointToken := fun _ => token

/-- A virtual cluster instance whose status reports an enabled ingress access point. -/
def ingressInstance : VirtualClusterInstance :=
  { Name := "vc", Namespace := "loft-p-proj", Spec := { ClusterRef := { Cluster := "c1" } },
    Status := { VirtualCluster := some { AccessPoint := { Ingress := { Enabled := true } } } } }

/-- A virtual cluster instance without an access point. -/
def plainInstance : VirtualClusterInstance :=
  { Name := "vc", Namespace := "loft-p-proj", Spec := { ClusterRef := { Cluster := "c1" } } }

/-- Whether the text starts with the characters `sub`. -/
def startsWith : (sub s : List Char) → Bool
  | [], _ => true
  | _ :: _, [] => false
  | a :: sub, b :: s => a == b && startsWith sub s

/-- Whether the characters `sub` occur in the text, at any position. -/
def occursIn (sub : List Char) : (s : List Char) → Bool
  | [] => startsWith sub []
  | b :: s => startsWith sub (b :: s) || occursIn sub s

/-- Go's `strings.Contains(s, substr)`. -/
def stringsContains (s substr : String) : Bool :=
  occursIn substr.toList s.toList

/-- The workaround the token error of lines 194 and 271 names. -/
def disableFlagHint : String := "--disable-direct-cluster-endpoint"

/-- The helpers of the concrete environment on `sampleCluster`, with a kubeconfig parser that
answers the given `api.Config`. -/
def sampleHelpersWith (apiConfig : ApiConfig) : Helpers :=
  { sampleHelpers sampleCluster (.ok [1, 2]) with
    NewClientConfigFromBytes := fun _ => .ok { RawConfig := .ok apiConfig } }


end Use

namespace Cmd

/-! ## Data model of `start.go` -/

/-- The flags of `loft start`, `StartCmd` (start.go, lines 42-68), with `Config` of the
embedded `GlobalFlags`. The defaults are those `NewStartCmd` registers (lines 105-120). The
fields filled later (`KubeClient`, `RestConfig`, `Log`) are handles to the cluster and the
terminal; their answers are given by `Collaborators`. -/
structure StartCmd where
  Config : String := ""
  LocalPort : String := "9898"
  Host : String := ""
  Reset : Bool := false
  Version : String := ""
  Context : String := ""
  Namespace : String := "loft"
  Password : String := ""
  Values : String := ""
  Email : String := ""
  ReuseValues : Bool := true
  Upgrade : Bool := false
  ChartName : String := "loft"
  ChartPath : String := ""
  ChartRepo : String := "https://charts.loft.sh/"
  NoWait : Bool := false
  NoPortForwarding : Bool := false
deriving DecidableEq, Repr

/-- How a call of a command function ends: it returns its `error` (`none` is `nil`), or it
never returns (`successLocal` waits on a channel that nobody writes to). -/
inductive Return where
  | returned (err : Option GoError)
  | blocked
deriving DecidableEq, Repr

/-- The options of `Log.Question` (`survey.QuestionOptions`) that `start.go` sets. -/
structure QuestionOptions where
  Question : String
  DefaultValue : String := ""
  Options : List String := []
  ValidationFunc : Option (String → Option GoError) := none

/-- The part of `corev1.Pod` that `start.go` reads. -/
structure Pod where
  Name : String := ""
  Namespace : String := ""
deriving DecidableEq, Repr

/-- The part of `corev1.Secret` that `pingLoftRouter` reads; `Data` is a Go map that may be
`nil`, its values are byte slices, kept as the strings `string(...)` makes of them. -/
structure Secret where
  Data : Option (List (String × String)) := none
deriving DecidableEq, Repr

/-- An error of the Kubernetes API, with the answer of `kerrors.IsNotFound`. -/
structure KubeError where
  text : GoError
  IsNotFound : Bool
deriving DecidableEq, Repr

/-- The loft config `prepare` reads, `loader.Config()`. -/
structure LoftConfig where
  LastInstallContext : String := ""
deriving DecidableEq, Repr

/-- The raw kube config `prepare` reads. -/
structure KubeConfig where
  CurrentContext : String := ""
deriving DecidableEq, Repr

/-- A `time.Duration`, in nanoseconds. -/
abbrev Duration := Nat

/-- `time.Second`. -/
def Second : Duration := 1000000000

/-- `time.Minute`. -/
def Minute : Duration := 60 * Second

/-- A call that leaves `start.go`, as written to the call log. Logger output (`Log.Info`,
`Log.Donef`, `Log.Errorf`) is not logged. -/
inductive Call where
  | NewClientFromPath (config : String)
  | RawConfig
  | Save (lastInstallContext : String)
  | LookPath (file : String)
  | CombinedOutput (name : String) (args : List String)
  | ClientConfig (kubeContext : String)
  | NewForConfig
  | GetClusterRole (name : String)
  | UninstallLoft (kubeContext ns : String)
  | IsLoftAlreadyInstalled (ns : String)
  | GetLoftDefaultPassword (ns : String)
  | IsLoftInstalledLocally (ns : String)
  | EnterHostNameQuestion
  | EnsureIngressController (kubeContext : String)
  | UpgradeLoft (chartName chartRepo kubeContext ns : String) (extraArgs : List String)
  | GetLoftManifests (chartName chartRepo kubeContext ns : String) (extraArgs : List String)
  | kubectlDelete (stdin : String)
  | Abs (path : String)
  | IsTerminal
  | Question (question : String)
  | WaitForReadyLoftPod (ns : String)
  | EnsureAdminPassword (password : String)
  | StartPortForwarding (pod : Pod) (localPort : String)
  | restartPortForwarding
  | GetLoftIngressHost (ns : String)
  | IsLoftReachable (host : String)
  | GetSecret (ns name : String)
  | NewRequestWithContext (url : String)
  | Do (url : String)
  | PrintSuccessMessageLoftRouterInstall (host password : String)
  | PrintSuccessMessageLocalInstall (password localPort : String)
  | PrintSuccessMessageRemoteInstall (host password : String)
  | PrintDNSConfiguration (host : String)
deriving DecidableEq, Repr

/-- What `start.go` calls and does not define, over a world of type `W` (the cluster, the
file system, the terminal, the clock): each call reads the world and leaves a new one, so the
same call may answer differently the second time. The groups are `pkg/client`, `clientcmd`,
`os/exec` and `kubernetes` (used by `prepare`), `pkg/clihelper`, the forced `kubectl delete`
of `upgradeLoft`, `filepath.Abs`, `term.IsTerminal(os.Stdin)`, `Log.Question`, `ansi.Color`,
the secrets API, `net/http`, `config.Timeout()`, and the number of further evaluations of a
poll condition that fit before the poll's deadline. They are parameters of the embedding:
every theorem holds for every choice of them. -/
structure Collaborators (W : Type) where
  NewClientFromPath : (config : String) → W → Except GoError LoftConfig × W
  RawConfig : W → Except GoError KubeConfig × W
  Save : (lastInstallContext : String) → W → Option GoError × W
  LookPath : (file : String) → W → Option GoError × W
  CombinedOutput : (name : String) → (args : List String) → W → (String × Option GoError) × W
  ClientConfig : (kubeContext : String) → W → Option GoError × W
  NewForConfig : W → Option GoError × W
  GetClusterRole : (name : String) → W → Option GoError × W
  UninstallLoft : (kubeContext ns : String) → W → Option GoError × W
  IsLoftAlreadyInstalled : (ns : String) → W → Except GoError Bool × W
  GetLoftDefaultPassword : (ns : String) → W → Except GoError String × W
  IsLoftInstalledLocally : (ns : String) → W → Bool × W
  EnterHostNameQuestion : W → Except GoError String × W
  EnsureIngressController : (kubeContext : String) → W → Option GoError × W
  UpgradeLoft : (chartName chartRepo kubeContext ns : String) → (extraArgs : List String) →
    W → Option GoError × W
  GetLoftManifests : (chartName chartRepo kubeContext ns : String) →
    (extraArgs : List String) → W → Except GoError String × W
  WaitForReadyLoftPod : (ns : String) → W → Except GoError Pod × W
  EnsureAdminPassword : (password : String) → W → Except GoError Bool × W
  StartPortForwarding : (pod : Pod) → (localPort : String) → W → Option GoError × W
  GetLoftIngressHost : (ns : String) → W → Except GoError String × W
  IsLoftReachable : (host : String) → W → (Bool × Option GoError) × W
  LoftRouterDomainSecret : String
  kubectlDelete : (stdin : String) → W → Option GoError × W
  Abs : (path : String) → W → Except GoError String × W
  IsTerminal : W → Bool × W
  Question : QuestionOptions → W → Except GoError String × W
  Color : (s style : String) → String
  GetSecret : (ns name : String) → W → Except KubeError Secret × W
  NewRequestWithContext : (method url : String) → Option GoError
  Do : (url : String) → W → Except GoError Nat × W
  Timeout : Duration
  pollAttempts : (interval timeout : Duration) → W → Nat

/-- The state threaded through the command: the world and the call log, oldest call first. -/
structure St (W : Type) where
  world : W
  calls : List Call := []

/-- The state after a call `c` that left the world `w`. -/
def St.after {W : Type} (s : St W) (c : Call) (w : W) : St W :=
  { world := w, calls := s.calls ++ [c] }

/-! ## `upgradeLoft` -/

/-- Lines 378-404 of `upgradeLoft`: the helm arguments built from the flags, or the error of
`filepath.Abs`. -/
def upgradeLoft.extraArgs {W : Type} (c : Collaborators W) (cmd : StartCmd) (email : String)
    (s : St W) : Except GoError (List String) × St W :=
  let extraArgs : List String := []
  let extraArgs :=
    if email != "" then extraArgs ++ ["--set", "admin.email=" ++ email] else extraArgs
  let extraArgs :=
    if cmd.Password != "" then extraArgs ++ ["--set", "admin.password=" ++ cmd.Password]
    else extraArgs
  let extraArgs :=
    if cmd.Host != "" then
      extraArgs ++ ["--set", "ingress.enabled=true", "--set", "ingress.host=" ++ cmd.Host]
    else extraArgs
  let extraArgs :=
    if cmd.Version != "" then extraArgs ++ ["--version", cmd.Version] else extraArgs
  let extraArgs :=
    if !cmd.Reset && cmd.ReuseValues then extraArgs ++ ["--reuse-values"] else extraArgs
  if cmd.Values != "" then
    match c.Abs cmd.Values s.world with
    | (.error err, w) => (.error err, s.after (.Abs cmd.Values) w)
    | (.ok absValuesPath, w) =>
      (.ok (extraArgs ++ ["--values", absValuesPath]), s.after (.Abs cmd.Values) w)
  else
    (.ok extraArgs, s)

/-- Lines 406-411 of `upgradeLoft`: `(chartName, chartRepo)`. -/
def upgradeLoft.chart (cmd : StartCmd) : String × String :=
  if cmd.ChartPath == "" then (cmd.ChartName, cmd.ChartRepo) else (cmd.ChartPath, "")

/-- The remediation text of line 416. -/
def resetHint {W : Type} (c : Collaborators W) : String :=
  "\n\nIf want to purge and reinstall Loft, run: " ++ c.Color "loft start --reset" "green+b" ++
    "\n"

/-- The escalation text of line 442. -/
def supportHint {W : Type} (c : Collaborators W) : String :=
  "\n\nLoft installation failed. Reach out to get help:\n- via Slack: " ++
    c.Color "https://slack.loft.sh/" "green+b" ++ " (fastest option)\n- via Online Chat: " ++
    c.Color "https://loft.sh/" "green+b" ++ "\n- via Email: " ++
    c.Color "support@loft.sh" "green+b" ++ "\n"

/-- `StartCmd.upgradeLoft` (start.go, lines 377-447): the returned `error` and the state. -/
def upgradeLoft {W : Type} (c : Collaborators W) (cmd : StartCmd) (email : String)
    (s : St W) : Option GoError × St W :=
  match upgradeLoft.extraArgs c cmd email s with
  | (.error err, s) => (some err, s)
  | (.ok extraArgs, s) =>
    let chartName := (upgradeLoft.chart cmd).1
    let chartRepo := (upgradeLoft.chart cmd).2
    match c.UpgradeLoft chartName chartRepo cmd.Context cmd.Namespace extraArgs s.world with
    | (none, w) =>
      (none, s.after (.UpgradeLoft chartName chartRepo cmd.Context cmd.Namespace extraArgs) w)
    | (some err, w) =>
      let s := s.after (.UpgradeLoft chartName chartRepo cmd.Context cmd.Namespace extraArgs) w
      if !cmd.Reset then
        (some (err ++ resetHint c), s)
      else
        match c.GetLoftManifests chartName chartRepo cmd.Context cmd.Namespace extraArgs
            s.world with
        | (.error err, w) =>
          (some err,
            s.after (.GetLoftManifests chartName chartRepo cmd.Context cmd.Namespace extraArgs) w)
        | (.ok manifests, w) =>
          let s :=
            s.after (.GetLoftManifests chartName chartRepo cmd.Context cmd.Namespace extraArgs) w
          let s := s.after (.kubectlDelete manifests) (c.kubectlDelete manifests s.world).2
          match c.UpgradeLoft chartName chartRepo cmd.Context cmd.Namespace extraArgs
              s.world with
          | (none, w) =>
            (none,
              s.after (.UpgradeLoft chartName chartRepo cmd.Context cmd.Namespace extraArgs) w)
          | (some err, w) =>
            (some (err ++ supportHint c),
              s.after (.UpgradeLoft chartName chartRepo cmd.Context cmd.Namespace extraArgs) w)

/-! ## Polling and waiting -/

/-- The error `wait.PollImmediate` ends with at its deadline, `wait.ErrWaitTimeout`. -/
def ErrWaitTimeout : GoError := "timed out waiting for the condition"

/-- The error `wait.PollUntilContextTimeout` ends with at its deadline,
`context.DeadlineExceeded`. -/
def DeadlineExceeded : GoError := "context deadline exceeded"

/-- The loop of `wait.PollImmediate` and of `wait.PollUntilContextTimeout` with
`immediate = true` (k8s.io/apimachinery): the condition is evaluated at once; an error of the
condition ends the poll with that error and `true` ends it with `nil`; otherwise the condition
is evaluated again, as long as the deadline allows (`attempts` more times), and after that the
poll ends with `timeoutErr`. -/
def poll {W : Type} (condition : St W → (Bool × Option GoError) × St W)
    (timeoutErr : GoError) : (attempts : Nat) → St W → Option GoError × St W
  | 0, s =>
    match condition s with
    | ((_, some err), s) => (some err, s)
    | ((true, none), s) => (none, s)
    | ((false, none), s) => (some timeoutErr, s)
  | attempts + 1, s =>
    match condition s with
    | ((_, some err), s) => (some err, s)
    | ((true, none), s) => (none, s)
    | ((false, none), s) => poll condition timeoutErr attempts s

/-- The poll condition of lines 606-618 and of lines 642-654 (the two closures have the same
body, up to the URL): a request that cannot be built or sent is "not ready", and otherwise the
answer is ready exactly for status 200. -/
def healthProbe {W : Type} (c : Collaborators W) (url : String) (s : St W) :
    (Bool × Option GoError) × St W :=
  let s := s.after (.NewRequestWithContext url) s.world
  match c.NewRequestWithContext "GET" url with
  | some _ => ((false, none), s)
  | none =>
    match c.Do url s.world with
    | (.error _, w) => ((false, none), s.after (.Do url) w)
    | (.ok statusCode, w) => ((statusCode == 200, none), s.after (.Do url) w)

/-- `StartCmd.waitForLoft` (start.go, lines 559-580): the pod or the error, and the command
with its `Password` blanked when `EnsureAdminPassword` reports a different password. -/
def waitForLoft {W : Type} (c : Collaborators W) (cmd : StartCmd) (s : St W) :
    Except GoError Pod × StartCmd × St W :=
  match c.WaitForReadyLoftPod cmd.Namespace s.world with
  | (.error err, w) => (.error err, cmd, s.after (.WaitForReadyLoftPod cmd.Namespace) w)
  | (.ok loftPod, w) =>
    let s := s.after (.WaitForReadyLoftPod cmd.Namespace) w
    match c.EnsureAdminPassword cmd.Password s.world with
    | (.error err, w) => (.error err, cmd, s.after (.EnsureAdminPassword cmd.Password) w)
    | (.ok isNewPassword, w) =>
      let s := s.after (.EnsureAdminPassword cmd.Password) w
      let cmd := if isNewPassword then { cmd with Password := "" } else cmd
      (.ok loftPod, cmd, s)

/-- `StartCmd.pingLoftRouter` (start.go, lines 582-624): `(loftRouterDomain, error)`. -/
def pingLoftRouter {W : Type} (c : Collaborators W) (loftPod : Pod) (s : St W) :
    (String × Option GoError) × St W :=
  match c.GetSecret loftPod.Namespace c.LoftRouterDomainSecret s.world with
  | (.error err, w) =>
    let s := s.after (.GetSecret loftPod.Namespace c.LoftRouterDomainSecret) w
    if err.IsNotFound then (("", none), s)
    else (("", some ("find loft router domain secret: " ++ err.text)), s)
  | (.ok loftRouterSecret, w) =>
    let s := s.after (.GetSecret loftPod.Namespace c.LoftRouterDomainSecret) w
    match loftRouterSecret.Data with
    | none => (("", none), s)
    | some data =>
      if (mapIndex data "domain").length == 0 then (("", none), s)
      else
        let loftRouterDomain := mapIndex data "domain"
        match poll (healthProbe c ("https://" ++ loftRouterDomain ++ "/version"))
            DeadlineExceeded (c.pollAttempts (Second * 3) (Minute * 5) s.world) s with
        | (some err, s) => (("", some err), s)
        | (none, s) => ((loftRouterDomain, none), s)

/-- `StartCmd.startPortForwarding` (start.go, lines 626-660). The statement
`go cmd.restartPortForwarding(ctx, stopChan)` is logged as the call `restartPortForwarding`;
the goroutine itself runs beside this flow and is not part of it. -/
def startPortForwarding {W : Type} (c : Collaborators W) (cmd : StartCmd) (loftPod : Pod)
    (s : St W) : Option GoError × St W :=
  match c.StartPortForwarding loftPod cmd.LocalPort s.world with
  | (some err, w) => (some err, s.after (.StartPortForwarding loftPod cmd.LocalPort) w)
  | (none, w) =>
    let s := s.after (.StartPortForwarding loftPod cmd.LocalPort) w
    let s := s.after .restartPortForwarding s.world
    poll (healthProbe c ("https://localhost:" ++ cmd.LocalPort ++ "/version"))
      DeadlineExceeded (c.pollAttempts Second c.Timeout s.world) s

/-- `StartCmd.successLocal` (start.go, lines 526-532): it prints and then waits forever. -/
def successLocal {W : Type} (cmd : StartCmd) (s : St W) : Return × St W :=
  (.blocked, s.after (.PrintSuccessMessageLocalInstall cmd.Password cmd.LocalPort) s.world)

/-- The poll condition of lines 547-549, `clihelper.IsLoftReachable(host)`. -/
def reachableProbe {W : Type} (c : Collaborators W) (host : String) (s : St W) :
    (Bool × Option GoError) × St W :=
  ((c.IsLoftReachable host s.world).1, s.after (.IsLoftReachable host)
    (c.IsLoftReachable host s.world).2)

/-- `StartCmd.successRemote` (start.go, lines 534-557). -/
def successRemote {W : Type} (c : Collaborators W) (cmd : StartCmd) (host : String)
    (s : St W) : Return × St W :=
  match reachableProbe c host s with
  | ((_, some err), s) => (.returned (some err), s)
  | ((true, none), s) =>
    (.returned none, s.after (.PrintSuccessMessageRemoteInstall host cmd.Password) s.world)
  | ((false, none), s) =>
    let s := s.after (.PrintDNSConfiguration host) s.world
    match poll (reachableProbe c host) ErrWaitTimeout
        (c.pollAttempts (Second * 5) c.Timeout s.world) s with
    | (some err, s) => (.returned (some err), s)
    | (none, s) =>
      (.returned none, s.after (.PrintSuccessMessageRemoteInstall host cmd.Password) s.world)

/-- Lines 478-483 and 514-519 of `success`: start port-forwarding and, when that worked, end
in `successLocal`. -/
def success.portForward {W : Type} (c : Collaborators W) (cmd : StartCmd) (loftPod : Pod)
    (s : St W) : Return × St W :=
  match startPortForwarding c cmd loftPod s with
  | (some err, s) => (.returned (some err), s)
  | (none, s) => successLocal cmd s

/-- `StartCmd.success` (start.go, lines 449-524): how the call ends, the command (whose
`Password` `waitForLoft` may have blanked) and the state. -/
def success {W : Type} (c : Collaborators W) (cmd : StartCmd) (s : St W) :
    Return × StartCmd × St W :=
  if cmd.NoWait then (.returned none, cmd, s)
  else
    match waitForLoft c cmd s with
    | (.error err, cmd, s) => (.returned (some err), cmd, s)
    | (.ok loftPod, cmd, s) =>
      if cmd.NoPortForwarding then (.returned none, cmd, s)
      else
        let isLocal := (c.IsLoftInstalledLocally cmd.Namespace s.world).1
        let s := s.after (.IsLoftInstalledLocally cmd.Namespace)
          (c.IsLoftInstalledLocally cmd.Namespace s.world).2
        if isLocal then
          match pingLoftRouter c loftPod s with
          | ((_, some _), s) =>
            ((success.portForward c cmd loftPod s).1, cmd, (success.portForward c cmd loftPod s).2)
          | ((loftRouterDomain, none), s) =>
            if loftRouterDomain != "" then
              (.returned none, cmd,
                s.after (.PrintSuccessMessageLoftRouterInstall loftRouterDomain cmd.Password)
                  s.world)
            else
              ((success.portForward c cmd loftPod s).1, cmd,
                (success.portForward c cmd loftPod s).2)
        else
          match c.GetLoftIngressHost cmd.Namespace s.world with
          | (.error err, w) =>
            (.returned (some err), cmd, s.after (.GetLoftIngressHost cmd.Namespace) w)
          | (.ok host, w) =>
            let s := s.after (.GetLoftIngressHost cmd.Namespace) w
            match reachableProbe c host s with
            | ((reachable, err), s) =>
              if !reachable || err != none then
                let question :=
                  "Unable to reach Loft at https://" ++ host ++
                    ". Do you want to start port-forwarding instead?"
                match c.Question
                    { Question := question, DefaultValue := "Yes",
                      Options := ["Yes", "No, please re-run the DNS check"] } s.world with
                | (.error err, w) => (.returned (some err), cmd, s.after (.Question question) w)
                | (.ok answer, w) =>
                  let s := s.after (.Question question) w
                  if answer == "Yes" then
                    ((success.portForward c cmd loftPod s).1, cmd,
                      (success.portForward c cmd loftPod s).2)
                  else
                    ((successRemote c cmd host s).1, cmd, (successRemote c cmd host s).2)
              else
                ((successRemote c cmd host s).1, cmd, (successRemote c cmd host s).2)

/-! ## The email pattern -/

/-- Regular expressions, as far as `emailRegex` needs them (the operators of Go's
`regexp/syntax`: no match, empty match, a character class, concatenation, alternation,
star). -/
inductive Regex where
  | noMatch
  | emptyMatch
  | charClass (p : Char → Bool)
  | concat (r1 r2 : Regex)
  | alternate (r1 r2 : Regex)
  | star (r : Regex)

/-- `r+`, one or more repetitions. -/
def Regex.plus (r : Regex) : Regex := .concat r (.star r)

/-- Whether the expression matches the empty text. -/
def Regex.nullable : Regex → Bool
  | .noMatch => false
  | .emptyMatch => true
  | .charClass _ => false
  | .concat r1 r2 => r1.nullable && r2.nullable
  | .alternate r1 r2 => r1.nullable || r2.nullable
  | .star _ => true

/-- The expression for what may follow the character `a`. -/
def Regex.derivative (a : Char) : Regex → Regex
  | .noMatch => .noMatch
  | .emptyMatch => .noMatch
  | .charClass p => if p a then .emptyMatch else .noMatch
  | .concat r1 r2 =>
    if r1.nullable then .alternate (.concat (r1.derivative a) r2) (r2.derivative a)
    else .concat (r1.derivative a) r2
  | .alternate r1 r2 => .alternate (r1.derivative a) (r2.derivative a)
  | .star r => .concat (r.derivative a) (.star r)

/-- `MatchString` for a pattern anchored at both ends (`^...$`, no multi-line flag): the whole
text matches the expression. -/
def Regex.MatchString (r : Regex) (s : String) : Bool :=
  (s.toList.foldl (fun r a => r.derivative a) r).nullable

/-- The body of `emailRegex` (start.go, line 39), `^[^@]+@[^\.]+\..+$`: a negated class
matches every other character, the newline included, and `.` matches every character but the
newline. -/
def emailRegex : Regex :=
  .concat (Regex.plus (.charClass fun a => a != '@'))
    (.concat (.charClass fun a => a == '@')
      (.concat (Regex.plus (.charClass fun a => a != '.'))
        (.concat (.charClass fun a => a == '.')
          (Regex.plus (.charClass fun a => a != '\n')))))

/-! ## `handleAlreadyExistingInstallation`, `prepare` and `Run` -/

/-- Lines 283-364 of `handleAlreadyExistingInstallation`: the decision `enableIngress`, or the
error the function returns at once, with the command (whose `Host` the hostname prompt may
set). -/
def handleAlreadyExistingInstallation.enableIngress {W : Type} (c : Collaborators W)
    (cmd : StartCmd) (s : St W) : Except GoError Bool × StartCmd × St W :=
  let enableIngress := false
  if cmd.Upgrade then (.ok enableIngress, cmd, s)
  else
    let isTerminal := (c.IsTerminal s.world).1
    let s := s.after .IsTerminal (c.IsTerminal s.world).2
    if !isTerminal then (.ok enableIngress, cmd, s)
    else
      let isLocal := (c.IsLoftInstalledLocally cmd.Namespace s.world).1
      let s := s.after (.IsLoftInstalledLocally cmd.Namespace)
        (c.IsLoftInstalledLocally cmd.Namespace s.world).2
      let enableIngress := if cmd.Host != "" then true else enableIngress
      if enableIngress then
        let question1 :=
          "Seems like your cluster is running locally (docker desktop, minikube, kind etc.). Is that correct?"
        let isLocalAnswer : Except GoError Bool × St W :=
          if isLocal then
            match c.Question
                { Question := question1, DefaultValue := "Yes",
                  Options :=
                    ["Yes", "No, my cluster is running not locally (GKE, EKS, Bare Metal etc."] }
                s.world with
            | (.error err, w) => (.error err, s.after (.Question question1) w)
            | (.ok answer, w) => (.ok (answer == "Yes"), s.after (.Question question1) w)
          else (.ok isLocal, s)
        match isLocalAnswer with
        | (.error err, s) => (.error err, cmd, s)
        | (.ok isLocal, s) =>
          let question2 :=
            "Enabling ingress is usually only useful for remote clusters. Do you still want to deploy the ingress for Loft to your local cluster?"
          let enableIngressAnswer : Except GoError Bool × St W :=
            if isLocal then
              match c.Question
                  { Question := question2, DefaultValue := "No",
                    Options := ["No", "Yes, enable the ingress for Loft anyway"] } s.world with
              | (.error err, w) => (.error err, s.after (.Question question2) w)
              | (.ok answer, w) =>
                (.ok (answer == "Yes, enable the ingress for Loft anyway"),
                  s.after (.Question question2) w)
            else (.ok enableIngress, s)
          match enableIngressAnswer with
          | (.error err, s) => (.error err, cmd, s)
          | (.ok enableIngress, s) =>
            if enableIngress then
              let hostAnswer : Except GoError StartCmd × St W :=
                if cmd.Host == "" then
                  match c.EnterHostNameQuestion s.world with
                  | (.error err, w) => (.error err, s.after .EnterHostNameQuestion w)
                  | (.ok host, w) =>
                    (.ok { cmd with Host := host }, s.after .EnterHostNameQuestion w)
                else (.ok cmd, s)
              match hostAnswer with
              | (.error err, s) => (.error err, cmd, s)
              | (.ok cmd, s) =>
                let isTerminal := (c.IsTerminal s.world).1
                let s := s.after .IsTerminal (c.IsTerminal s.world).2
                if isTerminal then
                  match c.EnsureIngressController cmd.Context s.world with
                  | (some err, w) =>
                    (.error (errorsWrap err "install ingress controller"), cmd,
                      s.after (.EnsureIngressController cmd.Context) w)
                  | (none, w) =>
                    (.ok enableIngress, cmd, s.after (.EnsureIngressController cmd.Context) w)
                else (.ok enableIngress, cmd, s)
            else (.ok enableIngress, cmd, s)
      else (.ok enableIngress, cmd, s)

/-- `StartCmd.handleAlreadyExistingInstallation` (start.go, lines 282-375). -/
def handleAlreadyExistingInstallation {W : Type} (c : Collaborators W) (cmd : StartCmd)
    (s : St W) : Return × StartCmd × St W :=
  match handleAlreadyExistingInstallation.enableIngress c cmd s with
  | (.error err, cmd, s) => (.returned (some err), cmd, s)
  | (.ok enableIngress, cmd, s) =>
    if cmd.Upgrade || enableIngress then
      match upgradeLoft c cmd "" s with
      | (some err, s) => (.returned (some err), cmd, s)
      | (none, s) => success c cmd s
    else success c cmd s

/-- The text of the error of lines 218, 266 and 270 of `prepare`. -/
def kubeConfigError (err : GoError) : GoError :=
  "there is an error loading your current kube config (" ++ err ++
    "), please make sure you have access to a kubernetes cluster and the command `kubectl get namespaces` is working"

/-- `StartCmd.prepare` (start.go, lines 205-280): the returned `error` and the command with
its `Context` set. -/
def prepare {W : Type} (c : Collaborators W) (cmd : StartCmd) (s : St W) :
    Option GoError × StartCmd × St W :=
  match c.NewClientFromPath cmd.Config s.world with
  | (.error err, w) => (some err, cmd, s.after (.NewClientFromPath cmd.Config) w)
  | (.ok loftConfig, w) =>
    let s := s.after (.NewClientFromPath cmd.Config) w
    match c.RawConfig s.world with
    | (.error err, w) => (some (kubeConfigError err), cmd, s.after .RawConfig w)
    | (.ok kubeConfig, w) =>
      let s := s.after .RawConfig w
      let contextToLoad := kubeConfig.CurrentContext
      let question :=
        "Seems like you try to use 'loft start' with a different kubernetes context than before. Please choose which kubernetes context you want to use"
      let contextAnswer : Except GoError String × St W :=
        if cmd.Context != "" then (.ok cmd.Context, s)
        else if loftConfig.LastInstallContext != "" &&
            loftConfig.LastInstallContext != contextToLoad then
          match c.Question
              { Question := question, DefaultValue := contextToLoad,
                Options := [contextToLoad, loftConfig.LastInstallContext] } s.world with
          | (.error err, w) => (.error err, s.after (.Question question) w)
          | (.ok answer, w) => (.ok answer, s.after (.Question question) w)
        else (.ok contextToLoad, s)
      match contextAnswer with
      | (.error err, s) => (some err, cmd, s)
      | (.ok contextToLoad, s) =>
        let cmd := { cmd with Context := contextToLoad }
        let s := s.after (.Save contextToLoad) (c.Save contextToLoad s.world).2
        match c.LookPath "helm" s.world with
        | (some _, w) =>
          (some "seems like helm is not installed. Helm is required for the installation of loft. Please visit https://helm.sh/docs/intro/install/ for install instructions",
            cmd, s.after (.LookPath "helm") w)
        | (none, w) =>
          let s := s.after (.LookPath "helm") w
          match c.CombinedOutput "helm" ["version"] s.world with
          | ((output, some _), w) =>
            (some ("seems like there are issues with your helm client: \n\n" ++ output), cmd,
              s.after (.CombinedOutput "helm" ["version"]) w)
          | ((_, none), w) =>
            let s := s.after (.CombinedOutput "helm" ["version"]) w
            match c.LookPath "kubectl" s.world with
            | (some _, w) =>
              (some "seems like kubectl is not installed. Kubectl is required for the installation of loft. Please visit https://kubernetes.io/docs/tasks/tools/install-kubectl/ for install instructions",
                cmd, s.after (.LookPath "kubectl") w)
            | (none, w) =>
              let s := s.after (.LookPath "kubectl") w
              match c.CombinedOutput "kubectl" ["version", "--context", contextToLoad]
                  s.world with
              | ((output, some _), w) =>
                (some ("seems like kubectl cannot connect to your Kubernetes cluster: \n\n" ++
                    output), cmd,
                  s.after (.CombinedOutput "kubectl" ["version", "--context", contextToLoad]) w)
              | ((_, none), w) =>
                let s :=
                  s.after (.CombinedOutput "kubectl" ["version", "--context", contextToLoad]) w
                match c.ClientConfig contextToLoad s.world with
                | (some err, w) =>
                  (some (kubeConfigError err), cmd, s.after (.ClientConfig contextToLoad) w)
                | (none, w) =>
                  let s := s.after (.ClientConfig contextToLoad) w
                  match c.NewForConfig s.world with
                  | (some err, w) => (some (kubeConfigError err), cmd, s.after .NewForConfig w)
                  | (none, w) =>
                    let s := s.after .NewForConfig w
                    match c.GetClusterRole "cluster-admin" s.world with
                    | (some err, w) =>
                      (some ("error retrieving cluster role 'cluster-admin': " ++ err ++
                          ". Please make sure RBAC is correctly configured in your cluster"),
                        cmd, s.after (.GetClusterRole "cluster-admin") w)
                    | (none, w) => (none, cmd, s.after (.GetClusterRole "cluster-admin") w)

/-- `StartCmd.prepareInstall` (start.go, lines 200-203). -/
def prepareInstall {W : Type} (c : Collaborators W) (cmd : StartCmd) (s : St W) :
    Option GoError × St W :=
  ((c.UninstallLoft cmd.Context cmd.Namespace s.world).1,
    s.after (.UninstallLoft cmd.Context cmd.Namespace)
      (c.UninstallLoft cmd.Context cmd.Namespace s.world).2)

/-- Lines 146-154 of `Run`, "Use default password if none is set": the error `Run` returns at
once, or the command with the password it goes on with. -/
def Run.defaultPassword {W : Type} (c : Collaborators W) (cmd : StartCmd) (s : St W) :
    Option GoError × StartCmd × St W :=
  if cmd.Password == "" then
    match c.GetLoftDefaultPassword cmd.Namespace s.world with
    | (.error err, w) => (some err, cmd, s.after (.GetLoftDefaultPassword cmd.Namespace) w)
    | (.ok defaultPassword, w) =>
      (none, { cmd with Password := defaultPassword },
        s.after (.GetLoftDefaultPassword cmd.Namespace) w)
  else (none, cmd, s)

/-- Lines 165-184 of `Run`, "Get email": the email of the flag or of the prompt, or the error
`Run` returns at once. -/
def Run.email {W : Type} (c : Collaborators W) (cmd : StartCmd) (s : St W) :
    Except GoError String × St W :=
  let email := cmd.Email
  if email == "" then
    let isTerminal := (c.IsTerminal s.world).1
    let s := s.after .IsTerminal (c.IsTerminal s.world).2
    if !isTerminal then
      (.error "please enter an email via 'loft start --email my-email@domain.com'", s)
    else
      let question := "Enter your email address to create the login for your admin user"
      match c.Question
          { Question := question
            ValidationFunc := some fun emailVal =>
              if !emailRegex.MatchString emailVal then
                some (emailVal ++ " is not a valid email address")
              else none } s.world with
      | (.error err, w) => (.error err, s.after (.Question question) w)
      | (.ok email, w) => (.ok email, s.after (.Question question) w)
  else (.ok email, s)

/-- `StartCmd.Run` (start.go, lines 125-198). -/
def Run {W : Type} (c : Collaborators W) (cmd : StartCmd) (s : St W) :
    Return × StartCmd × St W :=
  match prepare c cmd s with
  | (some err, cmd, s) => (.returned (some err), cmd, s)
  | (none, cmd, s) =>
    let uninstall : Option GoError × St W :=
      if cmd.Reset then
        ((c.UninstallLoft cmd.Context cmd.Namespace s.world).1,
          s.after (.UninstallLoft cmd.Context cmd.Namespace)
            (c.UninstallLoft cmd.Context cmd.Namespace s.world).2)
      else (none, s)
    match uninstall with
    | (some err, s) => (.returned (some err), cmd, s)
    | (none, s) =>
      match c.IsLoftAlreadyInstalled cmd.Namespace s.world with
      | (.error err, w) =>
        (.returned (some err), cmd, s.after (.IsLoftAlreadyInstalled cmd.Namespace) w)
      | (.ok isInstalled, w) =>
        let s := s.after (.IsLoftAlreadyInstalled cmd.Namespace) w
        match Run.defaultPassword c cmd s with
        | (some err, cmd, s) => (.returned (some err), cmd, s)
        | (none, cmd, s) =>
          if isInstalled then handleAlreadyExistingInstallation c cmd s
          else
            match Run.email c cmd s with
            | (.error err, s) => (.returned (some err), cmd, s)
            | (.ok email, s) =>
              match prepareInstall c cmd s with
              | (some err, s) => (.returned (some err), cmd, s)
              | (none, s) =>
                match upgradeLoft c cmd email s with
                | (some err, s) => (.returned (some err), cmd, s)
                | (none, s) => success c cmd s

/-! ## Reading the call log -/

/-- Whether a logged call is a chart deployment, `clihelper.UpgradeLoft`. -/
def Call.isUpgradeLoft : Call → Bool
  | .UpgradeLoft _ _ _ _ _ => true
  | _ => false

/-- Whether a logged call asks for the namespace-derived default password,
`clihelper.GetLoftDefaultPassword`. -/
def Call.isGetLoftDefaultPassword : Call → Bool
  | .GetLoftDefaultPassword _ => true
  | _ => false

/-- The number of chart deployments in a call log. -/
def deployments (calls : List Call) : Nat :=
  calls.countP Call.isUpgradeLoft

/-- The state `s'` is the state `s` after further calls, all of them in the class
`allowed`. -/
def St.Extends {W : Type} (allowed : Call → Bool) (s s' : St W) : Prop :=
  ∃ new, s'.calls = s.calls ++ new ∧ ∀ x ∈ new, allowed x = true

/-- The calls `upgradeLoft` makes. -/
def Call.ofUpgradeLoft : Call → Bool
  | .Abs _ => true
  | .UpgradeLoft _ _ _ _ _ => true
  | .GetLoftManifests _ _ _ _ _ => true
  | .kubectlDelete _ => true
  | _ => false

/-- The calls `success` makes, by itself or through `waitForLoft`, `pingLoftRouter`,
`startPortForwarding`, `successLocal` and `successRemote`. -/
def Call.ofSuccess : Call → Bool
  | .WaitForReadyLoftPod _ => true
  | .EnsureAdminPassword _ => true
  | .IsLoftInstalledLocally _ => true
  | .GetSecret _ _ => true
  | .NewRequestWithContext _ => true
  | .Do _ => true
  | .StartPortForwarding _ _ => true
  | .restartPortForwarding => true
  | .GetLoftIngressHost _ => true
  | .IsLoftReachable _ => true
  | .Question _ => true
  | .PrintSuccessMessageLoftRouterInstall _ _ => true
  | .PrintSuccessMessageLocalInstall _ _ => true
  | .PrintSuccessMessageRemoteInstall _ _ => true
  | .PrintDNSConfiguration _ => true
  | _ => false

/-- The calls `handleAlreadyExistingInstallation` makes before it deploys or goes on to
`success`. -/
def Call.ofEnableIngress : Call → Bool
  | .IsTerminal => true
  | .IsLoftInstalledLocally _ => true
  | .Question _ => true
  | .EnterHostNameQuestion => true
  | .EnsureIngressController _ => true
  | _ => false

/-- The calls `prepare` makes. -/
def Call.ofPrepare : Call → Bool
  | .NewClientFromPath _ => true
  | .RawConfig => true
  | .Question _ => true
  | .Save _ => true
  | .LookPath _ => true
  | .CombinedOutput _ _ => true
  | .ClientConfig _ => true
  | .NewForConfig => true
  | .GetClusterRole _ => true
  | _ => false

/-! ## A concrete world, for evaluating the command -/

/-- A scripted world: the answers the chart deployer gives to its successive invocations
(success once the list is used up), and the fixed answers of the manifest render, of the
forced delete, of the installation check, of the terminal check and of the default-password
lookup. -/
structure Script where
  deploys : List (Option GoError) := []
  manifests : Except GoError String := .ok "kind: Deployment"
  delete : Option GoError := none
  installed : Bool := false
  terminal : Bool := false
  defaultPassword : Except GoError String := .ok "uid-1234"

/-- The collaborators of the scripted world. -/
def scripted : Collaborators Script where
  NewClientFromPath := fun _ w => (.ok {}, w)
  RawConfig := fun w => (.ok { CurrentContext := "kind-kind" }, w)
  Save := fun _ w => (none, w)
  LookPath := fun _ w => (none, w)
  CombinedOutput := fun _ _ w => (("", none), w)
  ClientConfig := fun _ w => (none, w)
  NewForConfig := fun w => (none, w)
  GetClusterRole := fun _ w => (none, w)
  UninstallLoft := fun _ _ w => (none, w)
  IsLoftAlreadyInstalled := fun _ w => (.ok w.installed, w)
  GetLoftDefaultPassword := fun _ w => (w.defaultPassword, w)
  IsLoftInstalledLocally := fun _ w => (true, w)
  EnterHostNameQuestion := fun w => (.ok "loft.example", w)
  EnsureIngressController := fun _ w => (none, w)
  UpgradeLoft := fun _ _ _ _ _ w => (w.deploys.head?.getD none, { w with deploys := w.deploys.tail })
  GetLoftManifests := fun _ _ _ _ _ w => (w.manifests, w)
  WaitForReadyLoftPod := fun ns w => (.ok { Name := "loft-0", Namespace := ns }, w)
  EnsureAdminPassword := fun _ w => (.ok false, w)
  StartPortForwarding := fun _ _ w => (none, w)
  GetLoftIngressHost := fun _ w => (.ok "loft.example", w)
  IsLoftReachable := fun _ w => ((true, none), w)
  LoftRouterDomainSecret := "loft-router-domain"
  kubectlDelete := fun _ w => (w.delete, w)
  Abs := fun path w => (.ok ("/work/" ++ path), w)
  IsTerminal := fun w => (w.terminal, w)
  Question := fun o w => (.ok o.DefaultValue, w)
  Color := fun s _ => s
  GetSecret := fun _ _ w => (.error { text := "not found", IsNotFound := true }, w)
  NewRequestWithContext := fun _ _ => none
  Do := fun _ w => (.ok 200, w)
  Timeout := 60 * Minute
  pollAttempts := fun _ _ _ => 3

/-- The texts an expression matches: the meaning of each operator. A text matches `r*` when
it is a sequence of non-empty pieces that each match `r`. -/
def Regex.Matches : Regex → List Char → Prop
  | .noMatch, _ => False
  | .emptyMatch, s => s = []
  | .charClass p, s => ∃ a, s = [a] ∧ p a = true
  | .concat r1 r2, s => ∃ s1 s2, s = s1 ++ s2 ∧ r1.Matches s1 ∧ r2.Matches s2
  | .alternate r1 r2, s => r1.Matches s ∨ r2.Matches s
  | .star r, s =>
    ∃ pieces : List (List Char), s = pieces.flatten ∧ ∀ x ∈ pieces, x ≠ [] ∧ r.Matches x

/-! ## Finer classes of calls -/

/-- The calls of a health probe. -/
def Call.ofHealthProbe : Call → Bool
  | .NewRequestWithContext _ => true
  | .Do _ => true
  | _ => false

/-- The calls `waitForLoft` makes. -/
def Call.ofWaitForLoft : Call → Bool
  | .WaitForReadyLoftPod _ => true
  | .EnsureAdminPassword _ => true
  | _ => false

/-- The calls `pingLoftRouter` makes. -/
def Call.ofPingLoftRouter : Call → Bool
  | .GetSecret _ _ => true
  | .NewRequestWithContext _ => true
  | .Do _ => true
  | _ => false

/-- The calls `startPortForwarding` makes. -/
def Call.ofStartPortForwarding : Call → Bool
  | .StartPortForwarding _ _ => true
  | .restartPortForwarding => true
  | .NewRequestWithContext _ => true
  | .Do _ => true
  | _ => false

/-- The calls `successRemote` makes for a command with the given password. -/
def Call.ofSuccessRemote (password : String) : Call → Bool
  | .IsLoftReachable _ => true
  | .PrintDNSConfiguration _ => true
  | .PrintSuccessMessageRemoteInstall _ p => p == password
  | _ => false

/-- Whether a logged call starts a port-forward (`clihelper.StartPortForwarding`, or the
supervising goroutine). -/
def Call.isPortForward : Call → Bool
  | .StartPortForwarding _ _ => true
  | .restartPortForwarding => true
  | _ => false

/-- Whether a logged call is a reachability check, `clihelper.IsLoftReachable`. -/
def Call.isIsLoftReachable : Call → Bool
  | .IsLoftReachable _ => true
  | _ => false

/-- Whether a logged call prints a success message to the user. -/
def Call.isPrintSuccessMessage : Call → Bool
  | .PrintSuccessMessageLoftRouterInstall _ _ => true
  | .PrintSuccessMessageLocalInstall _ _ => true
  | .PrintSuccessMessageRemoteInstall _ _ => true
  | _ => false

/-- A logged call that prints a success message presents the given password; every other
call passes. -/
def Call.presentsPassword (password : String) : Call → Bool
  | .PrintSuccessMessageLoftRouterInstall _ p => p == password
  | .PrintSuccessMessageLocalInstall p _ => p == password
  | .PrintSuccessMessageRemoteInstall _ p => p == password
  | _ => true

/-- The scripted world on a cluster that has the router-domain secret, with the domain
`loft.host`. -/
def scriptedRouter : Collaborators Script :=
  { scripted with
    GetSecret := fun _ _ w => (.ok { Data := some [("domain", "loft.host")] }, w) }

/-- The scripted world on a remote cluster whose ingress host is never reachable, with the
answer of `Log.Question` given. -/
def scriptedRemote (question : Except GoError String) : Collaborators Script :=
  { scripted with
    IsLoftInstalledLocally := fun _ w => (false, w)
    IsLoftReachable := fun _ w => ((false, none), w)
    Question := fun _ w => (question, w) }


/-- The scripted world in a session with a terminal whose user types `answer` at every prompt.
As the prompt of `survey` does, it accepts only an answer that passes the `ValidationFunc` of
the question; here it gives up with the validation error otherwise. -/
def scriptedPrompt (answer : String) : Collaborators Script :=
  { scripted with
    IsTerminal := fun w => (true, w)
    Question := fun o w =>
      match o.ValidationFunc with
      | none => (.ok answer, w)
      | some f =>
        match f answer with
        | none => (.ok answer, w)
        | some err => (.error err, w) }


/-! ## Port-forward supervision -/

/-- Where the loop of `restartPortForwarding` stands: blocked in `<-stopChan`, on the stop
channel of the current forward, or ended by `cmd.Log.Fatalf`, which logs the message and
exits the process. -/
inductive Supervision (W Chan : Type) where
  | waiting (stopChan : Chan) (s : St W)
  | fatal (message : GoError) (s : St W)

/-- Whether `cmd.Log.Fatalf` ended the process. -/
def Supervision.isFatal {W Chan : Type} : Supervision W Chan → Bool
  | .waiting _ _ => false
  | .fatal _ _ => true

/-- The state of the world and the call log the loop has reached. -/
def Supervision.state {W Chan : Type} : Supervision W Chan → St W
  | .waiting _ s => s
  | .fatal _ s => s

/-- One pass of the loop body of `restartPortForwarding` (start.go, lines 664-680), entered
when `<-stopChan` returned. `clihelper.StartPortForwarding` returns `(stopChan, err)`:
`Collaborators.StartPortForwarding` gives the error and the world the call leaves, and
`stopChanOf` reads the stop channel of the new forward off that world. -/
def restartPortForwarding.iteration {W Chan : Type} (c : Collaborators W)
    (stopChanOf : W → Chan) (cmd : StartCmd) (s : St W) : Supervision W Chan :=
  match c.WaitForReadyLoftPod cmd.Namespace s.world with
  | (.error err, w) =>
    .fatal ("Error waiting for ready loft pod: " ++ err)
      (s.after (.WaitForReadyLoftPod cmd.Namespace) w)
  | (.ok loftPod, w) =>
    let s := s.after (.WaitForReadyLoftPod cmd.Namespace) w
    match c.StartPortForwarding loftPod cmd.LocalPort s.world with
    | (some err, w) =>
      .fatal ("Error starting port forwarding: " ++ err)
        (s.after (.StartPortForwarding loftPod cmd.LocalPort) w)
    | (none, w) =>
      .waiting (stopChanOf w) (s.after (.StartPortForwarding loftPod cmd.LocalPort) w)

/-- `StartCmd.restartPortForwarding` (start.go, lines 662-682), the loop
`for { <-stopChan; ... }`, while the stop signal it waits for fires `signals` times: where the
loop stands then, and the channels it has received from, oldest first. With no signal left
the loop is blocked in `<-stopChan`. -/
def restartPortForwarding {W Chan : Type} (c : Collaborators W) (stopChanOf : W → Chan)
    (cmd : StartCmd) : (signals : Nat) → (stopChan : Chan) → St W →
    Supervision W Chan × List Chan
  | 0, stopChan, s => (.waiting stopChan s, [])
  | signals + 1, stopChan, s =>
    match restartPortForwarding.iteration c stopChanOf cmd s with
    | .fatal message s => (.fatal message s, [stopChan])
    | .waiting stopChan1 s =>
      ((restartPortForwarding c stopChanOf cmd signals stopChan1 s).1,
        stopChan :: (restartPortForwarding c stopChanOf cmd signals stopChan1 s).2)

/-- The scripted world in which `StartPortForwarding` reads the scripted answers (the list
`deploys`), one for every forward it is asked to open. -/
def scriptedForwards : Collaborators Script :=
  { scripted with
    StartPortForwarding := fun _ _ w =>
      (w.deploys.head?.getD none, { w with deploys := w.deploys.tail }) }

/-- The stop channel of the forward opened last in the scripted world, named by the number of
scripted answers that are left. -/
def scriptedStopChan (w : Script) : Nat := w.deploys.length


end Cmd

end Loftctl

namespace Loftctl.Use

/-! ## Lemmas on the pieces of the resolver -/

/-- The loop over the kubeconfig's clusters leaves the server of the entry visited last, and
the server it started with when there is no entry. -/
theorem rangeClustersServer_Server (clusters : List (String × ApiCluster))
    (o : ContextOptions) :
    (rangeClustersServer clusters o).Server
      = ((clusters.getLast?).map (fun val => val.2.Server)).getD o.Server := by
  induction clusters generalizing o with
  | nil => rfl
  | cons c cs ih =>
    cases cs with
    | nil => rfl
    | cons d ds =>
      have hstep : rangeClustersServer (c :: d :: ds) o
          = rangeClustersServer (d :: ds) { o with Server := c.2.Server } := rfl
      rw [hstep, ih, List.getLast?_cons_cons,
        List.getLast?_eq_getLast (d :: ds) (List.cons_ne_nil d ds)]
      rfl

/-- The loop over the kubeconfig's clusters assigns no field but `Server`. -/
theorem rangeClustersServer_frame (clusters : List (String × ApiCluster))
    (o : ContextOptions) :
    rangeClustersServer clusters o
      = { o with Server := (rangeClustersServer clusters o).Server } := by
  induction clusters generalizing o with
  | nil => rfl
  | cons c cs ih =>
    have := ih { o with Server := c.2.Server }
    simp only [rangeClustersServer, List.foldl_cons] at this ⊢
    exact this

/-- The calls of `getVirtualClusterInstanceAccessConfig` are the four of its body. -/
theorem getVirtualClusterInstanceAccessConfig_calls (h : Helpers) (baseClient : Client)
    (vci : VirtualClusterInstance) (c : Call)
    (hc : c ∈ (getVirtualClusterInstanceAccessConfig h baseClient vci).2) :
    c = .Management ∨ (∃ ns name, c = .GetKubeConfig ns name) ∨
      (∃ data, c = .NewClientConfigFromBytes data) ∨ c = .RawConfig := by
  unfold getVirtualClusterInstanceAccessConfig at hc
  split at hc
  · simp_all
  · split at hc
    · simp only [List.mem_cons, List.mem_singleton, List.not_mem_nil, or_false] at hc
      rcases hc with rfl | rfl
      · simp
      · exact Or.inr (Or.inl ⟨_, _, rfl⟩)
    · split at hc
      · simp only [List.mem_cons, List.mem_singleton, List.not_mem_nil, or_false] at hc
        rcases hc with rfl | rfl | rfl
        · simp
        · exact Or.inr (Or.inl ⟨_, _, rfl⟩)
        · exact Or.inr (Or.inr (Or.inl ⟨_, rfl⟩))
      · split at hc <;>
        · simp only [List.mem_cons, List.mem_singleton, List.not_mem_nil, or_false] at hc
          rcases hc with rfl | rfl | rfl | rfl
          · simp
          · exact Or.inr (Or.inl ⟨_, _, rfl⟩)
          · exact Or.inr (Or.inr (Or.inl ⟨_, rfl⟩))
          · simp

/-! ## The priority order of the resolver -/

/-- C1: for a virtual cluster instance whose status reports an enabled ingress access point
(`Status.VirtualCluster` non-nil and `AccessPoint.Ingress.Enabled`), whatever the cluster's
annotations and whatever `disableClusterGateway`, a successful
`CreateVirtualClusterInstanceOptions` has `VirtualClusterAccessPointEnabled = true` and
`InsecureSkipTLSVerify = true`, its `Server` is read from the kubeconfig that
`getVirtualClusterInstanceAccessConfig` fetched (the server of the cluster entry visited last,
empty when there is none), and its call log holds no `ApplyDirectClusterEndpointOptions`, no
`DirectClusterEndpointToken` and no `Config()` call (the gateway path is never built). -/
theorem CreateVirtualClusterInstanceOptions_ingress_priority (h : Helpers) (baseClient : Client)
    (config projectName : String) (vci : VirtualClusterInstance)
    (disableClusterGateway setActive : Bool)
    (hIngress : ∃ vc, vci.Status.VirtualCluster = some vc ∧ vc.AccessPoint.Ingress.Enabled = true)
    (hOk : (CreateVirtualClusterInstanceOptions h baseClient config projectName vci
      disableClusterGateway setActive).err = none) :
    (CreateVirtualClusterInstanceOptions h baseClient config projectName vci
        disableClusterGateway setActive).options.VirtualClusterAccessPointEnabled = true ∧
    (CreateVirtualClusterInstanceOptions h baseClient config projectName vci
        disableClusterGateway setActive).options.InsecureSkipTLSVerify = true ∧
    (∃ kubeConfig, (getVirtualClusterInstanceAccessConfig h baseClient vci).1 = .ok kubeConfig ∧
      (CreateVirtualClusterInstanceOptions h baseClient config projectName vci
          disableClusterGateway setActive).options.Server
        = ((kubeConfig.Clusters.getLast?).map (fun val => val.2.Server)).getD "") ∧
    (∀ path, Call.ApplyDirectClusterEndpointOptions path ∉
      (CreateVirtualClusterInstanceOptions h baseClient config projectName vci
        disableClusterGateway setActive).calls) ∧
    (∀ forceRefresh, Call.DirectClusterEndpointToken forceRefresh ∉
      (CreateVirtualClusterInstanceOptions h baseClient config projectName vci
        disableClusterGateway setActive).calls) ∧
    Call.Config ∉ (CreateVirtualClusterInstanceOptions h baseClient config projectName vci
        disableClusterGateway setActive).calls := by
  obtain ⟨vc, hvc, hen⟩ := hIngress
  have hi : ingressEnabled vci = true := by simp [ingressEnabled, hvc, hen]
  have hcalls := getVirtualClusterInstanceAccessConfig_calls h baseClient vci
  unfold CreateVirtualClusterInstanceOptions at hOk ⊢
  cases hf : h.findProjectCluster baseClient projectName vci.Spec.ClusterRef.Cluster with
  | error e => simp [hf] at hOk
  | ok cluster =>
    rcases hg : getVirtualClusterInstanceAccessConfig h baseClient vci with ⟨r, c1⟩
    rw [hg] at hcalls
    cases r with
    | error e => simp [hf, hi, hg] at hOk
    | ok kubeConfig =>
      simp only [hf, hi, hg, if_true]
      refine ⟨trivial, trivial, ⟨kubeConfig, rfl, ?_⟩, ?_, ?_, ?_⟩
      · exact rangeClustersServer_Server kubeConfig.Clusters _
      · intro path hmem
        simp only [List.mem_append, List.mem_singleton] at hmem
        rcases hmem with hmem | hmem
        · cases hmem
        · rcases hcalls _ hmem with h1 | ⟨_, _, h1⟩ | ⟨_, h1⟩ | h1 <;> cases h1
      · intro b hmem
        simp only [List.mem_append, List.mem_singleton] at hmem
        rcases hmem with hmem | hmem
        · cases hmem
        · rcases hcalls _ hmem with h1 | ⟨_, _, h1⟩ | ⟨_, h1⟩ | h1 <;> cases h1
      · intro hmem
        simp only [List.mem_append, List.mem_singleton] at hmem
        rcases hmem with hmem | hmem
        · cases hmem
        · rcases hcalls _ hmem with h1 | ⟨_, _, h1⟩ | ⟨_, h1⟩ | h1 <;> cases h1

/-- C1, at a concrete input: an instance with ingress access enabled on a cluster that carries
the direct-endpoint annotation, with the direct endpoint not disabled. -/
theorem CreateVirtualClusterInstanceOptions_ingress_priority_witness :
    (CreateVirtualClusterInstanceOptions (sampleHelpers sampleCluster (.ok [1, 2]))
      (sampleClient (.ok {}) (.ok "t")) "cfg" "proj" ingressInstance false true).options.Server
        = "https://b.example" ∧
    Call.Config ∉ (CreateVirtualClusterInstanceOptions (sampleHelpers sampleCluster (.ok [1, 2]))
      (sampleClient (.ok {}) (.ok "t")) "cfg" "proj" ingressInstance false true).calls :=
  have key := CreateVirtualClusterInstanceOptions_ingress_priority
    (sampleHelpers sampleCluster (.ok [1, 2])) (sampleClient (.ok {}) (.ok "t")) "cfg" "proj"
    ingressInstance false true ⟨_, rfl, rfl⟩ rfl
  ⟨by decide, key.2.2.2.2.2⟩

/-- C2: with `disableClusterGateway = true`, for every cluster and every annotation map,
neither `CreateVirtualClusterInstanceOptions` nor `CreateVClusterContextOptions` applies
`ApplyDirectClusterEndpointOptions` or requests `DirectClusterEndpointToken` (no such call is
in the log), and the whole outcome is the same whatever `ApplyDirectClusterEndpointOptions`
would compute: no field of the result is populated by it. -/
theorem disableClusterGateway_never_direct_endpoint (h : Helpers) (baseClient : Client)
    (config projectName : String) (vci : VirtualClusterInstance) (cluster : Cluster)
    (spaceName virtualClusterName : String) (setActive : Bool) :
    (∀ c ∈ (CreateVirtualClusterInstanceOptions h baseClient config projectName vci
        true setActive).calls, c.isDirectEndpoint = false) ∧
    (∀ c ∈ (CreateVClusterContextOptions h baseClient config cluster spaceName
        virtualClusterName true setActive).calls, c.isDirectEndpoint = false) ∧
    (∀ apply : ContextOptions → Cluster → String → ContextOptions,
      CreateVirtualClusterInstanceOptions { h with ApplyDirectClusterEndpointOptions := apply }
          baseClient config projectName vci true setActive
        = CreateVirtualClusterInstanceOptions h baseClient config projectName vci
            true setActive) ∧
    (∀ (apply : ContextOptions → Cluster → String → ContextOptions)
        (token : Bool → Except GoError String),
      CreateVClusterContextOptions { h with ApplyDirectClusterEndpointOptions := apply }
          { baseClient with DirectClusterEndpointToken := token } config cluster spaceName
          virtualClusterName true setActive
        = CreateVClusterContextOptions h baseClient config cluster spaceName
            virtualClusterName true setActive) := by
  have hno : ∀ (h : Helpers) (cl : Cluster), useDirectClusterEndpoint h cl true = false := by
    intro h cl; simp [useDirectClusterEndpoint]
  refine ⟨?_, ?_, ?_, ?_⟩
  · intro c hc
    have hcalls := getVirtualClusterInstanceAccessConfig_calls h baseClient vci
    unfold CreateVirtualClusterInstanceOptions at hc
    simp only [hno] at hc
    split at hc
    · simp only [List.mem_singleton] at hc; subst hc; rfl
    · split at hc
      · split at hc <;>
        · simp only [List.mem_append, List.mem_singleton] at hc
          rcases hc with hc | hc
          · subst hc; rfl
          · rename_i hg
            rw [hg] at hcalls
            rcases hcalls _ hc with h1 | ⟨_, _, h1⟩ | ⟨_, h1⟩ | h1 <;> subst h1 <;> rfl
      · simp only [Bool.false_eq_true, if_false] at hc
        split at hc <;>
        · simp only [List.mem_append, List.mem_cons, List.mem_singleton, List.not_mem_nil,
            or_false] at hc
          rcases hc with (hc | hc | hc) | hc <;> subst hc <;> rfl
  · intro c hc
    unfold CreateVClusterContextOptions at hc
    simp only [hno, Bool.false_eq_true, if_false] at hc
    split at hc <;>
    · simp only [List.mem_append, List.mem_cons, List.mem_singleton, List.not_mem_nil,
        or_false] at hc
      rcases hc with (hc | hc) | hc <;> subst hc <;> rfl
  · intro apply
    simp only [CreateVirtualClusterInstanceOptions, hno, getVirtualClusterInstanceAccessConfig,
      Bool.false_eq_true, if_false]
  · intro apply token
    simp only [CreateVClusterContextOptions, hno, Bool.false_eq_true, if_false]

/-! ## The gateway fallback -/

/-- C7 as stated fails: with ingress access not enabled and the direct endpoint disabled by
the caller (on a cluster without annotations), a failing `retrieveCaData` makes
`CreateVirtualClusterInstanceOptions` return that error and the empty options, whose `Server`
is not the gateway path. -/
theorem gateway_fallback_not_returned_on_ca_error :
    ingressEnabled plainInstance = false ∧
    plainCluster.Annotations = none ∧
    (CreateVirtualClusterInstanceOptions (sampleHelpers plainCluster (.error "illegal base64"))
      (sampleClient (.ok {}) (.ok "t")) "cfg" "proj" plainInstance true true).err
        = some "illegal base64" ∧
    (CreateVirtualClusterInstanceOptions (sampleHelpers plainCluster (.error "illegal base64"))
      (sampleClient (.ok {}) (.ok "t")) "cfg" "proj" plainInstance true true).options.Server
        = "" ∧
    (CreateVirtualClusterInstanceOptions (sampleHelpers plainCluster (.error "illegal base64"))
      (sampleClient (.ok {}) (.ok "t")) "cfg" "proj" plainInstance true true).options.Server
        ≠ (sampleClient (.ok {}) (.ok "t")).Config.Host ++ "/kubernetes/project/" ++ "proj" ++
            "/virtualcluster/" ++ plainInstance.Name := by
  decide

/-- C7, amended: when ingress access is not enabled and the direct endpoint is not used
(disabled by the caller, or `Annotations == nil`, or an empty direct-endpoint annotation),
then, once the cluster is found and `retrieveCaData` succeeds, both functions succeed with the
gateway path as `Server` (`Config().Host ++ "/kubernetes/project/" ++ project ++
"/virtualcluster/" ++ name`, resp. `Config().Host ++ "/kubernetes/virtualcluster/" ++ cluster
++ "/" ++ space ++ "/" ++ name`), `InsecureSkipTLSVerify = Config().Insecure` and
`VirtualClusterAccessPointEnabled = false`; when `retrieveCaData` fails they return its error
and the empty options. -/
theorem gateway_fallback (h : Helpers) (baseClient : Client) (config projectName : String)
    (vci : VirtualClusterInstance) (cluster : Cluster) (spaceName virtualClusterName : String)
    (disableClusterGateway setActive : Bool)
    (hNoDirect : disableClusterGateway = true ∨ cluster.Annotations = none ∨
      ∃ a, cluster.Annotations = some a ∧ mapIndex a h.LoftDirectClusterEndpoint = "")
    (hIngress : ingressEnabled vci = false)
    (hCluster : h.findProjectCluster baseClient projectName vci.Spec.ClusterRef.Cluster
      = .ok cluster) :
    (∀ data, h.retrieveCaData cluster = .ok data →
      (CreateVirtualClusterInstanceOptions h baseClient config projectName vci
          disableClusterGateway setActive).err = none ∧
      (CreateVirtualClusterInstanceOptions h baseClient config projectName vci
          disableClusterGateway setActive).options.Server
        = baseClient.Config.Host ++ "/kubernetes/project/" ++ projectName ++
            "/virtualcluster/" ++ vci.Name ∧
      (CreateVirtualClusterInstanceOptions h baseClient config projectName vci
          disableClusterGateway setActive).options.InsecureSkipTLSVerify
        = baseClient.Config.Insecure ∧
      (CreateVirtualClusterInstanceOptions h baseClient config projectName vci
          disableClusterGateway setActive).options.VirtualClusterAccessPointEnabled = false ∧
      (CreateVClusterContextOptions h baseClient config cluster spaceName virtualClusterName
          disableClusterGateway setActive).err = none ∧
      (CreateVClusterContextOptions h baseClient config cluster spaceName virtualClusterName
          disableClusterGateway setActive).options.Server
        = baseClient.Config.Host ++ "/kubernetes/virtualcluster/" ++ cluster.Name ++ "/" ++
            spaceName ++ "/" ++ virtualClusterName ∧
      (CreateVClusterContextOptions h baseClient config cluster spaceName virtualClusterName
          disableClusterGateway setActive).options.InsecureSkipTLSVerify
        = baseClient.Config.Insecure ∧
      (CreateVClusterContextOptions h baseClient config cluster spaceName virtualClusterName
          disableClusterGateway setActive).options.VirtualClusterAccessPointEnabled = false) ∧
    (∀ e, h.retrieveCaData cluster = .error e →
      (CreateVirtualClusterInstanceOptions h baseClient config projectName vci
          disableClusterGateway setActive).err = some e ∧
      (CreateVirtualClusterInstanceOptions h baseClient config projectName vci
          disableClusterGateway setActive).options = {} ∧
      (CreateVClusterContextOptions h baseClient config cluster spaceName virtualClusterName
          disableClusterGateway setActive).err = some e ∧
      (CreateVClusterContextOptions h baseClient config cluster spaceName virtualClusterName
          disableClusterGateway setActive).options = {}) := by
  have hno : useDirectClusterEndpoint h cluster disableClusterGateway = false := by
    rcases hNoDirect with hd | hn | ⟨a, ha, hempty⟩
    · simp [useDirectClusterEndpoint, hd]
    · simp [useDirectClusterEndpoint, hn]
    · simp [useDirectClusterEndpoint, ha, hempty]
  constructor
  · intro data hdata
    simp [CreateVirtualClusterInstanceOptions, CreateVClusterContextOptions, hno, hIngress,
      hCluster, hdata]
  · intro e he
    simp [CreateVirtualClusterInstanceOptions, CreateVClusterContextOptions, hno, hIngress,
      hCluster, he]

/-- C7, amended, at a concrete input: a cluster that carries the direct-endpoint annotation,
with the direct endpoint disabled by the caller. -/
theorem gateway_fallback_witness :
    (CreateVirtualClusterInstanceOptions (sampleHelpers sampleCluster (.ok [1, 2]))
      (sampleClient (.ok {}) (.ok "t")) "cfg" "proj" plainInstance true true).options.Server
        = "https://loft.example/kubernetes/project/proj/virtualcluster/vc" ∧
    (CreateVClusterContextOptions (sampleHelpers sampleCluster (.ok [1, 2]))
      (sampleClient (.ok {}) (.ok "t")) "cfg" sampleCluster "space" "vc" true true).options.Server
        = "https://loft.example/kubernetes/virtualcluster/c1/space/vc" :=
  have key := (gateway_fallback (sampleHelpers sampleCluster (.ok [1, 2]))
    (sampleClient (.ok {}) (.ok "t")) "cfg" "proj" plainInstance sampleCluster "space" "vc"
    true true (Or.inl rfl) rfl rfl).1 [1, 2] rfl
  ⟨key.2.1.trans (by decide), key.2.2.2.2.2.1.trans (by decide)⟩

/-! ## CA data -/

/-- C8 as stated fails in the ingress access-point branch: on a cluster whose
`retrieveCaData` answers the bytes `[1, 2]`, a successful
`CreateVirtualClusterInstanceOptions` for an instance with ingress access enabled has an empty
`CaData`, and `retrieveCaData` is not among its calls. -/
theorem ingress_branch_attaches_no_ca_data :
    ingressEnabled ingressInstance = true ∧
    (sampleHelpers sampleCluster (.ok [1, 2])).retrieveCaData sampleCluster = .ok [1, 2] ∧
    (CreateVirtualClusterInstanceOptions (sampleHelpers sampleCluster (.ok [1, 2]))
      (sampleClient (.ok {}) (.ok "t")) "cfg" "proj" ingressInstance false true).err = none ∧
    (CreateVirtualClusterInstanceOptions (sampleHelpers sampleCluster (.ok [1, 2]))
      (sampleClient (.ok {}) (.ok "t")) "cfg" "proj" ingressInstance false true).options.CaData
        = [] ∧
    Call.retrieveCaData "c1" ∉
      (CreateVirtualClusterInstanceOptions (sampleHelpers sampleCluster (.ok [1, 2]))
        (sampleClient (.ok {}) (.ok "t")) "cfg" "proj" ingressInstance false true).calls :=
  ⟨by decide, rfl, by decide, by decide, by decide⟩

/-- C8, amended: in the direct-cluster-endpoint and gateway branches the CA data is retrieved
from the cluster object and attached: every successful result of
`CreateVClusterContextOptions`, and every successful result of
`CreateVirtualClusterInstanceOptions` for an instance without ingress access, has `CaData`
equal to what `retrieveCaData(cluster)` answered, and `retrieveCaData` is called exactly once.
In the ingress access-point branch `retrieveCaData` is not called and `CaData` stays empty. -/
theorem CaData_attached_outside_ingress_branch (h : Helpers) (baseClient : Client)
    (config projectName : String) (vci : VirtualClusterInstance) (cluster : Cluster)
    (spaceName virtualClusterName : String) (disableClusterGateway setActive : Bool)
    (hCluster : h.findProjectCluster baseClient projectName vci.Spec.ClusterRef.Cluster
      = .ok cluster) :
    (ingressEnabled vci = false →
      (CreateVirtualClusterInstanceOptions h baseClient config projectName vci
        disableClusterGateway setActive).err = none →
      h.retrieveCaData cluster = .ok (CreateVirtualClusterInstanceOptions h baseClient config
        projectName vci disableClusterGateway setActive).options.CaData ∧
      (CreateVirtualClusterInstanceOptions h baseClient config projectName vci
        disableClusterGateway setActive).calls.count (.retrieveCaData cluster.Name) = 1) ∧
    ((CreateVClusterContextOptions h baseClient config cluster spaceName virtualClusterName
        disableClusterGateway setActive).err = none →
      h.retrieveCaData cluster = .ok (CreateVClusterContextOptions h baseClient config cluster
        spaceName virtualClusterName disableClusterGateway setActive).options.CaData ∧
      (CreateVClusterContextOptions h baseClient config cluster spaceName virtualClusterName
        disableClusterGateway setActive).calls.count (.retrieveCaData cluster.Name) = 1) ∧
    (ingressEnabled vci = true →
      (CreateVirtualClusterInstanceOptions h baseClient config projectName vci
        disableClusterGateway setActive).err = none →
      (CreateVirtualClusterInstanceOptions h baseClient config projectName vci
        disableClusterGateway setActive).options.CaData = [] ∧
      ∀ c, Call.retrieveCaData c ∉ (CreateVirtualClusterInstanceOptions h baseClient config
        projectName vci disableClusterGateway setActive).calls) := by
  refine ⟨?_, ?_, ?_⟩
  · intro hi hok
    unfold CreateVirtualClusterInstanceOptions at hok ⊢
    simp only [hCluster, hi, Bool.false_eq_true, if_false] at hok ⊢
    cases hd : useDirectClusterEndpoint h cluster disableClusterGateway
    · simp only [hd, Bool.false_eq_true, if_false] at hok ⊢
      cases hca : h.retrieveCaData cluster with
      | error e => simp [hca] at hok
      | ok data => simp [List.count_cons]
    · simp only [hd, if_true] at hok ⊢
      cases htok : baseClient.DirectClusterEndpointToken true with
      | error e => simp [htok] at hok
      | ok t =>
        simp only [htok] at hok ⊢
        cases hca : h.retrieveCaData cluster with
        | error e => simp [hca] at hok
        | ok data => simp [List.count_cons]
  · intro hok
    unfold CreateVClusterContextOptions at hok ⊢
    cases hd : useDirectClusterEndpoint h cluster disableClusterGateway
    · simp only [hd, Bool.false_eq_true, if_false] at hok ⊢
      cases hca : h.retrieveCaData cluster with
      | error e => simp [hca] at hok
      | ok data => simp [List.count_cons]
    · simp only [hd, if_true] at hok ⊢
      cases htok : baseClient.DirectClusterEndpointToken true with
      | error e => simp [htok] at hok
      | ok t =>
        simp only [htok] at hok ⊢
        cases hca : h.retrieveCaData cluster with
        | error e => simp [hca] at hok
        | ok data => simp [List.count_cons]
  · intro hi hok
    have hcalls := getVirtualClusterInstanceAccessConfig_calls h baseClient vci
    unfold CreateVirtualClusterInstanceOptions at hok ⊢
    rcases hg : getVirtualClusterInstanceAccessConfig h baseClient vci with ⟨r, c1⟩
    rw [hg] at hcalls
    cases r with
    | error e => simp [hCluster, hi, hg] at hok
    | ok kubeConfig =>
      simp only [hCluster, hi, hg, if_true]
      constructor
      · rw [rangeClustersServer_frame]
      · intro c hmem
        simp only [List.mem_append, List.mem_singleton] at hmem
        rcases hmem with hmem | hmem
        · cases hmem
        · rcases hcalls _ hmem with h1 | ⟨_, _, h1⟩ | ⟨_, h1⟩ | h1 <;> cases h1

/-- C8, amended, at a concrete input: the direct-cluster-endpoint branch, where
`ApplyDirectClusterEndpointOptions` had set other CA data before. -/
theorem CaData_attached_outside_ingress_branch_witness :
    (CreateVirtualClusterInstanceOptions (sampleHelpers sampleCluster (.ok [1, 2]))
      (sampleClient (.ok {}) (.ok "t")) "cfg" "proj" plainInstance false true).options.CaData
        = [1, 2] ∧
    (CreateVClusterContextOptions (sampleHelpers sampleCluster (.ok [1, 2]))
      (sampleClient (.ok {}) (.ok "t")) "cfg" sampleCluster "space" "vc" false true).options.CaData
        = [1, 2] :=
  have key := CaData_attached_outside_ingress_branch (sampleHelpers sampleCluster (.ok [1, 2]))
    (sampleClient (.ok {}) (.ok "t")) "cfg" "proj" plainInstance sampleCluster "space" "vc"
    false true rfl
  ⟨(Except.ok.inj (key.1 rfl rfl).1).symm, (Except.ok.inj (key.2.1 rfl).1).symm⟩

/-! ## Credential failures -/

/-- C9: when the direct-cluster-endpoint strategy is selected (`disableClusterGateway = false`,
a non-empty direct-endpoint annotation, ingress access not enabled) and
`DirectClusterEndpointToken` fails with `e`, both `CreateVirtualClusterInstanceOptions` and
`CreateVClusterContextOptions` return the empty `ContextOptions` and the error
`"retrieving direct cluster endpoint token: " ++ e ++ ". Use --disable-direct-cluster-endpoint
to create a context without using direct cluster endpoints"`; there is no fallback to the
gateway (`Config()` is not called) and the CA data is not retrieved. -/
theorem DirectClusterEndpointToken_failure_is_fatal (h : Helpers) (baseClient : Client)
    (config projectName : String) (vci : VirtualClusterInstance) (cluster : Cluster)
    (spaceName virtualClusterName : String) (setActive : Bool)
    (annotations : List (String × String)) (e : GoError)
    (hAnnotations : cluster.Annotations = some annotations)
    (hEndpoint : mapIndex annotations h.LoftDirectClusterEndpoint ≠ "")
    (hIngress : ingressEnabled vci = false)
    (hCluster : h.findProjectCluster baseClient projectName vci.Spec.ClusterRef.Cluster
      = .ok cluster)
    (hToken : baseClient.DirectClusterEndpointToken true = .error e) :
    ((CreateVirtualClusterInstanceOptions h baseClient config projectName vci false
        setActive).err
      = some ("retrieving direct cluster endpoint token: " ++ e ++
          ". Use --disable-direct-cluster-endpoint to create a context without using direct cluster endpoints") ∧
     (CreateVirtualClusterInstanceOptions h baseClient config projectName vci false
        setActive).options = {} ∧
     Call.Config ∉ (CreateVirtualClusterInstanceOptions h baseClient config projectName vci
        false setActive).calls ∧
     ∀ c, Call.retrieveCaData c ∉ (CreateVirtualClusterInstanceOptions h baseClient config
        projectName vci false setActive).calls) ∧
    ((CreateVClusterContextOptions h baseClient config cluster spaceName virtualClusterName
        false setActive).err
      = some ("retrieving direct cluster endpoint token: " ++ e ++
          ". Use --disable-direct-cluster-endpoint to create a context without using direct cluster endpoints") ∧
     (CreateVClusterContextOptions h baseClient config cluster spaceName virtualClusterName
        false setActive).options = {} ∧
     Call.Config ∉ (CreateVClusterContextOptions h baseClient config cluster spaceName
        virtualClusterName false setActive).calls ∧
     ∀ c, Call.retrieveCaData c ∉ (CreateVClusterContextOptions h baseClient config cluster
        spaceName virtualClusterName false setActive).calls) := by
  have hd : useDirectClusterEndpoint h cluster false = true := by
    simp [useDirectClusterEndpoint, hAnnotations, hEndpoint]
  constructor
  · simp [CreateVirtualClusterInstanceOptions, hCluster, hIngress, hd, hToken,
      directClusterEndpointTokenError]
  · simp [CreateVClusterContextOptions, hd, hToken, directClusterEndpointTokenError]

/-- C9, at a concrete input: the token request is refused with "401". -/
theorem DirectClusterEndpointToken_failure_is_fatal_witness :
    (CreateVirtualClusterInstanceOptions (sampleHelpers sampleCluster (.ok [1, 2]))
      (sampleClient (.ok {}) (.error "401")) "cfg" "proj" plainInstance false true).err
      = some ("retrieving direct cluster endpoint token: 401. Use " ++
          "--disable-direct-cluster-endpoint to create a context without using direct " ++
          "cluster endpoints") ∧
    (CreateVClusterContextOptions (sampleHelpers sampleCluster (.ok [1, 2]))
      (sampleClient (.ok {}) (.error "401")) "cfg" sampleCluster "space" "vc" false true).options
      = {} :=
  have key := DirectClusterEndpointToken_failure_is_fatal
    (sampleHelpers sampleCluster (.ok [1, 2])) (sampleClient (.ok {}) (.error "401")) "cfg"
    "proj" plainInstance sampleCluster "space" "vc" true
    [(sampleEndpointKey, "direct.example:8443")] "401" rfl (by decide) rfl rfl rfl
  ⟨key.1.1.trans (by decide), key.2.2.1⟩

/-- The access kubeconfig cannot be had exactly when one of the four steps of
`getVirtualClusterInstanceAccessConfig` fails: `Management()`, `GetKubeConfig` (fetching),
`NewClientConfigFromBytes` or `RawConfig()` (parsing). -/
theorem getVirtualClusterInstanceAccessConfig_error_iff (h : Helpers) (baseClient : Client)
    (vci : VirtualClusterInstance) :
    (∃ e, (getVirtualClusterInstanceAccessConfig h baseClient vci).1 = .error e) ↔
      ((∃ e, baseClient.Management = .error e) ∨
        ∃ mc, baseClient.Management = .ok mc ∧
          ((∃ e, mc.GetKubeConfig vci.Namespace vci.Name = .error e) ∨
            ∃ kc, mc.GetKubeConfig vci.Namespace vci.Name = .ok kc ∧
              ((∃ e, h.NewClientConfigFromBytes kc.KubeConfig = .error e) ∨
                ∃ cfg, h.NewClientConfigFromBytes kc.KubeConfig = .ok cfg ∧
                  ∃ e, cfg.RawConfig = .error e))) := by
  unfold getVirtualClusterInstanceAccessConfig
  cases hm : baseClient.Management with
  | error e => simp
  | ok mc =>
    cases hk : mc.GetKubeConfig vci.Namespace vci.Name with
    | error e => simp [hk]
    | ok kc =>
      cases hn : h.NewClientConfigFromBytes kc.KubeConfig with
      | error e => simp [hk, hn]
      | ok cfg =>
        cases hr : cfg.RawConfig with
        | error e => simp [hk, hn, hr]
        | ok apiCfg => simp [hk, hn, hr]

/-- C10: when ingress access is reported enabled and fetching or parsing the access kubeconfig
fails (`getVirtualClusterInstanceAccessConfig` returns an error),
`CreateVirtualClusterInstanceOptions` returns an error and the empty `ContextOptions`, for
every annotation map of the cluster and every `disableClusterGateway`; nothing of the
direct-endpoint or gateway strategy is called (no `ApplyDirectClusterEndpointOptions`, no
`DirectClusterEndpointToken`, no `Config()`, no `retrieveCaData`). Once the cluster is found,
the error is the kubeconfig error wrapped as "retrieve kube config: ...". -/
theorem access_config_failure_is_fatal (h : Helpers) (baseClient : Client)
    (config projectName : String) (vci : VirtualClusterInstance)
    (disableClusterGateway setActive : Bool) (e : GoError)
    (hIngress : ∃ vc, vci.Status.VirtualCluster = some vc ∧ vc.AccessPoint.Ingress.Enabled = true)
    (hFail : (getVirtualClusterInstanceAccessConfig h baseClient vci).1 = .error e) :
    (CreateVirtualClusterInstanceOptions h baseClient config projectName vci
        disableClusterGateway setActive).err ≠ none ∧
    (CreateVirtualClusterInstanceOptions h baseClient config projectName vci
        disableClusterGateway setActive).options = {} ∧
    (∀ c ∈ (CreateVirtualClusterInstanceOptions h baseClient config projectName vci
        disableClusterGateway setActive).calls,
      c.isDirectEndpoint = false ∧ c ≠ .Config ∧ ∀ name, c ≠ .retrieveCaData name) ∧
    (∀ cluster, h.findProjectCluster baseClient projectName vci.Spec.ClusterRef.Cluster
        = .ok cluster →
      (CreateVirtualClusterInstanceOptions h baseClient config projectName vci
        disableClusterGateway setActive).err = some ("retrieve kube config: " ++ e)) := by
  obtain ⟨vc, hvc, hen⟩ := hIngress
  have hi : ingressEnabled vci = true := by simp [ingressEnabled, hvc, hen]
  have hcalls := getVirtualClusterInstanceAccessConfig_calls h baseClient vci
  rcases hg : getVirtualClusterInstanceAccessConfig h baseClient vci with ⟨r, c1⟩
  rw [hg] at hcalls hFail
  simp only at hFail
  subst hFail
  unfold CreateVirtualClusterInstanceOptions
  cases hf : h.findProjectCluster baseClient projectName vci.Spec.ClusterRef.Cluster with
  | error e0 => simp [Call.isDirectEndpoint]
  | ok cluster =>
    simp only [hi, hg, if_true]
    refine ⟨by simp, trivial, ?_, fun _ _ => rfl⟩
    intro c hmem
    simp only [List.mem_append, List.mem_singleton] at hmem
    rcases hmem with hmem | hmem
    · subst hmem; simp [Call.isDirectEndpoint]
    · rcases hcalls _ hmem with h1 | ⟨_, _, h1⟩ | ⟨_, h1⟩ | h1 <;> subst h1 <;>
        simp [Call.isDirectEndpoint]

/-- C10, at a concrete input: the kubeconfig request is refused with "forbidden", on a cluster
that carries the direct-endpoint annotation. -/
theorem access_config_failure_is_fatal_witness :
    (CreateVirtualClusterInstanceOptions (sampleHelpers sampleCluster (.ok [1, 2]))
      (sampleClient (.error "forbidden") (.ok "t")) "cfg" "proj" ingressInstance false
      true).err = some "retrieve kube config: forbidden" ∧
    (CreateVirtualClusterInstanceOptions (sampleHelpers sampleCluster (.ok [1, 2]))
      (sampleClient (.error "forbidden") (.ok "t")) "cfg" "proj" ingressInstance false
      true).options = {} :=
  have key := access_config_failure_is_fatal (sampleHelpers sampleCluster (.ok [1, 2]))
    (sampleClient (.error "forbidden") (.ok "t")) "cfg" "proj" ingressInstance false true
    "forbidden" ⟨_, rfl, rfl⟩ rfl
  ⟨(key.2.2.2 sampleCluster rfl).trans (by decide), key.2.1⟩

/-- C11 as stated fails for the access-point kubeconfig: when the kubeconfig request is
refused with "forbidden", `CreateVirtualClusterInstanceOptions` returns the error
"retrieve kube config: forbidden", in which `--disable-direct-cluster-endpoint` does not
occur. -/
theorem access_config_error_has_no_disable_hint :
    ingressEnabled ingressInstance = true ∧
    (CreateVirtualClusterInstanceOptions (sampleHelpers sampleCluster (.ok [1, 2]))
      (sampleClient (.error "forbidden") (.ok "t")) "cfg" "proj" ingressInstance false
      true).err = some "retrieve kube config: forbidden" ∧
    stringsContains "retrieve kube config: forbidden" disableFlagHint = false := by
  decide

/-- C11, amended: both credential-fetch failures of `CreateVirtualClusterInstanceOptions`
are fatal (an error and the empty `ContextOptions`). The message of a failed direct-endpoint
token fetch includes the workaround hint `--disable-direct-cluster-endpoint`; the message of
a failed access-point kubeconfig fetch is the underlying error wrapped as
"retrieve kube config: ...", with nothing added to it. -/
theorem credential_fetch_failure_messages (h : Helpers) (baseClient : Client)
    (config projectName : String) (vci : VirtualClusterInstance) (cluster : Cluster)
    (disableClusterGateway setActive : Bool) (e : GoError)
    (hCluster : h.findProjectCluster baseClient projectName vci.Spec.ClusterRef.Cluster
      = .ok cluster) :
    (ingressEnabled vci = false → useDirectClusterEndpoint h cluster disableClusterGateway = true →
      baseClient.DirectClusterEndpointToken true = .error e →
      (CreateVirtualClusterInstanceOptions h baseClient config projectName vci
        disableClusterGateway setActive).options = {} ∧
      ∃ before after : String,
        (CreateVirtualClusterInstanceOptions h baseClient config projectName vci
          disableClusterGateway setActive).err = some (before ++ disableFlagHint ++ after) ∧
        before = "retrieving direct cluster endpoint token: " ++ e ++ ". Use ") ∧
    (ingressEnabled vci = true →
      (getVirtualClusterInstanceAccessConfig h baseClient vci).1 = .error e →
      (CreateVirtualClusterInstanceOptions h baseClient config projectName vci
        disableClusterGateway setActive).options = {} ∧
      (CreateVirtualClusterInstanceOptions h baseClient config projectName vci
        disableClusterGateway setActive).err = some ("retrieve kube config: " ++ e)) := by
  constructor
  · intro hi hd htoken
    refine ⟨?_, "retrieving direct cluster endpoint token: " ++ e ++ ". Use ",
      " to create a context without using direct cluster endpoints", ?_, rfl⟩
    · simp [CreateVirtualClusterInstanceOptions, hCluster, hi, hd, htoken]
    · have hs : ". Use --disable-direct-cluster-endpoint to create a context without using direct cluster endpoints"
          = ". Use " ++ disableFlagHint ++
            " to create a context without using direct cluster endpoints" := by decide
      simp only [CreateVirtualClusterInstanceOptions, hCluster, hi, hd, htoken,
        directClusterEndpointTokenError, Bool.false_eq_true, if_false, if_true, hs,
        String.append_assoc]
  · intro hi hfail
    rcases hg : getVirtualClusterInstanceAccessConfig h baseClient vci with ⟨r, c1⟩
    rw [hg] at hfail
    simp only at hfail
    subst hfail
    simp only [CreateVirtualClusterInstanceOptions, hCluster, hi, hg, if_true]
    exact ⟨trivial, rfl⟩

/-- C11, amended, at a concrete input: a refused token request, and a refused kubeconfig
request. -/
theorem credential_fetch_failure_messages_witness :
    (∃ before after : String,
      (CreateVirtualClusterInstanceOptions (sampleHelpers sampleCluster (.ok [1, 2]))
        (sampleClient (.ok {}) (.error "401")) "cfg" "proj" plainInstance false true).err
        = some (before ++ disableFlagHint ++ after) ∧
      before = "retrieving direct cluster endpoint token: " ++ "401" ++ ". Use ") ∧
    (CreateVirtualClusterInstanceOptions (sampleHelpers sampleCluster (.ok [1, 2]))
      (sampleClient (.error "forbidden") (.ok "t")) "cfg" "proj" ingressInstance false
      true).err = some ("retrieve kube config: " ++ "forbidden") :=
  ⟨((credential_fetch_failure_messages (sampleHelpers sampleCluster (.ok [1, 2]))
      (sampleClient (.ok {}) (.error "401")) "cfg" "proj" plainInstance sampleCluster false
      true "401" rfl).1 rfl (by decide) rfl).2,
   ((credential_fetch_failure_messages (sampleHelpers sampleCluster (.ok [1, 2]))
      (sampleClient (.error "forbidden") (.ok "t")) "cfg" "proj" ingressInstance sampleCluster
      false true "forbidden" rfl).2 rfl rfl).2⟩

/-! ## The server of the ingress access-point branch -/

/-- C25: in the ingress access-point branch of `CreateVirtualClusterInstanceOptions` (the
cluster was found, ingress access is enabled and the access kubeconfig was fetched) the call
succeeds whatever cluster entries the kubeconfig holds, with
`VirtualClusterAccessPointEnabled = true`. With exactly one cluster entry `Server` is that
entry's server; with no cluster entry `Server` is the empty string, and the call returns the
descriptor and no error. -/
theorem ingress_branch_server_unchecked (h : Helpers) (baseClient : Client)
    (config projectName : String) (vci : VirtualClusterInstance) (cluster : Cluster)
    (kubeConfig : ApiConfig) (disableClusterGateway setActive : Bool)
    (hCluster : h.findProjectCluster baseClient projectName vci.Spec.ClusterRef.Cluster
      = .ok cluster)
    (hIngress : ingressEnabled vci = true)
    (hConfig : (getVirtualClusterInstanceAccessConfig h baseClient vci).1 = .ok kubeConfig) :
    (CreateVirtualClusterInstanceOptions h baseClient config projectName vci
        disableClusterGateway setActive).err = none ∧
    (CreateVirtualClusterInstanceOptions h baseClient config projectName vci
        disableClusterGateway setActive).options.VirtualClusterAccessPointEnabled = true ∧
    (∀ (name : String) (entry : ApiCluster), kubeConfig.Clusters = [(name, entry)] →
      (CreateVirtualClusterInstanceOptions h baseClient config projectName vci
        disableClusterGateway setActive).options.Server = entry.Server) ∧
    (kubeConfig.Clusters = [] →
      (CreateVirtualClusterInstanceOptions h baseClient config projectName vci
        disableClusterGateway setActive).options
        = { Name := h.VirtualClusterInstanceContextName projectName vci.Name
            Server := ""
            ConfigPath := config
            InsecureSkipTLSVerify := true
            VirtualClusterAccessPointEnabled := true
            SetActive := setActive }) := by
  rcases hg : getVirtualClusterInstanceAccessConfig h baseClient vci with ⟨r, c1⟩
  rw [hg] at hConfig
  simp only at hConfig
  subst hConfig
  refine ⟨?_, ?_, ?_, ?_⟩
  · simp [CreateVirtualClusterInstanceOptions, hCluster, hIngress, hg]
  · simp [CreateVirtualClusterInstanceOptions, hCluster, hIngress, hg]
  · intro name entry hOne
    simp [CreateVirtualClusterInstanceOptions, hCluster, hIngress, hg, hOne,
      rangeClustersServer]
  · intro hNone
    simp [CreateVirtualClusterInstanceOptions, hCluster, hIngress, hg, hNone,
      rangeClustersServer]

/-- C25, at concrete inputs: a fetched kubeconfig without cluster entries gives a successful
result with the empty `Server`, and one with the single entry `https://vc.example` gives that
server. -/
theorem ingress_branch_server_unchecked_witness :
    ((CreateVirtualClusterInstanceOptions (sampleHelpersWith {})
        (sampleClient (.ok {}) (.ok "t")) "cfg" "proj" ingressInstance false true).err = none ∧
      (CreateVirtualClusterInstanceOptions (sampleHelpersWith {})
        (sampleClient (.ok {}) (.ok "t")) "cfg" "proj" ingressInstance false true).options
        = { Name := "loft-vcluster_vc_proj", Server := "", ConfigPath := "cfg",
            InsecureSkipTLSVerify := true, VirtualClusterAccessPointEnabled := true,
            SetActive := true }) ∧
    (CreateVirtualClusterInstanceOptions
        (sampleHelpersWith { Clusters := [("vc", { Server := "https://vc.example" })] })
        (sampleClient (.ok {}) (.ok "t")) "cfg" "proj" ingressInstance false true).options.Server
      = "https://vc.example" :=
  ⟨⟨(ingress_branch_server_unchecked (sampleHelpersWith {}) (sampleClient (.ok {}) (.ok "t"))
        "cfg" "proj" ingressInstance sampleCluster {} false true rfl rfl rfl).1,
      (ingress_branch_server_unchecked (sampleHelpersWith {}) (sampleClient (.ok {}) (.ok "t"))
        "cfg" "proj" ingressInstance sampleCluster {} false true rfl rfl rfl).2.2.2 rfl⟩,
    (ingress_branch_server_unchecked
      (sampleHelpersWith { Clusters := [("vc", { Server := "https://vc.example" })] })
      (sampleClient (.ok {}) (.ok "t")) "cfg" "proj" ingressInstance sampleCluster
      { Clusters := [("vc", { Server := "https://vc.example" })] } false true
      rfl rfl rfl).2.2.1 "vc" { Server := "https://vc.example" } rfl⟩

end Loftctl.Use

namespace Loftctl.Cmd

/-! ## How the call log grows -/

theorem St.Extends.refl {W : Type} (allowed : Call → Bool) (s : St W) :
    St.Extends allowed s s :=
  ⟨[], by simp, by simp⟩

theorem St.Extends.step {W : Type} {allowed : Call → Bool} {s s' : St W} {c : Call} {w : W}
    (h : St.Extends allowed s s') (hc : allowed c = true) :
    St.Extends allowed s (s'.after c w) := by
  obtain ⟨new, hnew, hall⟩ := h
  refine ⟨new ++ [c], by simp [St.after, hnew], ?_⟩
  intro x hx
  rcases List.mem_append.1 hx with hx | hx
  · exact hall x hx
  · rw [List.mem_singleton.1 hx]; exact hc

theorem St.Extends.trans {W : Type} {allowed : Call → Bool} {s s' s'' : St W}
    (h : St.Extends allowed s s') (h' : St.Extends allowed s' s'') :
    St.Extends allowed s s'' := by
  obtain ⟨new, hnew, hall⟩ := h
  obtain ⟨new', hnew', hall'⟩ := h'
  refine ⟨new ++ new', by simp [hnew', hnew], ?_⟩
  intro x hx
  rcases List.mem_append.1 hx with hx | hx
  · exact hall x hx
  · exact hall' x hx

/-- Calls outside a class `p` are not counted by it: a log that grew by calls of a class
disjoint from `p` holds as many `p`-calls as before. -/
theorem St.Extends.countP_eq {W : Type} {allowed : Call → Bool} {s s' : St W}
    (h : St.Extends allowed s s') (p : Call → Bool)
    (hp : ∀ x, allowed x = true → p x = false) :
    s'.calls.countP p = s.calls.countP p := by
  obtain ⟨new, hnew, hall⟩ := h
  have h0 : new.countP p = 0 := by
    rw [List.countP_eq_zero]
    intro x hx
    simp [hp x (hall x hx)]
  rw [hnew, List.countP_append, h0, Nat.add_zero]

theorem St.Extends.of_eq {W α : Type} {allowed : Call → Bool} {s s' : St W}
    {x : α × St W} {r : α} (h : St.Extends allowed s x.2) (heq : x = (r, s')) :
    St.Extends allowed s s' := by
  subst heq
  exact h

theorem St.Extends.of_eq3 {W α β : Type} {allowed : Call → Bool} {s s' : St W}
    {x : α × β × St W} {r : α} {b : β} (h : St.Extends allowed s x.2.2)
    (heq : x = (r, b, s')) : St.Extends allowed s s' := by
  subst heq
  exact h

theorem poll_extends {W : Type} (allowed : Call → Bool)
    (condition : St W → (Bool × Option GoError) × St W)
    (hcond : ∀ s, St.Extends allowed s (condition s).2) (timeoutErr : GoError)
    (attempts : Nat) (s : St W) :
    St.Extends allowed s (poll condition timeoutErr attempts s).2 := by
  induction attempts generalizing s with
  | zero =>
    have h1 := hcond s
    unfold poll
    split <;> simp_all
  | succ n ih =>
    have h1 := hcond s
    unfold poll
    split
    · simp_all
    · simp_all
    · rename_i heq
      rw [heq] at h1
      exact h1.trans (ih _)

theorem healthProbe_extends {W : Type} (c : Collaborators W) (url : String)
    (allowed : Call → Bool) (h : ∀ x, x.ofSuccess = true → allowed x = true) (s : St W) :
    St.Extends allowed s (healthProbe c url s).2 := by
  simp only [healthProbe]
  repeat' split
  all_goals
    repeat' first
      | exact St.Extends.refl _ _
      | refine St.Extends.step ?_ (h _ rfl)

theorem reachableProbe_extends {W : Type} (c : Collaborators W) (host : String)
    (allowed : Call → Bool) (h : ∀ x, x.ofSuccess = true → allowed x = true) (s : St W) :
    St.Extends allowed s (reachableProbe c host s).2 :=
  (St.Extends.refl _ _).step (h _ rfl)

theorem waitForLoft_extends {W : Type} (c : Collaborators W) (cmd : StartCmd)
    (allowed : Call → Bool) (h : ∀ x, x.ofSuccess = true → allowed x = true) (s : St W) :
    St.Extends allowed s (waitForLoft c cmd s).2.2 := by
  simp only [waitForLoft]
  repeat' split
  all_goals
    repeat' first
      | exact St.Extends.refl _ _
      | refine St.Extends.step ?_ (h _ rfl)

theorem pingLoftRouter_extends {W : Type} (c : Collaborators W) (loftPod : Pod)
    (allowed : Call → Bool) (h : ∀ x, x.ofSuccess = true → allowed x = true) (s : St W) :
    St.Extends allowed s (pingLoftRouter c loftPod s).2 := by
  simp only [pingLoftRouter]
  split
  · split <;> exact (St.Extends.refl _ _).step (h _ rfl)
  · split
    · exact (St.Extends.refl _ _).step (h _ rfl)
    · split
      · exact (St.Extends.refl _ _).step (h _ rfl)
      · have hp : ∀ url n (s' : St W),
            St.Extends allowed s' (poll (healthProbe c url) DeadlineExceeded n s').2 :=
          fun url n s' =>
            poll_extends allowed (healthProbe c url) (healthProbe_extends c url allowed h)
              DeadlineExceeded n s'
        split <;>
        · rename_i heq
          refine St.Extends.trans ?_ ((hp _ _ _).of_eq heq)
          exact (St.Extends.refl _ _).step (h _ rfl)

theorem startPortForwarding_extends {W : Type} (c : Collaborators W) (cmd : StartCmd)
    (loftPod : Pod) (allowed : Call → Bool) (h : ∀ x, x.ofSuccess = true → allowed x = true)
    (s : St W) :
    St.Extends allowed s (startPortForwarding c cmd loftPod s).2 := by
  simp only [startPortForwarding]
  split
  · exact (St.Extends.refl _ _).step (h _ rfl)
  · refine St.Extends.trans ?_
      (poll_extends allowed (healthProbe c _) (healthProbe_extends c _ allowed h) _ _ _)
    refine St.Extends.step ?_ (h _ rfl)
    exact (St.Extends.refl _ _).step (h _ rfl)

theorem successLocal_extends {W : Type} (cmd : StartCmd) (allowed : Call → Bool)
    (h : ∀ x, x.ofSuccess = true → allowed x = true) (s : St W) :
    St.Extends allowed s (successLocal cmd s).2 :=
  (St.Extends.refl _ _).step (h _ rfl)

theorem successRemote_extends {W : Type} (c : Collaborators W) (cmd : StartCmd)
    (host : String) (allowed : Call → Bool) (h : ∀ x, x.ofSuccess = true → allowed x = true)
    (s : St W) :
    St.Extends allowed s (successRemote c cmd host s).2 := by
  have h1 := reachableProbe_extends c host allowed h s
  have hp := poll_extends allowed (reachableProbe c host)
    (reachableProbe_extends c host allowed h) ErrWaitTimeout
  simp only [successRemote]
  split
  · rename_i heq
    exact h1.of_eq heq
  · rename_i heq
    refine St.Extends.step ?_ (h _ rfl)
    exact h1.of_eq heq
  · rename_i heq
    split
    · rename_i heq2
      refine St.Extends.trans ?_ ((hp _ _).of_eq heq2)
      refine St.Extends.step ?_ (h _ rfl)
      exact h1.of_eq heq
    · rename_i heq2
      refine St.Extends.step ?_ (h _ rfl)
      refine St.Extends.trans ?_ ((hp _ _).of_eq heq2)
      refine St.Extends.step ?_ (h _ rfl)
      exact h1.of_eq heq

theorem success_portForward_extends {W : Type} (c : Collaborators W) (cmd : StartCmd)
    (loftPod : Pod) (allowed : Call → Bool) (h : ∀ x, x.ofSuccess = true → allowed x = true)
    (s : St W) :
    St.Extends allowed s (success.portForward c cmd loftPod s).2 := by
  have h1 := startPortForwarding_extends c cmd loftPod allowed h s
  simp only [success.portForward]
  split
  · rename_i heq
    exact h1.of_eq heq
  · rename_i heq
    exact (h1.of_eq heq).trans (successLocal_extends cmd allowed h _)

/-- The calls of `success` are all of the class `Call.ofSuccess`. -/
theorem success_extends {W : Type} (c : Collaborators W) (cmd : StartCmd)
    (allowed : Call → Bool) (h : ∀ x, x.ofSuccess = true → allowed x = true) (s : St W) :
    St.Extends allowed s (success c cmd s).2.2 := by
  simp only [success]
  split
  · exact St.Extends.refl _ _
  · have hw := waitForLoft_extends c cmd allowed h s
    split
    · rename_i heq
      exact hw.of_eq3 heq
    · rename_i loftPod cmd1 s1 heq
      have hw1 : St.Extends allowed s s1 := hw.of_eq3 heq
      split
      · exact hw1
      · have hl : St.Extends allowed s (s1.after (.IsLoftInstalledLocally cmd1.Namespace)
            (c.IsLoftInstalledLocally cmd1.Namespace s1.world).2) := hw1.step (h _ rfl)
        split
        · have hping := pingLoftRouter_extends c loftPod allowed h
            (s1.after (.IsLoftInstalledLocally cmd1.Namespace)
              (c.IsLoftInstalledLocally cmd1.Namespace s1.world).2)
          split
          · rename_i heq2
            exact (hl.trans (hping.of_eq heq2)).trans
              (success_portForward_extends c cmd1 loftPod allowed h _)
          · rename_i heq2
            split
            · refine St.Extends.step ?_ (h _ rfl)
              exact hl.trans (hping.of_eq heq2)
            · exact (hl.trans (hping.of_eq heq2)).trans
                (success_portForward_extends c cmd1 loftPod allowed h _)
        · split
          · refine St.Extends.step ?_ (h _ rfl)
            exact hl
          · rename_i host w heq2
            have hl2 : St.Extends allowed s
                ((s1.after (.IsLoftInstalledLocally cmd1.Namespace)
                  (c.IsLoftInstalledLocally cmd1.Namespace s1.world).2).after
                    (.GetLoftIngressHost cmd1.Namespace) w) := hl.step (h _ rfl)
            have hr := hl2.trans (reachableProbe_extends c host allowed h _)
            split
            · split
              · refine St.Extends.step ?_ (h _ rfl)
                exact hr
              · split
                · refine St.Extends.trans ?_
                    (success_portForward_extends c cmd1 loftPod allowed h _)
                  refine St.Extends.step ?_ (h _ rfl)
                  exact hr
                · refine St.Extends.trans ?_ (successRemote_extends c cmd1 _ allowed h _)
                  refine St.Extends.step ?_ (h _ rfl)
                  exact hr
            · exact hr.trans (successRemote_extends c cmd1 _ allowed h _)

/-- The calls of `upgradeLoft` are all of the class `Call.ofUpgradeLoft`. -/
theorem upgradeLoft_extends {W : Type} (c : Collaborators W) (cmd : StartCmd)
    (email : String) (allowed : Call → Bool)
    (h : ∀ x, x.ofUpgradeLoft = true → allowed x = true) (s : St W) :
    St.Extends allowed s (upgradeLoft c cmd email s).2 := by
  have hargs : St.Extends allowed s (upgradeLoft.extraArgs c cmd email s).2 := by
    simp only [upgradeLoft.extraArgs]
    by_cases hv : (cmd.Values != "") = true
    · rw [if_pos hv]
      split <;> exact (St.Extends.refl _ _).step (h _ rfl)
    · rw [if_neg hv]
      exact St.Extends.refl _ _
  simp only [upgradeLoft]
  split
  · rename_i heq
    exact hargs.of_eq heq
  · rename_i heq
    have h1 := hargs.of_eq heq
    repeat' split
    all_goals
      repeat' first
        | exact h1
        | refine St.Extends.step ?_ (h _ rfl)

/-- The calls of `handleAlreadyExistingInstallation` before the deployment are all of the
class `Call.ofEnableIngress`. -/
theorem handleAlreadyExistingInstallation_enableIngress_extends {W : Type}
    (c : Collaborators W) (cmd : StartCmd) (allowed : Call → Bool)
    (h : ∀ x, x.ofEnableIngress = true → allowed x = true) (s : St W) :
    St.Extends allowed s (handleAlreadyExistingInstallation.enableIngress c cmd s).2.2 := by
  simp only [handleAlreadyExistingInstallation.enableIngress]
  repeat' first
    | exact St.Extends.refl _ _
    | refine St.Extends.step ?_ (h _ rfl)
    | refine St.Extends.of_eq ?_ (by assumption)
    | split

/-- The calls of `handleAlreadyExistingInstallation` are those of its ingress decision, of
`upgradeLoft` and of `success`. -/
theorem handleAlreadyExistingInstallation_extends {W : Type} (c : Collaborators W)
    (cmd : StartCmd) (allowed : Call → Bool)
    (h1 : ∀ x, x.ofEnableIngress = true → allowed x = true)
    (h2 : ∀ x, x.ofUpgradeLoft = true → allowed x = true)
    (h3 : ∀ x, x.ofSuccess = true → allowed x = true) (s : St W) :
    St.Extends allowed s (handleAlreadyExistingInstallation c cmd s).2.2 := by
  have he := handleAlreadyExistingInstallation_enableIngress_extends c cmd allowed h1 s
  simp only [handleAlreadyExistingInstallation]
  split
  · rename_i heq
    exact he.of_eq3 heq
  · rename_i heq
    have he1 := he.of_eq3 heq
    split
    · split
      · rename_i heq2
        exact he1.trans ((upgradeLoft_extends c _ _ allowed h2 _).of_eq heq2)
      · rename_i heq2
        exact (he1.trans ((upgradeLoft_extends c _ _ allowed h2 _).of_eq heq2)).trans
          (success_extends c _ allowed h3 _)
    · exact he1.trans (success_extends c _ allowed h3 _)

/-- The calls of `prepare` are all of the class `Call.ofPrepare`. -/
theorem prepare_extends {W : Type} (c : Collaborators W) (cmd : StartCmd)
    (allowed : Call → Bool) (h : ∀ x, x.ofPrepare = true → allowed x = true) (s : St W) :
    St.Extends allowed s (prepare c cmd s).2.2 := by
  simp only [prepare]
  repeat' first
    | exact St.Extends.refl _ _
    | refine St.Extends.step ?_ (h _ rfl)
    | refine St.Extends.of_eq ?_ (by assumption)
    | split

/-- `prepare` changes no flag but `Context`. -/
theorem prepare_flags {W : Type} (c : Collaborators W) (cmd : StartCmd) (s : St W) :
    (prepare c cmd s).2.1 = { cmd with Context := (prepare c cmd s).2.1.Context } := by
  simp only [prepare]
  repeat' split
  all_goals rfl

/-- With a password given, `Run` never asks for the default password. -/
theorem Run_extends_of_Password {W : Type} (c : Collaborators W) (cmd : StartCmd)
    (s : St W) (hPassword : cmd.Password ≠ "") :
    St.Extends (fun x => !x.isGetLoftDefaultPassword) s (Run c cmd s).2.2 := by
  have hP : ∀ x : Call, x.ofPrepare = true → (!x.isGetLoftDefaultPassword) = true := by
    intro x; cases x <;> simp [Call.ofPrepare, Call.isGetLoftDefaultPassword]
  have hE : ∀ x : Call, x.ofEnableIngress = true → (!x.isGetLoftDefaultPassword) = true := by
    intro x; cases x <;> simp [Call.ofEnableIngress, Call.isGetLoftDefaultPassword]
  have hU : ∀ x : Call, x.ofUpgradeLoft = true → (!x.isGetLoftDefaultPassword) = true := by
    intro x; cases x <;> simp [Call.ofUpgradeLoft, Call.isGetLoftDefaultPassword]
  have hS : ∀ x : Call, x.ofSuccess = true → (!x.isGetLoftDefaultPassword) = true := by
    intro x; cases x <;> simp [Call.ofSuccess, Call.isGetLoftDefaultPassword]
  have hprep := prepare_extends c cmd _ hP s
  have hflags := prepare_flags c cmd s
  simp only [Run]
  split
  · rename_i heq
    exact hprep.of_eq3 heq
  · rename_i cmd1 s1 heq
    have h1 : St.Extends (fun x => !x.isGetLoftDefaultPassword) s s1 := hprep.of_eq3 heq
    have hpw : cmd1.Password ≠ "" := by
      rw [heq] at hflags
      simp only at hflags
      rw [hflags]
      exact hPassword
    have hdp : ∀ s' : St W, Run.defaultPassword c cmd1 s' = (none, cmd1, s') := by
      intro s'
      simp [Run.defaultPassword, hpw]
    simp only [hdp]
    split
    · rename_i heq2
      refine h1.trans (St.Extends.of_eq ?_ heq2)
      split
      · exact (St.Extends.refl _ _).step rfl
      · exact St.Extends.refl _ _
    · rename_i s2 heq2
      have h2 : St.Extends (fun x => !x.isGetLoftDefaultPassword) s s2 := by
        refine h1.trans (St.Extends.of_eq ?_ heq2)
        split
        · exact (St.Extends.refl _ _).step rfl
        · exact St.Extends.refl _ _
      split
      · exact h2.step rfl
      · have h3 := h2.step (c := .IsLoftAlreadyInstalled cmd1.Namespace) (w := by assumption) rfl
        split
        · exact h3.trans (handleAlreadyExistingInstallation_extends c _ _ hE hU hS _)
        · have hemail : ∀ s' : St W, St.Extends (fun x => !x.isGetLoftDefaultPassword) s'
              (Run.email c cmd1 s').2 := by
            intro s'
            simp only [Run.email]
            repeat' first
              | exact St.Extends.refl _ _
              | refine St.Extends.step ?_ rfl
              | split
          split
          · rename_i heq3
            exact h3.trans ((hemail _).of_eq heq3)
          · rename_i heq3
            have h4 := h3.trans ((hemail _).of_eq heq3)
            have hpi : ∀ s' : St W, St.Extends (fun x => !x.isGetLoftDefaultPassword) s'
                (prepareInstall c cmd1 s').2 := fun s' => (St.Extends.refl _ _).step rfl
            split
            · rename_i heq4
              exact h4.trans ((hpi _).of_eq heq4)
            · rename_i heq4
              have h5 := h4.trans ((hpi _).of_eq heq4)
              split
              · rename_i heq5
                exact h5.trans ((upgradeLoft_extends c _ _ _ hU _).of_eq heq5)
              · rename_i heq5
                exact (h5.trans ((upgradeLoft_extends c _ _ _ hU _).of_eq heq5)).trans
                  (success_extends c _ _ hS _)

/-! ## `upgradeLoft`: purge and retry -/

/-- The deployments of a log made of two parts. -/
theorem deployments_append (a b : List Call) :
    deployments (a ++ b) = deployments a + deployments b := by
  simp [deployments, List.countP_append]

/-- Building the helm arguments calls nothing but `filepath.Abs` on the values file. -/
theorem upgradeLoft_extraArgs_calls {W : Type} (c : Collaborators W) (cmd : StartCmd)
    (email : String) (s : St W) :
    (upgradeLoft.extraArgs c cmd email s).2.calls = s.calls ∨
    (upgradeLoft.extraArgs c cmd email s).2.calls = s.calls ++ [.Abs cmd.Values] := by
  simp only [upgradeLoft.extraArgs]
  by_cases hv : (cmd.Values != "") = true
  · rw [if_pos hv]
    right
    split <;> rfl
  · rw [if_neg hv]
    left
    rfl

/-- C3 as stated fails: in reset mode, when the first deployment fails and the manifests
cannot be rendered, `upgradeLoft` returns the render error and the deployment is not retried:
it was invoked once. -/
theorem upgradeLoft_reset_without_retry :
    (upgradeLoft scripted { Reset := true } "a@b.com"
      { world := { deploys := [some "cannot re-use a name"], manifests := .error "render failed" } }).1
        = some "render failed" ∧
    deployments (upgradeLoft scripted { Reset := true } "a@b.com"
      { world := { deploys := [some "cannot re-use a name"],
                   manifests := .error "render failed" } }).2.calls = 1 := by
  decide

/-- C3, amended: `upgradeLoft` invokes the chart deployment at most twice, for every
behaviour of the deployer and of the other collaborators. In reset mode, after a failed first
deployment: if the manifests render, they are force-deleted and the deployment is retried
exactly once (the calls are deployment, render, delete, deployment), and `upgradeLoft` returns
`nil` when the retry succeeds and the retry error with the escalation text when it fails, with
no further retry; if the manifests do not render, `upgradeLoft` returns the render error and
the deployment is not retried. -/
theorem upgradeLoft_retries_at_most_once {W : Type} (c : Collaborators W) (cmd : StartCmd)
    (email : String) (s : St W) :
    (∃ new, (upgradeLoft c cmd email s).2.calls = s.calls ++ new ∧ deployments new ≤ 2) ∧
    (cmd.Reset = true →
      ∀ (extraArgs : List String) (s1 : St W) (e : GoError) (w1 : W),
        upgradeLoft.extraArgs c cmd email s = (.ok extraArgs, s1) →
        c.UpgradeLoft (upgradeLoft.chart cmd).1 (upgradeLoft.chart cmd).2 cmd.Context
          cmd.Namespace extraArgs s1.world = (some e, w1) →
        (∀ (manifests : String) (w2 : W),
          c.GetLoftManifests (upgradeLoft.chart cmd).1 (upgradeLoft.chart cmd).2 cmd.Context
            cmd.Namespace extraArgs w1 = (.ok manifests, w2) →
          (upgradeLoft c cmd email s).2.calls
            = s1.calls ++
              [.UpgradeLoft (upgradeLoft.chart cmd).1 (upgradeLoft.chart cmd).2 cmd.Context
                  cmd.Namespace extraArgs,
                .GetLoftManifests (upgradeLoft.chart cmd).1 (upgradeLoft.chart cmd).2
                  cmd.Context cmd.Namespace extraArgs,
                .kubectlDelete manifests,
                .UpgradeLoft (upgradeLoft.chart cmd).1 (upgradeLoft.chart cmd).2 cmd.Context
                  cmd.Namespace extraArgs] ∧
          (upgradeLoft c cmd email s).1
            = (match (c.UpgradeLoft (upgradeLoft.chart cmd).1 (upgradeLoft.chart cmd).2
                  cmd.Context cmd.Namespace extraArgs (c.kubectlDelete manifests w2).2).1 with
               | none => none
               | some e2 => some (e2 ++ supportHint c))) ∧
        (∀ (e1 : GoError) (w2 : W),
          c.GetLoftManifests (upgradeLoft.chart cmd).1 (upgradeLoft.chart cmd).2 cmd.Context
            cmd.Namespace extraArgs w1 = (.error e1, w2) →
          (upgradeLoft c cmd email s).2.calls
            = s1.calls ++
              [.UpgradeLoft (upgradeLoft.chart cmd).1 (upgradeLoft.chart cmd).2 cmd.Context
                  cmd.Namespace extraArgs,
                .GetLoftManifests (upgradeLoft.chart cmd).1 (upgradeLoft.chart cmd).2
                  cmd.Context cmd.Namespace extraArgs] ∧
          (upgradeLoft c cmd email s).1 = some e1)) := by
  constructor
  · have hargs : ∃ pre, (upgradeLoft.extraArgs c cmd email s).2.calls = s.calls ++ pre ∧
        deployments pre = 0 := by
      rcases upgradeLoft_extraArgs_calls c cmd email s with h0 | h0
      · exact ⟨[], by simp [h0], rfl⟩
      · exact ⟨[.Abs cmd.Values], h0, rfl⟩
    obtain ⟨pre, hpre, hpre0⟩ := hargs
    unfold upgradeLoft
    rcases hx : upgradeLoft.extraArgs c cmd email s with ⟨r, s1⟩
    rw [hx] at hpre
    simp only at hpre
    cases r with
    | error err => exact ⟨pre, hpre, by omega⟩
    | ok extraArgs =>
      simp only
      split
      · refine ⟨pre ++ [_], by simp only [St.after, hpre, List.append_assoc]; rfl, ?_⟩
        rw [deployments_append, hpre0]
        simp [deployments, List.countP_cons, Call.isUpgradeLoft]
      · split
        · refine ⟨pre ++ [_], by simp only [St.after, hpre, List.append_assoc]; rfl, ?_⟩
          rw [deployments_append, hpre0]
          simp [deployments, List.countP_cons, Call.isUpgradeLoft]
        · split
          · refine ⟨pre ++ [_, _], by simp only [St.after, hpre, List.append_assoc]; rfl, ?_⟩
            rw [deployments_append, hpre0]
            simp [deployments, List.countP_cons, Call.isUpgradeLoft]
          · split <;>
            · refine ⟨pre ++ [_, _, _, _], by simp only [St.after, hpre, List.append_assoc]; rfl, ?_⟩
              rw [deployments_append, hpre0]
              simp [deployments, List.countP_cons, Call.isUpgradeLoft]
  · intro hReset extraArgs s1 e w1 hArgs hDeploy
    constructor
    · intro manifests w2 hManifests
      unfold upgradeLoft
      simp only [hArgs, hDeploy, hReset, St.after, hManifests, Bool.not_true,
        Bool.false_eq_true, if_false]
      split <;> simp_all
    · intro e1 w2 hManifests
      unfold upgradeLoft
      simp [hArgs, hDeploy, hReset, St.after, hManifests]

/-- C3, amended, at a concrete input: reset mode, both deployments fail, the manifests
render. -/
theorem upgradeLoft_retries_at_most_once_witness :
    deployments (upgradeLoft scripted { Reset := true } "a@b.com"
      { world := { deploys := [some "cannot re-use a name", some "timed out"] } }).2.calls = 2 ∧
    (upgradeLoft scripted { Reset := true } "a@b.com"
      { world := { deploys := [some "cannot re-use a name", some "timed out"] } }).1
        = some ("timed out" ++ supportHint scripted) :=
  have key := ((upgradeLoft_retries_at_most_once scripted { Reset := true } "a@b.com"
    { world := { deploys := [some "cannot re-use a name", some "timed out"] } }).2 rfl
    _ _ _ _ rfl rfl).1 _ _ rfl
  ⟨by rw [key.1]; decide, key.2⟩

/-- C4: with `Reset = false`, a failed chart deployment makes `upgradeLoft` return at once:
the returned message is the deployer's error text followed by the remediation hint built
around `loft start --reset`, and the calls made after the arguments were built are the one
deployment alone: no manifests are rendered and no delete is run. (Building the arguments
calls nothing but `filepath.Abs` for the values file.) -/
theorem upgradeLoft_without_reset_fails_at_once {W : Type} (c : Collaborators W)
    (cmd : StartCmd) (email : String) (s s1 : St W) (extraArgs : List String) (e : GoError)
    (w1 : W)
    (hReset : cmd.Reset = false)
    (hArgs : upgradeLoft.extraArgs c cmd email s = (.ok extraArgs, s1))
    (hDeploy : c.UpgradeLoft (upgradeLoft.chart cmd).1 (upgradeLoft.chart cmd).2 cmd.Context
      cmd.Namespace extraArgs s1.world = (some e, w1)) :
    (upgradeLoft c cmd email s).1
      = some (e ++ ("\n\nIf want to purge and reinstall Loft, run: " ++
          c.Color "loft start --reset" "green+b" ++ "\n")) ∧
    (upgradeLoft c cmd email s).2.calls
      = s1.calls ++ [.UpgradeLoft (upgradeLoft.chart cmd).1 (upgradeLoft.chart cmd).2
          cmd.Context cmd.Namespace extraArgs] ∧
    (upgradeLoft c cmd email s).2.world = w1 ∧
    (s1.calls = s.calls ∨ s1.calls = s.calls ++ [.Abs cmd.Values]) := by
  refine ⟨?_, ?_, ?_, ?_⟩
  · simp [upgradeLoft, hArgs, hDeploy, hReset, resetHint]
  · simp [upgradeLoft, hArgs, hDeploy, hReset, St.after]
  · simp [upgradeLoft, hArgs, hDeploy, hReset, St.after]
  · have h0 := upgradeLoft_extraArgs_calls c cmd email s
    rw [hArgs] at h0
    exact h0

/-- C4, at a concrete input: the deployment fails with "cannot re-use a name". -/
theorem upgradeLoft_without_reset_fails_at_once_witness :
    (upgradeLoft scripted {} "a@b.com"
      { world := { deploys := [some "cannot re-use a name"] } }).1
        = some ("cannot re-use a name\n\nIf want to purge and reinstall Loft, run: " ++
            "loft start --reset\n") ∧
    deployments (upgradeLoft scripted {} "a@b.com"
      { world := { deploys := [some "cannot re-use a name"] } }).2.calls = 1 :=
  have key := upgradeLoft_without_reset_fails_at_once scripted {} "a@b.com"
    { world := { deploys := [some "cannot re-use a name"] } } _ _ _ _ rfl rfl rfl
  ⟨key.1.trans (by decide), by rw [key.2.1]; decide⟩

/-! ## The admin password -/

/-- C5: password resolution in `Run` (lines 146-154). With a non-empty `--password` flag the
step changes nothing (the command keeps exactly that password, no call is made) and in the
whole of `Run` `GetLoftDefaultPassword` is never called. With an empty flag the password
becomes the value `GetLoftDefaultPassword` returns for the namespace (and its error ends
`Run`), so two resolutions without a flag that see the same default end with the same
password. -/
theorem Run_password_resolution {W V : Type} (c : Collaborators W) (cmd : StartCmd)
    (s : St W) :
    (cmd.Password ≠ "" →
      Run.defaultPassword c cmd s = (none, cmd, s) ∧
      (Run c cmd s).2.2.calls.countP Call.isGetLoftDefaultPassword
        = s.calls.countP Call.isGetLoftDefaultPassword) ∧
    (cmd.Password = "" →
      (∀ (pw : String) (w : W),
        c.GetLoftDefaultPassword cmd.Namespace s.world = (.ok pw, w) →
        Run.defaultPassword c cmd s
          = (none, { cmd with Password := pw },
              s.after (.GetLoftDefaultPassword cmd.Namespace) w)) ∧
      (∀ (e : GoError) (w : W),
        c.GetLoftDefaultPassword cmd.Namespace s.world = (.error e, w) →
        Run.defaultPassword c cmd s
          = (some e, cmd, s.after (.GetLoftDefaultPassword cmd.Namespace) w))) ∧
    (∀ (c2 : Collaborators V) (cmd2 : StartCmd) (s2 : St V) (pw : String) (w : W) (w2 : V),
      cmd.Password = "" → cmd2.Password = "" →
      c.GetLoftDefaultPassword cmd.Namespace s.world = (.ok pw, w) →
      c2.GetLoftDefaultPassword cmd2.Namespace s2.world = (.ok pw, w2) →
      (Run.defaultPassword c cmd s).2.1.Password = pw ∧
      (Run.defaultPassword c2 cmd2 s2).2.1.Password = pw) := by
  refine ⟨?_, ?_, ?_⟩
  · intro hpw
    constructor
    · simp [Run.defaultPassword, hpw]
    · exact (Run_extends_of_Password c cmd s hpw).countP_eq _ (by intro x hx; simpa using hx)
  · intro hpw
    constructor
    · intro pw w hget
      simp [Run.defaultPassword, hpw, hget]
    · intro e w hget
      simp [Run.defaultPassword, hpw, hget]
  · intro c2 cmd2 s2 pw w w2 hpw hpw2 hget hget2
    constructor
    · simp [Run.defaultPassword, hpw, hget]
    · simp [Run.defaultPassword, hpw2, hget2]

/-- C5, at a concrete input: a fresh install with `--password s3cret` never asks for the
default, and the resolution without a flag yields the default of the scripted world. -/
theorem Run_password_resolution_witness :
    (Run scripted { Email := "a@b.com", Password := "s3cret", NoWait := true }
      { world := {} }).2.2.calls.countP Call.isGetLoftDefaultPassword = 0 ∧
    Call.UpgradeLoft "loft" "https://charts.loft.sh/" "kind-kind" "loft"
        ["--set", "admin.email=a@b.com", "--set", "admin.password=s3cret", "--reuse-values"] ∈
      (Run scripted { Email := "a@b.com", Password := "s3cret", NoWait := true }
        { world := {} }).2.2.calls ∧
    (Run.defaultPassword scripted {} { world := {} }).2.1.Password = "uid-1234" ∧
    Call.UpgradeLoft "loft" "https://charts.loft.sh/" "kind-kind" "loft"
        ["--set", "admin.email=a@b.com", "--set", "admin.password=uid-1234", "--reuse-values"] ∈
      (Run scripted { Email := "a@b.com", NoWait := true } { world := {} }).2.2.calls :=
  have key := Run_password_resolution (V := Script) scripted
    { Email := "a@b.com", Password := "s3cret", NoWait := true } { world := {} }
  have key2 := Run_password_resolution (V := Script) scripted {} { world := {} }
  ⟨(key.1 (by decide)).2, by decide,
    (key2.2.2 scripted {} { world := {} } "uid-1234" {} {} rfl rfl rfl rfl).1, by decide⟩

/-! ## An existing installation -/

/-- C6: for an existing installation with `Upgrade = false` in a non-interactive session
(`term.IsTerminal(os.Stdin)` answers false), whatever the other flags (`--host` included),
`handleAlreadyExistingInstallation` returns exactly what `success` returns, entered right
after the terminal check, and it makes no chart deployment: the log holds as many
`UpgradeLoft` calls after the call as before. -/
theorem handleAlreadyExistingInstallation_non_interactive {W : Type} (c : Collaborators W)
    (cmd : StartCmd) (s : St W)
    (hUpgrade : cmd.Upgrade = false)
    (hTerminal : (c.IsTerminal s.world).1 = false) :
    handleAlreadyExistingInstallation c cmd s
      = success c cmd (s.after .IsTerminal (c.IsTerminal s.world).2) ∧
    deployments (handleAlreadyExistingInstallation c cmd s).2.2.calls = deployments s.calls := by
  have heq : handleAlreadyExistingInstallation c cmd s
      = success c cmd (s.after .IsTerminal (c.IsTerminal s.world).2) := by
    simp [handleAlreadyExistingInstallation, handleAlreadyExistingInstallation.enableIngress,
      hUpgrade, hTerminal]
  refine ⟨heq, ?_⟩
  rw [heq]
  have h2 := success_extends c cmd Call.ofSuccess (fun _ hx => hx)
    (s.after .IsTerminal (c.IsTerminal s.world).2)
  have h3 := h2.countP_eq Call.isUpgradeLoft
    (by intro x hx; cases x <;> simp_all [Call.ofSuccess, Call.isUpgradeLoft])
  rw [deployments, h3]
  simp [deployments, St.after, List.countP_append, Call.isUpgradeLoft]

/-- C6, at a concrete input: an existing installation, started again with `--host` from a
session without a terminal. -/
theorem handleAlreadyExistingInstallation_non_interactive_witness :
    deployments (handleAlreadyExistingInstallation scripted { Host := "loft.example" }
      { world := { installed := true } }).2.2.calls = 0 ∧
    (handleAlreadyExistingInstallation scripted { Host := "loft.example" }
      { world := { installed := true } }).1
        = (success scripted { Host := "loft.example" }
            { world := { installed := true }, calls := [.IsTerminal] }).1 :=
  have key := handleAlreadyExistingInstallation_non_interactive scripted
    { Host := "loft.example" } { world := { installed := true } } rfl rfl
  ⟨key.2, congrArg Prod.fst key.1⟩

/-! ## `upgradeLoft`: the arguments and the forced delete -/

/-- The helm arguments `upgradeLoft` builds (lines 378-404), written out: the overrides for
email, password, host and version, then `--reuse-values`, then the values file. -/
theorem upgradeLoft_extraArgs_eq {W : Type} (c : Collaborators W) (cmd : StartCmd)
    (email : String) (s : St W) :
    upgradeLoft.extraArgs c cmd email s
      = if cmd.Values = "" then
          (.ok ((if email = "" then [] else ["--set", "admin.email=" ++ email]) ++
              (if cmd.Password = "" then [] else ["--set", "admin.password=" ++ cmd.Password]) ++
              (if cmd.Host = "" then []
                else ["--set", "ingress.enabled=true", "--set", "ingress.host=" ++ cmd.Host]) ++
              (if cmd.Version = "" then [] else ["--version", cmd.Version]) ++
              (if cmd.Reset = false ∧ cmd.ReuseValues = true then ["--reuse-values"] else [])),
            s)
        else
          (match (c.Abs cmd.Values s.world).1 with
            | .error err => .error err
            | .ok absValuesPath =>
              .ok ((if email = "" then [] else ["--set", "admin.email=" ++ email]) ++
                (if cmd.Password = "" then []
                  else ["--set", "admin.password=" ++ cmd.Password]) ++
                (if cmd.Host = "" then []
                  else ["--set", "ingress.enabled=true", "--set", "ingress.host=" ++ cmd.Host]) ++
                (if cmd.Version = "" then [] else ["--version", cmd.Version]) ++
                (if cmd.Reset = false ∧ cmd.ReuseValues = true then ["--reuse-values"] else []) ++
                ["--values", absValuesPath]),
            s.after (.Abs cmd.Values) (c.Abs cmd.Values s.world).2) := by
  simp only [upgradeLoft.extraArgs]
  by_cases he : email = "" <;> by_cases hp : cmd.Password = "" <;>
    by_cases hh : cmd.Host = "" <;> by_cases hv : cmd.Version = "" <;>
    by_cases hr : cmd.Reset = true <;> by_cases hu : cmd.ReuseValues = true <;>
    by_cases hvals : cmd.Values = "" <;>
    simp [he, hp, hh, hv, hr, hu, hvals] <;>
    split <;> simp_all

/-- The calls `upgradeLoft` makes once the arguments are built: the deployment alone, or the
deployment and the manifest render, or these two, the forced delete and the second
deployment; the deployments and the render all carry the same chart name, chart repository,
kube context, namespace and argument list. -/
theorem upgradeLoft_calls_shape {W : Type} (c : Collaborators W) (cmd : StartCmd)
    (email : String) (s s1 : St W) (extraArgs : List String)
    (hArgs : upgradeLoft.extraArgs c cmd email s = (.ok extraArgs, s1)) :
    (upgradeLoft c cmd email s).2.calls
        = s1.calls ++ [.UpgradeLoft (upgradeLoft.chart cmd).1 (upgradeLoft.chart cmd).2
            cmd.Context cmd.Namespace extraArgs] ∨
    (upgradeLoft c cmd email s).2.calls
        = s1.calls ++ [.UpgradeLoft (upgradeLoft.chart cmd).1 (upgradeLoft.chart cmd).2
            cmd.Context cmd.Namespace extraArgs,
          .GetLoftManifests (upgradeLoft.chart cmd).1 (upgradeLoft.chart cmd).2
            cmd.Context cmd.Namespace extraArgs] ∨
    ∃ manifests,
      (upgradeLoft c cmd email s).2.calls
        = s1.calls ++ [.UpgradeLoft (upgradeLoft.chart cmd).1 (upgradeLoft.chart cmd).2
            cmd.Context cmd.Namespace extraArgs,
          .GetLoftManifests (upgradeLoft.chart cmd).1 (upgradeLoft.chart cmd).2
            cmd.Context cmd.Namespace extraArgs,
          .kubectlDelete manifests,
          .UpgradeLoft (upgradeLoft.chart cmd).1 (upgradeLoft.chart cmd).2
            cmd.Context cmd.Namespace extraArgs] := by
  simp only [upgradeLoft, hArgs]
  split
  · exact Or.inl rfl
  · split
    · exact Or.inl rfl
    · split
      · exact Or.inr (Or.inl (by simp [St.after]))
      · rename_i manifests w heq
        refine Or.inr (Or.inr ⟨manifests, ?_⟩)
        split <;> simp [St.after]

/-- C12: `upgradeLoft` does not depend on the outcome of the forced `kubectl delete`: with any
other error answer of the delete (the world it leaves being the same) the result and the
call log are the same. In reset mode, after a first deploy failure and a successful manifest
render, the deployment is retried whatever the delete answered, `upgradeLoft` returns `nil`
exactly when the retry succeeds, and an error it returns is the retry error followed by the
escalation text, never the error of the delete. -/
theorem upgradeLoft_delete_outcome_ignored {W : Type} (c : Collaborators W) (cmd : StartCmd)
    (email : String) (s : St W) (deleteAnswer : String → W → Option GoError) :
    upgradeLoft
        { c with kubectlDelete := fun stdin w => (deleteAnswer stdin w, (c.kubectlDelete stdin w).2) }
        cmd email s
      = upgradeLoft c cmd email s ∧
    (cmd.Reset = true →
      ∀ (extraArgs : List String) (s1 : St W) (e : GoError) (w1 w2 : W) (manifests : String),
        upgradeLoft.extraArgs c cmd email s = (.ok extraArgs, s1) →
        c.UpgradeLoft (upgradeLoft.chart cmd).1 (upgradeLoft.chart cmd).2 cmd.Context
          cmd.Namespace extraArgs s1.world = (some e, w1) →
        c.GetLoftManifests (upgradeLoft.chart cmd).1 (upgradeLoft.chart cmd).2 cmd.Context
          cmd.Namespace extraArgs w1 = (.ok manifests, w2) →
        (upgradeLoft c cmd email s).2.calls
          = s1.calls ++
            [.UpgradeLoft (upgradeLoft.chart cmd).1 (upgradeLoft.chart cmd).2 cmd.Context
                cmd.Namespace extraArgs,
              .GetLoftManifests (upgradeLoft.chart cmd).1 (upgradeLoft.chart cmd).2
                cmd.Context cmd.Namespace extraArgs,
              .kubectlDelete manifests,
              .UpgradeLoft (upgradeLoft.chart cmd).1 (upgradeLoft.chart cmd).2 cmd.Context
                cmd.Namespace extraArgs] ∧
        ((upgradeLoft c cmd email s).1 = none ↔
          (c.UpgradeLoft (upgradeLoft.chart cmd).1 (upgradeLoft.chart cmd).2 cmd.Context
            cmd.Namespace extraArgs (c.kubectlDelete manifests w2).2).1 = none) ∧
        (∀ err, (upgradeLoft c cmd email s).1 = some err →
          ∃ e2, (c.UpgradeLoft (upgradeLoft.chart cmd).1 (upgradeLoft.chart cmd).2
              cmd.Context cmd.Namespace extraArgs (c.kubectlDelete manifests w2).2).1 = some e2 ∧
            err = e2 ++ supportHint c)) := by
  constructor
  · rfl
  · intro hReset extraArgs s1 e w1 w2 manifests hArgs hDeploy hManifests
    simp only [upgradeLoft, hArgs, hDeploy, hReset, St.after, hManifests, Bool.not_true,
      Bool.false_eq_true, if_false]
    rcases hretry : c.UpgradeLoft (upgradeLoft.chart cmd).1 (upgradeLoft.chart cmd).2
        cmd.Context cmd.Namespace extraArgs (c.kubectlDelete manifests w2).2 with ⟨r, w3⟩
    cases r <;> simp

/-- C12, at a concrete input: reset mode, the first deployment fails, the delete fails, the
retry succeeds. -/
theorem upgradeLoft_delete_outcome_ignored_witness :
    (upgradeLoft scripted { Reset := true } "a@b.com"
      { world := { deploys := [some "cannot re-use a name"], delete := some "exit status 1" } }).1
        = none ∧
    deployments (upgradeLoft scripted { Reset := true } "a@b.com"
      { world := { deploys := [some "cannot re-use a name"],
                   delete := some "exit status 1" } }).2.calls = 2 :=
  have key := (upgradeLoft_delete_outcome_ignored scripted { Reset := true } "a@b.com"
    { world := { deploys := [some "cannot re-use a name"], delete := some "exit status 1" } }
    (fun _ _ => none)).2 rfl _ _ _ _ _ _ rfl rfl rfl
  ⟨key.2.1.2 rfl, by rw [key.1]; decide⟩

/-- C13: the arguments `upgradeLoft` passes to the chart deployer contain the `--reuse-values`
entry unless this is a reset. The list is made of pairs of a flag and its value (the `--set`
and `--version` overrides first, the `--values` file last), and between them of the entry
`--reuse-values`, which `upgradeLoft` appends exactly when `Reset` is false and `ReuseValues`
is set: for every flag setting with `Reset = true` the list holds the pairs alone, and with
`Reset = false` it holds the entry exactly when `ReuseValues` is set. The flag of every pair
is `--set`, `--version` or `--values`. Every deployment `upgradeLoft` invokes is passed this
list. -/
theorem upgradeLoft_reuse_values {W : Type} (c : Collaborators W) (cmd : StartCmd)
    (email : String) (s s1 : St W) (extraArgs : List String)
    (hArgs : upgradeLoft.extraArgs c cmd email s = (.ok extraArgs, s1)) :
    (∃ overrides values : List (String × String),
      overrides
        = (if email = "" then [] else [("--set", "admin.email=" ++ email)]) ++
          (if cmd.Password = "" then [] else [("--set", "admin.password=" ++ cmd.Password)]) ++
          (if cmd.Host = "" then []
            else [("--set", "ingress.enabled=true"), ("--set", "ingress.host=" ++ cmd.Host)]) ++
          (if cmd.Version = "" then [] else [("--version", cmd.Version)]) ∧
      (cmd.Values = "" → values = []) ∧
      (cmd.Values ≠ "" →
        ∃ absValuesPath, (c.Abs cmd.Values s.world).1 = .ok absValuesPath ∧
          values = [("--values", absValuesPath)]) ∧
      (∀ p ∈ overrides ++ values, p.1 = "--set" ∨ p.1 = "--version" ∨ p.1 = "--values") ∧
      (cmd.Reset = true →
        extraArgs = (overrides.map fun p => [p.1, p.2]).flatten ++
          (values.map fun p => [p.1, p.2]).flatten) ∧
      (cmd.Reset = false → cmd.ReuseValues = true →
        extraArgs = (overrides.map fun p => [p.1, p.2]).flatten ++ ["--reuse-values"] ++
          (values.map fun p => [p.1, p.2]).flatten) ∧
      (cmd.Reset = false → cmd.ReuseValues = false →
        extraArgs = (overrides.map fun p => [p.1, p.2]).flatten ++
          (values.map fun p => [p.1, p.2]).flatten)) ∧
    (cmd.Reset = false → cmd.ReuseValues = true → "--reuse-values" ∈ extraArgs) ∧
    (∃ new, (upgradeLoft c cmd email s).2.calls = s1.calls ++ new ∧
      (∃ x ∈ new, x.isUpgradeLoft = true) ∧
      ∀ chartName chartRepo kubeContext ns args,
        Call.UpgradeLoft chartName chartRepo kubeContext ns args ∈ new → args = extraArgs) := by
  have hov : (((if email = "" then [] else [("--set", "admin.email=" ++ email)]) ++
        (if cmd.Password = "" then [] else [("--set", "admin.password=" ++ cmd.Password)]) ++
        (if cmd.Host = "" then []
          else [("--set", "ingress.enabled=true"), ("--set", "ingress.host=" ++ cmd.Host)]) ++
        (if cmd.Version = "" then [] else [("--version", cmd.Version)])).map
          fun p : String × String => [p.1, p.2]).flatten
      = (if email = "" then [] else ["--set", "admin.email=" ++ email]) ++
        (if cmd.Password = "" then [] else ["--set", "admin.password=" ++ cmd.Password]) ++
        (if cmd.Host = "" then []
          else ["--set", "ingress.enabled=true", "--set", "ingress.host=" ++ cmd.Host]) ++
        (if cmd.Version = "" then [] else ["--version", cmd.Version]) := by
    by_cases he : email = "" <;> by_cases hp : cmd.Password = "" <;>
      by_cases hh : cmd.Host = "" <;> by_cases hv : cmd.Version = "" <;>
      simp [he, hp, hh, hv]
  have hflags : ∀ p ∈ (if email = "" then [] else [("--set", "admin.email=" ++ email)]) ++
        (if cmd.Password = "" then [] else [("--set", "admin.password=" ++ cmd.Password)]) ++
        (if cmd.Host = "" then []
          else [("--set", "ingress.enabled=true"), ("--set", "ingress.host=" ++ cmd.Host)]) ++
        (if cmd.Version = "" then [] else [("--version", cmd.Version)]),
      p.1 = "--set" ∨ p.1 = "--version" ∨ p.1 = "--values" := by
    intro p hp
    simp only [List.mem_append] at hp
    rcases hp with ((hp | hp) | hp) | hp <;> split at hp <;> simp at hp <;>
      first
        | (rw [hp]; simp)
        | (rcases hp with hp | hp <;> rw [hp] <;> simp)
  have hcalls : ∃ new, (upgradeLoft c cmd email s).2.calls = s1.calls ++ new ∧
      (∃ x ∈ new, x.isUpgradeLoft = true) ∧
      ∀ chartName chartRepo kubeContext ns args,
        Call.UpgradeLoft chartName chartRepo kubeContext ns args ∈ new → args = extraArgs := by
    rcases upgradeLoft_calls_shape c cmd email s s1 extraArgs hArgs with h | h | ⟨m, h⟩
    · refine ⟨_, h, ⟨_, List.mem_singleton.2 rfl, rfl⟩, ?_⟩
      intro a b d n args hx
      simp at hx
      exact hx.2.2.2.2
    · refine ⟨_, h, ⟨_, List.mem_cons_self _ _, rfl⟩, ?_⟩
      intro a b d n args hx
      simp at hx
      exact hx.2.2.2.2
    · refine ⟨_, h, ⟨_, List.mem_cons_self _ _, rfl⟩, ?_⟩
      intro a b d n args hx
      simp at hx
      exact hx.2.2.2.2
  rw [upgradeLoft_extraArgs_eq] at hArgs
  by_cases hvals : cmd.Values = ""
  · rw [if_pos hvals] at hArgs
    simp only [Prod.mk.injEq, Except.ok.injEq] at hArgs
    refine ⟨⟨_, [], rfl, fun _ => rfl, fun h => absurd hvals h, ?_, ?_, ?_, ?_⟩, ?_, hcalls⟩
    · simpa using hflags
    · intro hr
      rw [hov, ← hArgs.1]
      simp [hr]
    · intro hr hu
      rw [hov, ← hArgs.1]
      simp [hr, hu]
    · intro hr hu
      rw [hov, ← hArgs.1]
      simp [hr, hu]
    · intro hr hu
      rw [← hArgs.1]
      simp [hr, hu]
  · rw [if_neg hvals] at hArgs
    rcases habs : c.Abs cmd.Values s.world with ⟨r, w⟩
    rw [habs] at hArgs
    cases r with
    | error err => simp at hArgs
    | ok absValuesPath =>
      simp only [Prod.mk.injEq, Except.ok.injEq] at hArgs
      refine ⟨⟨_, [("--values", absValuesPath)], rfl, fun h => absurd h hvals,
        fun _ => ⟨absValuesPath, rfl, rfl⟩, ?_, ?_, ?_, ?_⟩, ?_, hcalls⟩
      · intro p hp
        rcases List.mem_append.1 hp with hp | hp
        · exact hflags p hp
        · rw [List.mem_singleton.1 hp]
          simp
      · intro hr
        rw [hov, ← hArgs.1]
        simp [hr]
      · intro hr hu
        rw [hov, ← hArgs.1]
        simp [hr, hu]
      · intro hr hu
        rw [hov, ← hArgs.1]
        simp [hr, hu]
      · intro hr hu
        rw [← hArgs.1]
        simp [hr, hu]

/-- C13, at concrete inputs: without a reset the list ends with the `--reuse-values` entry;
with a reset, and with `--version --reuse-values`, the list holds the two pairs alone, the
text being the value of the `--version` pair. -/
theorem upgradeLoft_reuse_values_witness :
    "--reuse-values" ∈ ["--set", "admin.email=a@b.com", "--reuse-values"] ∧
    (upgradeLoft.extraArgs scripted {} "a@b.com" { world := {} }).1
      = .ok ["--set", "admin.email=a@b.com", "--reuse-values"] ∧
    (upgradeLoft.extraArgs scripted { Reset := true, Version := "--reuse-values" } "a@b.com"
        { world := {} }).1
      = .ok (([("--set", "admin.email=a@b.com"), ("--version", "--reuse-values")].map
          fun p => [p.1, p.2]).flatten) :=
  ⟨(upgradeLoft_reuse_values scripted {} "a@b.com" { world := {} } { world := {} }
      ["--set", "admin.email=a@b.com", "--reuse-values"] rfl).2.1 rfl rfl,
    rfl, rfl⟩

/-- C14: override building in `upgradeLoft`. For every email, `Password`, `Host` and
`Version` the argument list is, in this order, `["--set", "admin.email=" ++ email]` iff the
email is non-empty, `["--set", "admin.password=" ++ Password]` iff the password is non-empty,
`["--set", "ingress.enabled=true", "--set", "ingress.host=" ++ Host]` iff the host is
non-empty, `["--version", Version]` iff the version is non-empty, followed by the
`--reuse-values` entry (iff `Reset` is false and `ReuseValues` is set) and the
`["--values", path]` entry (iff `Values` is non-empty, with the path `filepath.Abs` answers).
The first deployment, the manifest render and the retry are all called with the same chart
name and repository, kube context, namespace and this argument list. -/
theorem upgradeLoft_override_building {W : Type} (c : Collaborators W) (cmd : StartCmd)
    (email : String) (s s1 : St W) (extraArgs : List String)
    (hArgs : upgradeLoft.extraArgs c cmd email s = (.ok extraArgs, s1)) :
    extraArgs
      = (if email = "" then [] else ["--set", "admin.email=" ++ email]) ++
        (if cmd.Password = "" then [] else ["--set", "admin.password=" ++ cmd.Password]) ++
        (if cmd.Host = "" then []
          else ["--set", "ingress.enabled=true", "--set", "ingress.host=" ++ cmd.Host]) ++
        (if cmd.Version = "" then [] else ["--version", cmd.Version]) ++
        (if cmd.Reset = false ∧ cmd.ReuseValues = true then ["--reuse-values"] else []) ++
        (if cmd.Values = "" then []
          else match (c.Abs cmd.Values s.world).1 with
            | .ok absValuesPath => ["--values", absValuesPath]
            | .error _ => []) ∧
    ((upgradeLoft c cmd email s).2.calls
        = s1.calls ++ [.UpgradeLoft (upgradeLoft.chart cmd).1 (upgradeLoft.chart cmd).2
            cmd.Context cmd.Namespace extraArgs] ∨
      (upgradeLoft c cmd email s).2.calls
        = s1.calls ++ [.UpgradeLoft (upgradeLoft.chart cmd).1 (upgradeLoft.chart cmd).2
            cmd.Context cmd.Namespace extraArgs,
          .GetLoftManifests (upgradeLoft.chart cmd).1 (upgradeLoft.chart cmd).2
            cmd.Context cmd.Namespace extraArgs] ∨
      ∃ manifests,
        (upgradeLoft c cmd email s).2.calls
          = s1.calls ++ [.UpgradeLoft (upgradeLoft.chart cmd).1 (upgradeLoft.chart cmd).2
              cmd.Context cmd.Namespace extraArgs,
            .GetLoftManifests (upgradeLoft.chart cmd).1 (upgradeLoft.chart cmd).2
              cmd.Context cmd.Namespace extraArgs,
            .kubectlDelete manifests,
            .UpgradeLoft (upgradeLoft.chart cmd).1 (upgradeLoft.chart cmd).2
              cmd.Context cmd.Namespace extraArgs]) ∧
    upgradeLoft.chart cmd
      = (if cmd.ChartPath = "" then (cmd.ChartName, cmd.ChartRepo) else (cmd.ChartPath, "")) := by
  refine ⟨?_, upgradeLoft_calls_shape c cmd email s s1 extraArgs hArgs, ?_⟩
  · rw [upgradeLoft_extraArgs_eq] at hArgs
    by_cases hvals : cmd.Values = ""
    · rw [if_pos hvals] at hArgs
      simp only [Prod.mk.injEq, Except.ok.injEq] at hArgs
      rw [← hArgs.1, if_pos hvals, List.append_nil]
    · rw [if_neg hvals] at hArgs
      rw [if_neg hvals]
      rcases habs : c.Abs cmd.Values s.world with ⟨r, w⟩
      rw [habs] at hArgs
      cases r with
      | error err => simp at hArgs
      | ok absValuesPath =>
        simp only [Prod.mk.injEq, Except.ok.injEq] at hArgs
        rw [← hArgs.1]
  · simp [upgradeLoft.chart]

/-- C14, at a concrete input: every override given, a reset, and a values file; the first
deployment fails and the retry is made with the same arguments. -/
theorem upgradeLoft_override_building_witness :
    (upgradeLoft
      scripted
      { Reset := true, Password := "pw", Host := "loft.example", Version := "3.2.0",
        Values := "values.yaml", Context := "kind-kind" }
      "a@b.com" { world := { deploys := [some "cannot re-use a name"] } }).2.calls
      = [.Abs "values.yaml",
         .UpgradeLoft "loft" "https://charts.loft.sh/" "kind-kind" "loft"
           ["--set", "admin.email=a@b.com", "--set", "admin.password=pw", "--set",
            "ingress.enabled=true", "--set", "ingress.host=loft.example", "--version", "3.2.0",
            "--values", "/work/values.yaml"],
         .GetLoftManifests "loft" "https://charts.loft.sh/" "kind-kind" "loft"
           ["--set", "admin.email=a@b.com", "--set", "admin.password=pw", "--set",
            "ingress.enabled=true", "--set", "ingress.host=loft.example", "--version", "3.2.0",
            "--values", "/work/values.yaml"],
         .kubectlDelete "kind: Deployment",
         .UpgradeLoft "loft" "https://charts.loft.sh/" "kind-kind" "loft"
           ["--set", "admin.email=a@b.com", "--set", "admin.password=pw", "--set",
            "ingress.enabled=true", "--set", "ingress.host=loft.example", "--version", "3.2.0",
            "--values", "/work/values.yaml"]] ∧
    ["--set", "admin.email=a@b.com", "--set", "admin.password=pw", "--set",
        "ingress.enabled=true", "--set", "ingress.host=loft.example", "--version", "3.2.0",
        "--values", "/work/values.yaml"]
      = ["--set", "admin.email=" ++ "a@b.com"] ++ ["--set", "admin.password=" ++ "pw"] ++
        ["--set", "ingress.enabled=true", "--set", "ingress.host=" ++ "loft.example"] ++
        ["--version", "3.2.0"] ++ [] ++ ["--values", "/work/values.yaml"] :=
  have key := upgradeLoft_override_building scripted
    { Reset := true, Password := "pw", Host := "loft.example", Version := "3.2.0",
      Values := "values.yaml", Context := "kind-kind" }
    "a@b.com" { world := { deploys := [some "cannot re-use a name"] } }
    { world := { deploys := [some "cannot re-use a name"] }, calls := [.Abs "values.yaml"] }
    ["--set", "admin.email=a@b.com", "--set", "admin.password=pw", "--set",
      "ingress.enabled=true", "--set", "ingress.host=loft.example", "--version", "3.2.0",
      "--values", "/work/values.yaml"] rfl
  ⟨by decide, key.1.trans (by decide)⟩

/-! ## Health probes and polling -/

/-- A poll whose condition never returns an error ends with `nil` or with the poll's own
timeout error. -/
theorem poll_of_condition_without_error {W : Type}
    (condition : St W → (Bool × Option GoError) × St W)
    (hcond : ∀ s, (condition s).1.2 = none) (timeoutErr : GoError) (attempts : Nat)
    (s : St W) :
    (poll condition timeoutErr attempts s).1 = none ∨
    (poll condition timeoutErr attempts s).1 = some timeoutErr := by
  induction attempts generalizing s with
  | zero =>
    have h1 := hcond s
    unfold poll
    split <;> simp_all
  | succ n ih =>
    have h1 := hcond s
    unfold poll
    split
    · simp_all
    · simp_all
    · exact ih _

/-- C18: the health probe used while polling (the condition of the poll in `pingLoftRouter`,
against `https://<domain>/version`, and of the poll in `startPortForwarding`, against
`https://localhost:<LocalPort>/version`) never returns an error, and reports ready exactly
when the request could be built and sent and the response status is 200; for every other
outcome it returns `(false, nil)`. So each of the two polls ends with `nil` or with the
poll's deadline error. -/
theorem healthProbe_never_errors {W : Type} (c : Collaborators W) (cmd : StartCmd)
    (loftPod : Pod) :
    (∀ (url : String) (s : St W),
      (healthProbe c url s).1.2 = none ∧
      ((healthProbe c url s).1.1 = true ↔
        c.NewRequestWithContext "GET" url = none ∧ (c.Do url s.world).1 = .ok 200) ∧
      ((healthProbe c url s).1 = (true, none) ∨ (healthProbe c url s).1 = (false, none))) ∧
    (∀ (url : String) (attempts : Nat) (s : St W),
      (poll (healthProbe c url) DeadlineExceeded attempts s).1 = none ∨
      (poll (healthProbe c url) DeadlineExceeded attempts s).1 = some DeadlineExceeded) ∧
    (∀ (s : St W) (w : W),
      c.StartPortForwarding loftPod cmd.LocalPort s.world = (none, w) →
      startPortForwarding c cmd loftPod s
        = poll (healthProbe c ("https://localhost:" ++ cmd.LocalPort ++ "/version"))
            DeadlineExceeded (c.pollAttempts Second c.Timeout w)
            ((s.after (.StartPortForwarding loftPod cmd.LocalPort) w).after
              .restartPortForwarding w)) ∧
    (∀ (s : St W) (w : W) (loftRouterSecret : Secret) (data : List (String × String)),
      c.GetSecret loftPod.Namespace c.LoftRouterDomainSecret s.world
        = (.ok loftRouterSecret, w) →
      loftRouterSecret.Data = some data → mapIndex data "domain" ≠ "" →
      pingLoftRouter c loftPod s
        = (match poll (healthProbe c ("https://" ++ mapIndex data "domain" ++ "/version"))
              DeadlineExceeded (c.pollAttempts (Second * 3) (Minute * 5) w)
              (s.after (.GetSecret loftPod.Namespace c.LoftRouterDomainSecret) w) with
            | (some err, s') => (("", some err), s')
            | (none, s') => ((mapIndex data "domain", none), s'))) := by
  have hprobe : ∀ (url : String) (s : St W),
      (healthProbe c url s).1.2 = none ∧
      ((healthProbe c url s).1.1 = true ↔
        c.NewRequestWithContext "GET" url = none ∧ (c.Do url s.world).1 = .ok 200) ∧
      ((healthProbe c url s).1 = (true, none) ∨ (healthProbe c url s).1 = (false, none)) := by
    intro url s
    simp only [healthProbe]
    cases hreq : c.NewRequestWithContext "GET" url with
    | some e => simp
    | none =>
      rcases hdo : c.Do url (s.after (.NewRequestWithContext url) s.world).world with ⟨r, w⟩
      have hw : (s.after (.NewRequestWithContext url) s.world).world = s.world := rfl
      rw [hw] at hdo
      cases r with
      | error e => simp [hdo]
      | ok statusCode =>
        by_cases h200 : statusCode = 200 <;> simp [hdo, h200]
  refine ⟨hprobe, ?_, ?_, ?_⟩
  · intro url attempts s
    exact poll_of_condition_without_error _ (fun s => (hprobe url s).1) _ _ _
  · intro s w hstart
    simp [startPortForwarding, hstart, St.after]
  · intro s w loftRouterSecret data hget hdata hdomain
    have hlen : ¬ (mapIndex data "domain").length = 0 := by
      intro h0
      exact hdomain (String.ext (List.length_eq_zero.1 h0))
    simp [pingLoftRouter, hget, hdata, hlen, St.after]

/-- C18, at a concrete input: a local port on which the request is answered with 200. -/
theorem healthProbe_never_errors_witness :
    (startPortForwarding scripted {} { Name := "loft-0", Namespace := "loft" }
      { world := {} }).1 = none ∧
    Call.Do "https://localhost:9898/version" ∈
      (startPortForwarding scripted {} { Name := "loft-0", Namespace := "loft" }
        { world := {} }).2.calls :=
  have key := (healthProbe_never_errors scripted {} { Name := "loft-0", Namespace := "loft" }
    ).2.2.1 { world := {} } {} rfl
  ⟨by rw [key]; decide, by rw [key]; decide⟩

/-! ## The email pattern -/

/-- An expression is nullable exactly when it matches the empty text. -/
theorem Regex.nullable_iff (r : Regex) : r.nullable = true ↔ r.Matches [] := by
  induction r with
  | noMatch => simp [Regex.nullable, Regex.Matches]
  | emptyMatch => simp [Regex.nullable, Regex.Matches]
  | charClass p => simp [Regex.nullable, Regex.Matches]
  | concat r1 r2 ih1 ih2 =>
    simp only [Regex.nullable, Regex.Matches, Bool.and_eq_true, ih1, ih2]
    constructor
    · intro h
      exact ⟨[], [], rfl, h.1, h.2⟩
    · rintro ⟨s1, s2, hs, h1, h2⟩
      have hnil := List.append_eq_nil.1 hs.symm
      rw [hnil.1] at h1
      rw [hnil.2] at h2
      exact ⟨h1, h2⟩
  | alternate r1 r2 ih1 ih2 =>
    simp only [Regex.nullable, Regex.Matches, Bool.or_eq_true, ih1, ih2]
  | star r _ =>
    simp only [Regex.nullable, Regex.Matches, true_iff]
    exact ⟨[], rfl, by simp⟩

/-- The derivative by `a` matches `s` exactly when the expression matches `a :: s`. -/
theorem Regex.derivative_iff (a : Char) (r : Regex) (s : List Char) :
    (r.derivative a).Matches s ↔ r.Matches (a :: s) := by
  induction r generalizing s with
  | noMatch => simp [Regex.derivative, Regex.Matches]
  | emptyMatch => simp [Regex.derivative, Regex.Matches]
  | charClass p =>
    simp only [Regex.derivative, Regex.Matches]
    by_cases hp : p a = true
    · simp only [hp, if_true, Regex.Matches]
      constructor
      · intro hs
        exact ⟨a, by rw [hs], hp⟩
      · rintro ⟨b, hb, _⟩
        exact (List.cons.inj hb).2
    · simp only [hp, Bool.false_eq_true, if_false, Regex.Matches, false_iff]
      rintro ⟨b, hb, hpb⟩
      rw [(List.cons.inj hb).1] at hp
      exact hp hpb
  | concat r1 r2 ih1 ih2 =>
    have hsplit : (Regex.concat r1 r2).Matches (a :: s) ↔
        (r1.Matches [] ∧ r2.Matches (a :: s)) ∨
          ∃ s1 s2, s = s1 ++ s2 ∧ r1.Matches (a :: s1) ∧ r2.Matches s2 := by
      simp only [Regex.Matches]
      constructor
      · rintro ⟨t1, t2, ht, h1, h2⟩
        rcases List.cons_eq_append_iff.1 ht with ⟨hnil, hcons⟩ | ⟨t1', ht1, hs⟩
        · left
          rw [hnil] at h1
          rw [hcons] at h2
          exact ⟨h1, h2⟩
        · right
          rw [ht1] at h1
          exact ⟨t1', t2, hs, h1, h2⟩
      · rintro (⟨h1, h2⟩ | ⟨s1, s2, hs, h1, h2⟩)
        · exact ⟨[], a :: s, rfl, h1, h2⟩
        · exact ⟨a :: s1, s2, by rw [hs]; rfl, h1, h2⟩
    rw [hsplit]
    simp only [Regex.derivative]
    by_cases hn : r1.nullable = true
    · simp only [hn, if_true, Regex.Matches, ih1, ih2]
      have hnil := (Regex.nullable_iff r1).1 hn
      constructor
      · rintro (h | h)
        · exact Or.inr h
        · exact Or.inl ⟨hnil, h⟩
      · rintro (h | h)
        · exact Or.inr h.2
        · exact Or.inl h
    · simp only [hn, Bool.false_eq_true, if_false, Regex.Matches, ih1]
      have hnil : ¬ r1.Matches [] := fun h => hn ((Regex.nullable_iff r1).2 h)
      constructor
      · intro h
        exact Or.inr h
      · rintro (h | h)
        · exact absurd h.1 hnil
        · exact h
  | alternate r1 r2 ih1 ih2 =>
    simp only [Regex.derivative, Regex.Matches, ih1, ih2]
  | star r ih =>
    simp only [Regex.derivative, Regex.Matches, ih]
    constructor
    · rintro ⟨s1, s2, hs, h1, pieces, hp, hall⟩
      refine ⟨(a :: s1) :: pieces, ?_, ?_⟩
      · rw [hs, hp]; rfl
      · intro x hx
        rcases List.mem_cons.1 hx with hx | hx
        · rw [hx]
          exact ⟨List.cons_ne_nil _ _, h1⟩
        · exact hall x hx
    · rintro ⟨pieces, hp, hall⟩
      cases pieces with
      | nil => simp at hp
      | cons x rest =>
        have hx := hall x (List.mem_cons_self _ _)
        cases x with
        | nil => exact absurd rfl hx.1
        | cons b x' =>
          simp only [List.flatten_cons, List.cons_append, List.cons.injEq] at hp
          refine ⟨x', rest.flatten, hp.2, ?_, rest, rfl, ?_⟩
          · rw [hp.1]; exact hx.2
          · intro y hy
            exact hall y (List.mem_cons_of_mem _ hy)

/-- Matching by derivatives decides the meaning of the expression. -/
theorem Regex.MatchString_iff (r : Regex) (s : String) :
    r.MatchString s = true ↔ r.Matches s.toList := by
  unfold Regex.MatchString
  generalize s.toList = cs
  induction cs generalizing r with
  | nil => exact Regex.nullable_iff r
  | cons a cs ih =>
    rw [List.foldl_cons, ih, Regex.derivative_iff]

/-- A text matches `[p]*` exactly when all its characters are in the class. -/
theorem Regex.star_charClass_iff (p : Char → Bool) (s : List Char) :
    (Regex.star (.charClass p)).Matches s ↔ ∀ a ∈ s, p a = true := by
  simp only [Regex.Matches]
  constructor
  · rintro ⟨pieces, hp, hall⟩ a ha
    rw [hp] at ha
    obtain ⟨x, hx, hax⟩ := List.mem_flatten.1 ha
    obtain ⟨_, b, hb, hpb⟩ := hall x hx
    rw [hb] at hax
    rw [List.mem_singleton.1 hax]
    exact hpb
  · intro hall
    refine ⟨s.map fun a => [a], ?_, ?_⟩
    · clear hall
      induction s with
      | nil => rfl
      | cons a t ih => simp only [List.map_cons, List.flatten_cons, ← ih]; rfl
    · intro x hx
      obtain ⟨a, ha, hax⟩ := List.mem_map.1 hx
      rw [← hax]
      exact ⟨List.cons_ne_nil _ _, a, rfl, hall a ha⟩

/-- A text matches `[p]+` exactly when it is non-empty and all its characters are in the
class. -/
theorem Regex.plus_charClass_iff (p : Char → Bool) (s : List Char) :
    (Regex.plus (.charClass p)).Matches s ↔ s ≠ [] ∧ ∀ a ∈ s, p a = true := by
  have hstar := Regex.star_charClass_iff p
  simp only [Regex.plus]
  constructor
  · intro h
    obtain ⟨s1, s2, hs, ⟨a, ha, hpa⟩, h2⟩ := h
    rw [hs, ha]
    refine ⟨List.cons_ne_nil _ _, ?_⟩
    intro b hb
    rcases List.mem_cons.1 hb with hb | hb
    · rw [hb]; exact hpa
    · exact (hstar s2).1 h2 b hb
  · rintro ⟨hne, hall⟩
    cases s with
    | nil => exact absurd rfl hne
    | cons a t =>
      exact ⟨[a], t, rfl, ⟨a, rfl, hall a (List.mem_cons_self _ _)⟩,
        (hstar t).2 fun b hb => hall b (List.mem_cons_of_mem _ hb)⟩

/-- The texts `emailRegex` matches, as lists of characters. -/
theorem emailRegex_Matches_iff (cs : List Char) :
    emailRegex.Matches cs ↔
      ∃ L D T : List Char, cs = L ++ '@' :: (D ++ '.' :: T) ∧
        (L ≠ [] ∧ '@' ∉ L) ∧ (D ≠ [] ∧ '.' ∉ D) ∧ (T ≠ [] ∧ '\n' ∉ T) := by
  have hclass : ∀ (b : Char) (l : List Char),
      (l ≠ [] ∧ ∀ a ∈ l, (a != b) = true) ↔ (l ≠ [] ∧ b ∉ l) := by
    intro b l
    constructor
    · rintro ⟨hne, hall⟩
      exact ⟨hne, fun hb => by simpa using hall b hb⟩
    · rintro ⟨hne, hnot⟩
      refine ⟨hne, fun a ha => ?_⟩
      simp only [bne_iff_ne, ne_eq]
      intro hab
      exact hnot (hab ▸ ha)
  unfold emailRegex
  constructor
  · intro h
    obtain ⟨L, r1, hcs, hL, at1, r2, hr1, ⟨a, hat, ha⟩, D, r3, hr2, hD, dot1, T, hr3,
      ⟨d, hdot, hd⟩, hT⟩ := h
    rw [Regex.plus_charClass_iff, hclass] at hL hD hT
    have ha' : a = '@' := by simpa using ha
    have hd' : d = '.' := by simpa using hd
    refine ⟨L, D, T, ?_, hL, hD, hT⟩
    rw [hcs, hr1, hat, hr2, hr3, hdot, ha', hd']
    rfl
  · rintro ⟨L, D, T, hcs, hL, hD, hT⟩
    refine ⟨L, '@' :: (D ++ '.' :: T), hcs, ?_, ['@'], D ++ '.' :: T, rfl, ⟨'@', rfl, rfl⟩,
      D, '.' :: T, rfl, ?_, ['.'], T, rfl, ⟨'.', rfl, rfl⟩, ?_⟩
    · rw [Regex.plus_charClass_iff, hclass]; exact hL
    · rw [Regex.plus_charClass_iff, hclass]; exact hD
    · rw [Regex.plus_charClass_iff, hclass]; exact hT

/-- A list splits in one way only at the first occurrence of `a`. -/
theorem append_cons_unique {α : Type} (a : α) :
    ∀ (l1 l2 r1 r2 : List α), a ∉ l1 → a ∉ l2 → l1 ++ a :: r1 = l2 ++ a :: r2 →
      l1 = l2 ∧ r1 = r2
  | [], [], _, _, _, _, h => ⟨rfl, (List.cons.inj h).2⟩
  | [], b :: l2, _, _, _, h2, h => by
    have := (List.cons.inj h).1
    exact absurd (this ▸ List.mem_cons_self _ _) h2
  | b :: l1, [], _, _, h1, _, h => by
    have := (List.cons.inj h).1
    exact absurd (this ▸ List.mem_cons_self _ _) h1
  | b :: l1, d :: l2, r1, r2, h1, h2, h => by
    have hc := List.cons.inj h
    have ih := append_cons_unique a l1 l2 r1 r2
      (fun hm => h1 (List.mem_cons_of_mem _ hm)) (fun hm => h2 (List.mem_cons_of_mem _ hm)) hc.2
    exact ⟨by rw [hc.1, ih.1], ih.2⟩

/-- C19: `emailRegex` (`^[^@]+@[^\.]+\..+$`) accepts exactly the strings of the shape
`local@domain.tld`: `s` is accepted iff `s = L ++ "@" ++ D ++ "." ++ T` for a non-empty `L`
without `@`, a non-empty `D` without `.` and a non-empty `T` without a newline. So `a@b.com`
is accepted, and a string with no `@`, with nothing before the first `@`, or with no `.`
after the first `@` is rejected. -/
theorem emailRegex_accepts_local_at_domain_tld :
    (∀ s : String, emailRegex.MatchString s = true ↔
      ∃ L D T : String, s = L ++ "@" ++ D ++ "." ++ T ∧
        L ≠ "" ∧ '@' ∉ L.toList ∧ D ≠ "" ∧ '.' ∉ D.toList ∧ T ≠ "" ∧ '\n' ∉ T.toList) ∧
    emailRegex.MatchString "a@b.com" = true ∧
    (∀ s : String, '@' ∉ s.toList → emailRegex.MatchString s = false) ∧
    (∀ rest : String, emailRegex.MatchString ("@" ++ rest) = false) ∧
    (∀ pre rest : String, '@' ∉ pre.toList → '.' ∉ rest.toList →
      emailRegex.MatchString (pre ++ "@" ++ rest) = false) := by
  have hlist : ∀ s : String, emailRegex.MatchString s = true ↔
      ∃ L D T : List Char, s.toList = L ++ '@' :: (D ++ '.' :: T) ∧
        (L ≠ [] ∧ '@' ∉ L) ∧ (D ≠ [] ∧ '.' ∉ D) ∧ (T ≠ [] ∧ '\n' ∉ T) := fun s => by
    rw [Regex.MatchString_iff, emailRegex_Matches_iff]
  have hfalse : ∀ s : String, ¬ emailRegex.MatchString s = true →
      emailRegex.MatchString s = false := fun s h => by simpa using h
  refine ⟨?_, by decide, ?_, ?_, ?_⟩
  · intro s
    rw [hlist]
    constructor
    · rintro ⟨L, D, T, hs, ⟨hL, hL'⟩, ⟨hD, hD'⟩, ⟨hT, hT'⟩⟩
      refine ⟨⟨L⟩, ⟨D⟩, ⟨T⟩, ?_, ?_, hL', ?_, hD', ?_, hT'⟩
      · apply String.ext
        change s.toList = _
        rw [hs]
        simp [String.data_append]
      · intro h; exact hL (congrArg String.data h)
      · intro h; exact hD (congrArg String.data h)
      · intro h; exact hT (congrArg String.data h)
    · rintro ⟨L, D, T, hs, hL, hL', hD, hD', hT, hT'⟩
      refine ⟨L.data, D.data, T.data, ?_, ⟨?_, hL'⟩, ⟨?_, hD'⟩, ⟨?_, hT'⟩⟩
      · rw [hs]
        simp [String.data_append]
      · intro h; exact hL (String.ext h)
      · intro h; exact hD (String.ext h)
      · intro h; exact hT (String.ext h)
  · intro s hs
    apply hfalse
    rw [hlist]
    rintro ⟨L, D, T, h, -⟩
    apply hs
    rw [h]
    simp
  · intro rest
    apply hfalse
    rw [hlist]
    rintro ⟨L, D, T, h, ⟨hL, hL'⟩, -⟩
    have h2 : ("@" ++ rest).toList = '@' :: rest.data := by
      simp [String.data_append]
    rw [h2] at h
    cases L with
    | nil => exact hL rfl
    | cons b L' =>
      have := (List.cons.inj h).1
      exact hL' (this ▸ List.mem_cons_self _ _)
  · intro pre rest hpre hrest
    apply hfalse
    rw [hlist]
    rintro ⟨L, D, T, h, ⟨hL, hL'⟩, -⟩
    have h2 : (pre ++ "@" ++ rest).toList = pre.data ++ '@' :: rest.data := by
      simp [String.data_append]
    rw [h2] at h
    have := (append_cons_unique '@' pre.data L rest.data (D ++ '.' :: T) hpre hL' h).2
    apply hrest
    change '.' ∈ rest.data
    rw [this]
    simp

/-! ## The calls of the pieces of `success` -/

theorem healthProbe_calls {W : Type} (c : Collaborators W) (url : String)
    (allowed : Call → Bool) (h : ∀ x, x.ofHealthProbe = true → allowed x = true) (s : St W) :
    St.Extends allowed s (healthProbe c url s).2 := by
  simp only [healthProbe]
  repeat' split
  all_goals
    repeat' first
      | exact St.Extends.refl _ _
      | refine St.Extends.step ?_ (h _ rfl)

theorem waitForLoft_calls {W : Type} (c : Collaborators W) (cmd : StartCmd)
    (allowed : Call → Bool) (h : ∀ x, x.ofWaitForLoft = true → allowed x = true) (s : St W) :
    St.Extends allowed s (waitForLoft c cmd s).2.2 := by
  simp only [waitForLoft]
  repeat' split
  all_goals
    repeat' first
      | exact St.Extends.refl _ _
      | refine St.Extends.step ?_ (h _ rfl)

theorem pingLoftRouter_calls {W : Type} (c : Collaborators W) (loftPod : Pod)
    (allowed : Call → Bool) (h : ∀ x, x.ofPingLoftRouter = true → allowed x = true)
    (s : St W) :
    St.Extends allowed s (pingLoftRouter c loftPod s).2 := by
  have hprobe : ∀ x : Call, x.ofHealthProbe = true → allowed x = true := by
    intro x hx
    apply h
    cases x <;> simp_all [Call.ofHealthProbe, Call.ofPingLoftRouter]
  simp only [pingLoftRouter]
  split
  · split <;> exact (St.Extends.refl _ _).step (h _ rfl)
  · split
    · exact (St.Extends.refl _ _).step (h _ rfl)
    · split
      · exact (St.Extends.refl _ _).step (h _ rfl)
      · have hp : ∀ url n (s' : St W),
            St.Extends allowed s' (poll (healthProbe c url) DeadlineExceeded n s').2 :=
          fun url n s' =>
            poll_extends allowed (healthProbe c url) (healthProbe_calls c url allowed hprobe)
              DeadlineExceeded n s'
        split <;>
        · rename_i heq
          refine St.Extends.trans ?_ ((hp _ _ _).of_eq heq)
          exact (St.Extends.refl _ _).step (h _ rfl)

theorem startPortForwarding_calls {W : Type} (c : Collaborators W) (cmd : StartCmd)
    (loftPod : Pod) (allowed : Call → Bool)
    (h : ∀ x, x.ofStartPortForwarding = true → allowed x = true) (s : St W) :
    St.Extends allowed s (startPortForwarding c cmd loftPod s).2 := by
  have hprobe : ∀ x : Call, x.ofHealthProbe = true → allowed x = true := by
    intro x hx
    apply h
    cases x <;> simp_all [Call.ofHealthProbe, Call.ofStartPortForwarding]
  simp only [startPortForwarding]
  split
  · exact (St.Extends.refl _ _).step (h _ rfl)
  · refine St.Extends.trans ?_
      (poll_extends allowed (healthProbe c _) (healthProbe_calls c _ allowed hprobe) _ _ _)
    refine St.Extends.step ?_ (h _ rfl)
    exact (St.Extends.refl _ _).step (h _ rfl)

theorem successRemote_calls {W : Type} (c : Collaborators W) (cmd : StartCmd)
    (host : String) (allowed : Call → Bool)
    (h : ∀ x, x.ofSuccessRemote cmd.Password = true → allowed x = true) (s : St W) :
    St.Extends allowed s (successRemote c cmd host s).2 := by
  have hprint : allowed (.PrintSuccessMessageRemoteInstall host cmd.Password) = true :=
    h _ (by simp [Call.ofSuccessRemote])
  have hr : ∀ s' : St W, St.Extends allowed s' (reachableProbe c host s').2 :=
    fun s' => (St.Extends.refl _ _).step (h _ rfl)
  have h1 := hr s
  have hp := poll_extends allowed (reachableProbe c host) hr ErrWaitTimeout
  simp only [successRemote]
  split
  · rename_i heq
    exact h1.of_eq heq
  · rename_i heq
    refine St.Extends.step ?_ hprint
    exact h1.of_eq heq
  · rename_i heq
    split
    · rename_i heq2
      refine St.Extends.trans ?_ ((hp _ _).of_eq heq2)
      refine St.Extends.step ?_ (h _ rfl)
      exact h1.of_eq heq
    · rename_i heq2
      refine St.Extends.step ?_ hprint
      refine St.Extends.trans ?_ ((hp _ _).of_eq heq2)
      refine St.Extends.step ?_ (h _ rfl)
      exact h1.of_eq heq

/-- Every success message `success` prints presents the password of the command it returns:
the password `waitForLoft` left. -/
theorem success_presents_password {W : Type} (c : Collaborators W) (cmd : StartCmd)
    (s : St W) :
    St.Extends (Call.presentsPassword (success c cmd s).2.1.Password) s
      (success c cmd s).2.2 := by
  have hW : ∀ (p : String) (x : Call), x.ofWaitForLoft = true →
      Call.presentsPassword p x = true := by
    intro p x; cases x <;> simp [Call.ofWaitForLoft, Call.presentsPassword]
  have hP : ∀ (p : String) (x : Call), x.ofPingLoftRouter = true →
      Call.presentsPassword p x = true := by
    intro p x; cases x <;> simp [Call.ofPingLoftRouter, Call.presentsPassword]
  have hF : ∀ (p : String) (x : Call), x.ofStartPortForwarding = true →
      Call.presentsPassword p x = true := by
    intro p x; cases x <;> simp [Call.ofStartPortForwarding, Call.presentsPassword]
  have hR : ∀ (p : String) (x : Call), x.ofSuccessRemote p = true →
      Call.presentsPassword p x = true := by
    intro p x; cases x <;> simp [Call.ofSuccessRemote, Call.presentsPassword]
  have hportForward : ∀ (cmd1 : StartCmd) (loftPod : Pod) (s' : St W),
      St.Extends (Call.presentsPassword cmd1.Password) s'
        (success.portForward c cmd1 loftPod s').2 := by
    intro cmd1 loftPod s'
    have h1 := startPortForwarding_calls c cmd1 loftPod _ (hF cmd1.Password) s'
    simp only [success.portForward]
    split
    · rename_i heq
      exact h1.of_eq heq
    · rename_i heq
      refine St.Extends.step ?_ (by simp [Call.presentsPassword])
      exact h1.of_eq heq
  simp only [success]
  split
  · exact St.Extends.refl _ _
  · split
    · rename_i heq
      exact (waitForLoft_calls c cmd _ (hW _) s).of_eq3 heq
    · rename_i loftPod cmd1 s1 heq
      have hw1 : St.Extends (Call.presentsPassword cmd1.Password) s s1 :=
        (waitForLoft_calls c cmd _ (hW _) s).of_eq3 heq
      split
      · exact hw1
      · have hl : St.Extends (Call.presentsPassword cmd1.Password) s
            (s1.after (.IsLoftInstalledLocally cmd1.Namespace)
              (c.IsLoftInstalledLocally cmd1.Namespace s1.world).2) := hw1.step rfl
        split
        · have hping := pingLoftRouter_calls c loftPod _ (hP cmd1.Password)
            (s1.after (.IsLoftInstalledLocally cmd1.Namespace)
              (c.IsLoftInstalledLocally cmd1.Namespace s1.world).2)
          split
          · rename_i heq2
            exact (hl.trans (hping.of_eq heq2)).trans (hportForward cmd1 loftPod _)
          · rename_i heq2
            split
            · refine St.Extends.step ?_ (by simp [Call.presentsPassword])
              exact hl.trans (hping.of_eq heq2)
            · exact (hl.trans (hping.of_eq heq2)).trans (hportForward cmd1 loftPod _)
        · split
          · refine St.Extends.step ?_ rfl
            exact hl
          · rename_i host w heq2
            have hl2 : St.Extends (Call.presentsPassword cmd1.Password) s
                ((s1.after (.IsLoftInstalledLocally cmd1.Namespace)
                  (c.IsLoftInstalledLocally cmd1.Namespace s1.world).2).after
                    (.GetLoftIngressHost cmd1.Namespace) w) := hl.step rfl
            have hr : St.Extends (Call.presentsPassword cmd1.Password) s
                (reachableProbe c host
                  ((s1.after (.IsLoftInstalledLocally cmd1.Namespace)
                    (c.IsLoftInstalledLocally cmd1.Namespace s1.world).2).after
                      (.GetLoftIngressHost cmd1.Namespace) w)).2 := hl2.step rfl
            split
            · split
              · refine St.Extends.step ?_ rfl
                exact hr
              · split
                · refine St.Extends.trans ?_ (hportForward cmd1 loftPod _)
                  refine St.Extends.step ?_ rfl
                  exact hr
                · refine St.Extends.trans ?_
                    (successRemote_calls c cmd1 _ _ (hR cmd1.Password) _)
                  refine St.Extends.step ?_ rfl
                  exact hr
            · exact hr.trans (successRemote_calls c cmd1 _ _ (hR cmd1.Password) _)

/-! ## The password presented to the user -/

/-- C15: after `waitForLoft` succeeds, `cmd.Password` is the empty string if
`EnsureAdminPassword` reported a different (new) password and is otherwise unchanged, and no
other flag changes. `success` goes on with that command, and every success message it prints
presents that password: on an install whose secret matches (`EnsureAdminPassword` reports
`false`) the message receives the computed password. -/
theorem waitForLoft_blanks_password {W : Type} (c : Collaborators W) (cmd : StartCmd)
    (s : St W) :
    (∀ (loftPod : Pod) (cmd1 : StartCmd) (s1 : St W),
      waitForLoft c cmd s = (.ok loftPod, cmd1, s1) →
      ∃ isNewPassword : Bool,
        (c.EnsureAdminPassword cmd.Password (c.WaitForReadyLoftPod cmd.Namespace s.world).2).1
          = .ok isNewPassword ∧
        cmd1 = (if isNewPassword = true then { cmd with Password := "" } else cmd) ∧
        (cmd.NoWait = false → (success c cmd s).2.1 = cmd1)) ∧
    (∃ new, (success c cmd s).2.2.calls = s.calls ++ new ∧
      ∀ x ∈ new, x.presentsPassword (success c cmd s).2.1.Password = true) := by
  refine ⟨?_, success_presents_password c cmd s⟩
  intro loftPod cmd1 s1 hWait
  have hsucc : cmd.NoWait = false → (success c cmd s).2.1 = cmd1 := by
    intro hNoWait
    simp only [success, hNoWait, hWait, Bool.false_eq_true, if_false]
    repeat' split
    all_goals rfl
  simp only [waitForLoft] at hWait
  rcases hpod : c.WaitForReadyLoftPod cmd.Namespace s.world with ⟨r, w⟩
  rw [hpod] at hWait
  cases r with
  | error e => simp at hWait
  | ok pod =>
    simp only [St.after] at hWait
    rcases hpw : c.EnsureAdminPassword cmd.Password w with ⟨r2, w2⟩
    rw [hpw] at hWait
    cases r2 with
    | error e => simp at hWait
    | ok isNewPassword =>
      simp only [Prod.mk.injEq] at hWait
      exact ⟨isNewPassword, rfl, hWait.2.1.symm, hsucc⟩

/-- C15, at a concrete input: a fresh install with `--email a@b.com` on a local cluster whose
admin secret matches; the local-install message receives the default password. -/
theorem waitForLoft_blanks_password_witness :
    (Run scripted { Email := "a@b.com" } { world := {} }).1 = .blocked ∧
    Call.PrintSuccessMessageLocalInstall "uid-1234" "9898" ∈
      (Run scripted { Email := "a@b.com" } { world := {} }).2.2.calls ∧
    (∃ new, (success scripted { Password := "uid-1234" } { world := {} }).2.2.calls
        = [] ++ new ∧
      ∀ x ∈ new, x.presentsPassword "uid-1234" = true) :=
  ⟨by decide, by decide,
    (waitForLoft_blanks_password scripted { Password := "uid-1234" } { world := {} }).2⟩

/-! ## Success handling on a local cluster -/

/-- The fallback of `success` begins by calling `clihelper.StartPortForwarding`. -/
theorem success_portForward_starts {W : Type} (c : Collaborators W) (cmd : StartCmd)
    (loftPod : Pod) (s : St W) :
    ∃ rest, (success.portForward c cmd loftPod s).2.calls
      = s.calls ++ Call.StartPortForwarding loftPod cmd.LocalPort :: rest := by
  have hpoll : ∀ (url : String) (n : Nat) (s' : St W),
      St.Extends (fun _ => true) s' (poll (healthProbe c url) DeadlineExceeded n s').2 :=
    fun url n s' => poll_extends _ _ (fun s'' => healthProbe_calls c url _ (fun _ _ => rfl) s'')
      _ _ _
  simp only [success.portForward, startPortForwarding]
  split
  · rename_i heq
    split at heq
    · simp only [Prod.mk.injEq] at heq
      rw [← heq.2]
      exact ⟨[], rfl⟩
    · obtain ⟨new, hnew, -⟩ := (hpoll _ _ _).of_eq heq
      exact ⟨.restartPortForwarding :: new, by simp [hnew, St.after]⟩
  · rename_i heq
    split at heq
    · simp at heq
    · obtain ⟨new, hnew, -⟩ := (hpoll _ _ _).of_eq heq
      exact ⟨.restartPortForwarding ::
        (new ++ [Call.PrintSuccessMessageLocalInstall cmd.Password cmd.LocalPort]),
        by simp [successLocal, hnew, St.after]⟩

/-- C16: success handling on a local cluster, with `NoWait` and `NoPortForwarding` both false,
once `waitForLoft` has succeeded. If `pingLoftRouter` returns a non-empty router domain and no
error, `success` reports the router URL and returns `nil`, and starts no port-forward. If
`pingLoftRouter` returns an error or an empty domain, `success` falls back to
`startPortForwarding` (and ends as `success.portForward` does: the error of `pingLoftRouter`
is not returned). `pingLoftRouter` returns the empty domain and no error when the secret is
not found, has nil data or an empty `domain` entry; an error for any other failure of the
secret request; and for a non-empty `domain` the domain when the poll of its health endpoint
ends with `nil`, and the poll's error otherwise. -/
theorem success_local_router_or_port_forward {W : Type} (c : Collaborators W)
    (cmd cmd1 : StartCmd) (s s1 : St W) (loftPod : Pod)
    (hNoWait : cmd.NoWait = false)
    (hNoPortForwarding : cmd1.NoPortForwarding = false)
    (hWait : waitForLoft c cmd s = (.ok loftPod, cmd1, s1))
    (hLocal : (c.IsLoftInstalledLocally cmd1.Namespace s1.world).1 = true) :
    (∀ (loftRouterDomain : String) (s3 : St W),
      pingLoftRouter c loftPod (s1.after (.IsLoftInstalledLocally cmd1.Namespace)
        (c.IsLoftInstalledLocally cmd1.Namespace s1.world).2) = ((loftRouterDomain, none), s3) →
      loftRouterDomain ≠ "" →
      success c cmd s
        = (.returned none, cmd1,
            s3.after (.PrintSuccessMessageLoftRouterInstall loftRouterDomain cmd1.Password)
              s3.world) ∧
      (success c cmd s).2.2.calls.countP Call.isPortForward
        = s.calls.countP Call.isPortForward) ∧
    (∀ (loftRouterDomain : String) (err : Option GoError) (s3 : St W),
      pingLoftRouter c loftPod (s1.after (.IsLoftInstalledLocally cmd1.Namespace)
        (c.IsLoftInstalledLocally cmd1.Namespace s1.world).2) = ((loftRouterDomain, err), s3) →
      (err ≠ none ∨ loftRouterDomain = "") →
      success c cmd s
        = ((success.portForward c cmd1 loftPod s3).1, cmd1,
            (success.portForward c cmd1 loftPod s3).2) ∧
      ∃ rest, (success c cmd s).2.2.calls
        = s3.calls ++ Call.StartPortForwarding loftPod cmd1.LocalPort :: rest) ∧
    (∀ (s2 : St W) (err : KubeError) (w : W),
      c.GetSecret loftPod.Namespace c.LoftRouterDomainSecret s2.world = (.error err, w) →
      (pingLoftRouter c loftPod s2).1
        = (if err.IsNotFound = true then ("", none)
            else ("", some ("find loft router domain secret: " ++ err.text)))) ∧
    (∀ (s2 : St W) (loftRouterSecret : Secret) (w : W),
      c.GetSecret loftPod.Namespace c.LoftRouterDomainSecret s2.world
        = (.ok loftRouterSecret, w) →
      (loftRouterSecret.Data = none ∨
        ∃ data, loftRouterSecret.Data = some data ∧ mapIndex data "domain" = "") →
      (pingLoftRouter c loftPod s2).1 = ("", none)) ∧
    (∀ (s2 : St W) (loftRouterSecret : Secret) (w : W) (data : List (String × String)),
      c.GetSecret loftPod.Namespace c.LoftRouterDomainSecret s2.world
        = (.ok loftRouterSecret, w) →
      loftRouterSecret.Data = some data → mapIndex data "domain" ≠ "" →
      (pingLoftRouter c loftPod s2).1
        = (match (poll (healthProbe c ("https://" ++ mapIndex data "domain" ++ "/version"))
              DeadlineExceeded (c.pollAttempts (Second * 3) (Minute * 5) w)
              (s2.after (.GetSecret loftPod.Namespace c.LoftRouterDomainSecret) w)).1 with
            | none => (mapIndex data "domain", none)
            | some e => ("", some e))) := by
  have hNoPF : ∀ (x : Call), (x.ofWaitForLoft = true ∨ x.ofPingLoftRouter = true ∨
      x = .IsLoftInstalledLocally cmd1.Namespace) → (!x.isPortForward) = true := by
    intro x hx
    rcases hx with hx | hx | hx
    · cases x <;> simp_all [Call.ofWaitForLoft, Call.isPortForward]
    · cases x <;> simp_all [Call.ofPingLoftRouter, Call.isPortForward]
    · rw [hx]; rfl
  refine ⟨?_, ?_, ?_, ?_, ?_⟩
  · intro loftRouterDomain s3 hping hdomain
    have heq : success c cmd s
        = (.returned none, cmd1,
            s3.after (.PrintSuccessMessageLoftRouterInstall loftRouterDomain cmd1.Password)
              s3.world) := by
      simp [success, hNoWait, hWait, hNoPortForwarding, hLocal, hping, hdomain]
    refine ⟨heq, ?_⟩
    rw [heq]
    have h1 : St.Extends (fun x => !x.isPortForward) s s1 :=
      (waitForLoft_calls c cmd _ (fun x hx => hNoPF x (Or.inl hx)) s).of_eq3 hWait
    have h2 := (h1.step (c := .IsLoftInstalledLocally cmd1.Namespace)
      (w := (c.IsLoftInstalledLocally cmd1.Namespace s1.world).2) rfl).trans
      ((pingLoftRouter_calls c loftPod _ (fun x hx => hNoPF x (Or.inr (Or.inl hx))) _).of_eq
        hping)
    have h3 := h2.step (c := .PrintSuccessMessageLoftRouterInstall loftRouterDomain
      cmd1.Password) (w := s3.world) rfl
    exact h3.countP_eq _ (by intro x hx; simpa using hx)
  · intro loftRouterDomain err s3 hping hcase
    have heq : success c cmd s
        = ((success.portForward c cmd1 loftPod s3).1, cmd1,
            (success.portForward c cmd1 loftPod s3).2) := by
      cases err with
      | some e => simp [success, hNoWait, hWait, hNoPortForwarding, hLocal, hping]
      | none =>
        have hd : loftRouterDomain = "" := by
          rcases hcase with h | h
          · exact absurd rfl h
          · exact h
        simp [success, hNoWait, hWait, hNoPortForwarding, hLocal, hping, hd]
    refine ⟨heq, ?_⟩
    rw [heq]
    exact success_portForward_starts c cmd1 loftPod s3
  · intro s2 err w hget
    by_cases hnf : err.IsNotFound = true <;> simp [pingLoftRouter, hget, hnf]
  · intro s2 loftRouterSecret w hget hdata
    rcases hdata with hnil | ⟨data, hd, hempty⟩
    · simp [pingLoftRouter, hget, hnil]
    · simp [pingLoftRouter, hget, hd, hempty]
  · intro s2 loftRouterSecret w data hget hdata hdomain
    have hlen : ¬ (mapIndex data "domain").length = 0 := by
      intro h0
      exact hdomain (String.ext (List.length_eq_zero.1 h0))
    simp only [pingLoftRouter, hget, hdata, beq_iff_eq, hlen, if_false, St.after]
    split <;> simp_all

/-- C16, at concrete inputs: with the router-domain secret `loft.host` whose health endpoint
answers 200, `success` returns `nil` after the router message and never starts a
port-forward; without the secret, the call after the secret request is
`StartPortForwarding`. -/
theorem success_local_router_or_port_forward_witness :
    (success scriptedRouter {} { world := {} }
        = (.returned none, {},
            { world := {},
              calls := [.WaitForReadyLoftPod "loft", .EnsureAdminPassword "",
                .IsLoftInstalledLocally "loft", .GetSecret "loft" "loft-router-domain",
                .NewRequestWithContext "https://loft.host/version",
                .Do "https://loft.host/version",
                .PrintSuccessMessageLoftRouterInstall "loft.host" ""] }) ∧
      (success scriptedRouter {} { world := {} }).2.2.calls.countP Call.isPortForward
        = ([] : List Call).countP Call.isPortForward) ∧
    (∃ rest, (success scripted {} { world := {} }).2.2.calls
      = [.WaitForReadyLoftPod "loft", .EnsureAdminPassword "",
          .IsLoftInstalledLocally "loft", .GetSecret "loft" "loft-router-domain"]
        ++ Call.StartPortForwarding { Name := "loft-0", Namespace := "loft" } "9898" :: rest) :=
  ⟨(success_local_router_or_port_forward scriptedRouter {} {} { world := {} }
      { world := {}, calls := [.WaitForReadyLoftPod "loft", .EnsureAdminPassword ""] }
      { Name := "loft-0", Namespace := "loft" } rfl rfl rfl rfl).1 "loft.host" _ rfl
      (by decide),
    ((success_local_router_or_port_forward scripted {} {} { world := {} }
      { world := {}, calls := [.WaitForReadyLoftPod "loft", .EnsureAdminPassword ""] }
      { Name := "loft-0", Namespace := "loft" } rfl rfl rfl rfl).2.1 "" none _ rfl
      (Or.inr rfl)).2⟩

/-! ## Success handling on a remote cluster -/

/-- A poll whose condition never reports ready and never fails ends with the timeout
error. -/
theorem poll_never_ready {W : Type} (condition : St W → (Bool × Option GoError) × St W)
    (timeoutErr : GoError) (h : ∀ s, (condition s).1 = (false, none)) (attempts : Nat)
    (s : St W) : (poll condition timeoutErr attempts s).1 = some timeoutErr := by
  induction attempts generalizing s with
  | zero =>
    have h1 := h s
    unfold poll
    split <;> simp_all
  | succ n ih =>
    have h1 := h s
    unfold poll
    split
    · simp_all
    · simp_all
    · exact ih _

/-- A poll ends with `nil` only when its condition reported ready. -/
theorem poll_nil_ready {W : Type} (condition : St W → (Bool × Option GoError) × St W)
    (timeoutErr : GoError) (attempts : Nat) (s : St W)
    (h : (poll condition timeoutErr attempts s).1 = none) :
    ∃ s', (condition s').1 = (true, none) := by
  induction attempts generalizing s with
  | zero =>
    unfold poll at h
    split at h
    · simp at h
    · rename_i heq
      exact ⟨s, by rw [heq]⟩
    · simp at h
  | succ n ih =>
    unfold poll at h
    split at h
    · simp at h
    · rename_i heq
      exact ⟨s, by rw [heq]⟩
    · exact ih _ h

/-- A poll of `IsLoftReachable` that never sees the host reachable makes one check at once
and one more for every further attempt. -/
theorem poll_reachableProbe_count {W : Type} (c : Collaborators W) (host : String)
    (timeoutErr : GoError) (h : ∀ w, (c.IsLoftReachable host w).1 = (false, none))
    (attempts : Nat) (s : St W) :
    (poll (reachableProbe c host) timeoutErr attempts s).2.calls.countP Call.isIsLoftReachable
      = s.calls.countP Call.isIsLoftReachable + (attempts + 1) := by
  induction attempts generalizing s with
  | zero =>
    have h1 := h s.world
    unfold poll
    split <;> rename_i heq <;>
      simp only [reachableProbe, Prod.mk.injEq] at heq <;>
      obtain ⟨hr, hs⟩ := heq <;> rw [h1] at hr <;>
      simp_all [St.after, Call.isIsLoftReachable]
    rw [← hs]
    simp [Call.isIsLoftReachable]
  | succ n ih =>
    have h1 := h s.world
    unfold poll
    split <;> rename_i heq <;>
      simp only [reachableProbe, Prod.mk.injEq] at heq <;>
      obtain ⟨hr, hs⟩ := heq <;> rw [h1] at hr <;>
      simp_all [St.after, Call.isIsLoftReachable]
    rw [← hs]
    simp [Call.isIsLoftReachable]
    omega

/-- A poll that ends with an error ends with the timeout error or with an error of its
condition. -/
theorem poll_error_source {W : Type} (condition : St W → (Bool × Option GoError) × St W)
    (timeoutErr : GoError) (attempts : Nat) (s : St W) (err : GoError)
    (h : (poll condition timeoutErr attempts s).1 = some err) :
    err = timeoutErr ∨ ∃ s', (condition s').1.2 = some err := by
  induction attempts generalizing s with
  | zero =>
    unfold poll at h
    split at h
    · rename_i heq
      simp only [Option.some.injEq] at h
      exact Or.inr ⟨s, by rw [heq, ← h]⟩
    · simp at h
    · simp only [Option.some.injEq] at h
      exact Or.inl h.symm
  | succ n ih =>
    unfold poll at h
    split at h
    · rename_i heq
      simp only [Option.some.injEq] at h
      exact Or.inr ⟨s, by rw [heq, ← h]⟩
    · simp at h
    · exact ih _ h

/-- C17, as the claim states it, fails: `success` asks `Log.Question` whether or not the
session is interactive. In a session that is not a terminal, on a remote cluster whose
ingress host is unreachable, a failing question makes `success` return the question's error
after one reachability check, with no DNS-wait poll; and the answer `Yes` (the default value
of the question) starts port-forwarding. -/
theorem success_remote_unreachable_asks_question :
    ((scriptedRemote (.error "no terminal")).IsTerminal {}).1 = false ∧
    ((scriptedRemote (.error "no terminal")).IsLoftInstalledLocally "loft" {}).1 = false ∧
    (success (scriptedRemote (.error "no terminal")) {} { world := {} }).1
      = .returned (some "no terminal") ∧
    (success (scriptedRemote (.error "no terminal")) {} { world := {} }).2.2.calls
      = [.WaitForReadyLoftPod "loft", .EnsureAdminPassword "", .IsLoftInstalledLocally "loft",
          .GetLoftIngressHost "loft", .IsLoftReachable "loft.example",
          .Question ("Unable to reach Loft at https://loft.example" ++
            ". Do you want to start port-forwarding instead?")] ∧
    ((scriptedRemote (.ok "Yes")).IsTerminal {}).1 = false ∧
    (success (scriptedRemote (.ok "Yes")) {} { world := {} }).1 = .blocked ∧
    Call.StartPortForwarding { Name := "loft-0", Namespace := "loft" } "9898" ∈
      (success (scriptedRemote (.ok "Yes")) {} { world := {} }).2.2.calls := by
  decide

/-- C17, amended: on a remote cluster (`NoWait` and `NoPortForwarding` false, `waitForLoft`
succeeded) whose ingress host `IsLoftReachable` reports unreachable, once the question
`success` asks is answered with anything but `Yes`, and the check of `successRemote` reports
unreachable again, `success` runs the DNS-wait poll of `IsLoftReachable` (every 5 seconds,
bounded by `config.Timeout()`) right after printing the DNS configuration, and ends as the
poll does: with the poll's error, or with `nil` after the remote-install message. It starts
no port-forward. While the host stays unreachable the result is the timeout error of the poll,
`wait.ErrWaitTimeout`, after one check per attempt; `nil` is returned only after a check
reported the host reachable, and any other error is an error of a check. -/
theorem success_remote_unreachable_polls {W : Type} (c : Collaborators W)
    (cmd cmd1 : StartCmd) (s s1 : St W) (loftPod : Pod) (host answer : String)
    (w2 w3 w4 w5 w6 : W)
    (hNoWait : cmd.NoWait = false)
    (hWait : waitForLoft c cmd s = (.ok loftPod, cmd1, s1))
    (hNoPortForwarding : cmd1.NoPortForwarding = false)
    (hLocal : c.IsLoftInstalledLocally cmd1.Namespace s1.world = (false, w2))
    (hHost : c.GetLoftIngressHost cmd1.Namespace w2 = (.ok host, w3))
    (hFirst : c.IsLoftReachable host w3 = ((false, none), w4))
    (hQuestion : c.Question
      { Question := "Unable to reach Loft at https://" ++ host ++
          ". Do you want to start port-forwarding instead?",
        DefaultValue := "Yes",
        Options := ["Yes", "No, please re-run the DNS check"] } w4 = (.ok answer, w5))
    (hAnswer : answer ≠ "Yes")
    (hSecond : c.IsLoftReachable host w5 = ((false, none), w6)) :
    success c cmd s
      = (match poll (reachableProbe c host) ErrWaitTimeout
            (c.pollAttempts (Second * 5) c.Timeout w6)
            { world := w6,
              calls := s1.calls ++
                [.IsLoftInstalledLocally cmd1.Namespace, .GetLoftIngressHost cmd1.Namespace,
                  .IsLoftReachable host,
                  .Question ("Unable to reach Loft at https://" ++ host ++
                    ". Do you want to start port-forwarding instead?"),
                  .IsLoftReachable host, .PrintDNSConfiguration host] } with
          | (some err, s9) => (.returned (some err), cmd1, s9)
          | (none, s9) =>
            (.returned none, cmd1,
              s9.after (.PrintSuccessMessageRemoteInstall host cmd1.Password) s9.world)) ∧
    (success c cmd s).2.2.calls.countP Call.isPortForward
      = s.calls.countP Call.isPortForward ∧
    ((∀ w, (c.IsLoftReachable host w).1 = (false, none)) →
      (success c cmd s).1 = .returned (some ErrWaitTimeout) ∧
      (success c cmd s).2.2.calls.countP Call.isIsLoftReachable
        = s.calls.countP Call.isIsLoftReachable + 2
          + (c.pollAttempts (Second * 5) c.Timeout w6 + 1)) ∧
    ((success c cmd s).1 = .returned none →
      ∃ w, (c.IsLoftReachable host w).1 = (true, none)) ∧
    (∀ err, (success c cmd s).1 = .returned (some err) →
      err = ErrWaitTimeout ∨ ∃ w, (c.IsLoftReachable host w).1.2 = some err) := by
  have heq : success c cmd s
      = (match poll (reachableProbe c host) ErrWaitTimeout
            (c.pollAttempts (Second * 5) c.Timeout w6)
            { world := w6,
              calls := s1.calls ++
                [.IsLoftInstalledLocally cmd1.Namespace, .GetLoftIngressHost cmd1.Namespace,
                  .IsLoftReachable host,
                  .Question ("Unable to reach Loft at https://" ++ host ++
                    ". Do you want to start port-forwarding instead?"),
                  .IsLoftReachable host, .PrintDNSConfiguration host] } with
          | (some err, s9) => (.returned (some err), cmd1, s9)
          | (none, s9) =>
            (.returned none, cmd1,
              s9.after (.PrintSuccessMessageRemoteInstall host cmd1.Password) s9.world)) := by
    simp only [success, hNoWait, hWait, hNoPortForwarding, hLocal, hHost, reachableProbe,
      hFirst, hQuestion, successRemote, hSecond, St.after, beq_iff_eq, hAnswer,
      Bool.false_eq_true, if_false, Bool.not_false, Bool.true_or, if_true,
      List.append_assoc, List.cons_append, List.nil_append]
    split <;> rfl
  have hW : St.Extends (fun x => x.ofWaitForLoft) s s1 :=
    (waitForLoft_calls c cmd _ (fun _ hx => hx) s).of_eq3 hWait
  have hWpf : s1.calls.countP Call.isPortForward = s.calls.countP Call.isPortForward :=
    hW.countP_eq _ (by intro x hx; cases x <;> simp_all [Call.ofWaitForLoft, Call.isPortForward])
  have hWre : s1.calls.countP Call.isIsLoftReachable
      = s.calls.countP Call.isIsLoftReachable :=
    hW.countP_eq _ (by
      intro x hx; cases x <;> simp_all [Call.ofWaitForLoft, Call.isIsLoftReachable])
  have hP := poll_extends (fun x => !x.isPortForward) (reachableProbe c host)
    (fun s' => (St.Extends.refl _ s').step (c := .IsLoftReachable host)
      (w := (c.IsLoftReachable host s'.world).2) rfl) ErrWaitTimeout
    (c.pollAttempts (Second * 5) c.Timeout w6)
    { world := w6,
      calls := s1.calls ++
        [.IsLoftInstalledLocally cmd1.Namespace, .GetLoftIngressHost cmd1.Namespace,
          .IsLoftReachable host,
          .Question ("Unable to reach Loft at https://" ++ host ++
            ". Do you want to start port-forwarding instead?"),
          .IsLoftReachable host, .PrintDNSConfiguration host] }
  have hPc := hP.countP_eq Call.isPortForward (by intro x hx; simpa using hx)
  refine ⟨heq, ?_, ?_, ?_, ?_⟩
  · rw [heq]
    split
    · rename_i heq2
      rw [heq2] at hPc
      simp only [hPc]
      simp [Call.isPortForward, hWpf]
    · rename_i heq2
      rw [heq2] at hPc
      simp only [St.after, List.countP_append, hPc]
      simp [Call.isPortForward, hWpf]
  · intro hnever
    have hn := poll_never_ready (reachableProbe c host) ErrWaitTimeout
      (fun s' => by simp [reachableProbe, hnever]) (c.pollAttempts (Second * 5) c.Timeout w6)
      { world := w6,
        calls := s1.calls ++
          [.IsLoftInstalledLocally cmd1.Namespace, .GetLoftIngressHost cmd1.Namespace,
            .IsLoftReachable host,
            .Question ("Unable to reach Loft at https://" ++ host ++
              ". Do you want to start port-forwarding instead?"),
            .IsLoftReachable host, .PrintDNSConfiguration host] }
    have hc := poll_reachableProbe_count c host ErrWaitTimeout hnever
      (c.pollAttempts (Second * 5) c.Timeout w6)
      { world := w6,
        calls := s1.calls ++
          [.IsLoftInstalledLocally cmd1.Namespace, .GetLoftIngressHost cmd1.Namespace,
            .IsLoftReachable host,
            .Question ("Unable to reach Loft at https://" ++ host ++
              ". Do you want to start port-forwarding instead?"),
            .IsLoftReachable host, .PrintDNSConfiguration host] }
    rw [heq]
    split
    · rename_i heq2
      rw [heq2] at hn hc
      simp only [Option.some.injEq] at hn
      refine ⟨by rw [hn], ?_⟩
      simp only [hc]
      simp [Call.isIsLoftReachable, hWre]
    · rename_i heq2
      rw [heq2] at hn
      simp at hn
  · intro hnil
    rw [heq] at hnil
    split at hnil
    · simp at hnil
    · rename_i heq2
      obtain ⟨s', hs'⟩ := poll_nil_ready (reachableProbe c host) ErrWaitTimeout _ _
        (by rw [heq2])
      exact ⟨s'.world, hs'⟩
  · intro err herr
    rw [heq] at herr
    split at herr
    · rename_i e s9 heq2
      simp only [Return.returned.injEq, Option.some.injEq] at herr
      rcases poll_error_source (reachableProbe c host) ErrWaitTimeout _ _ err
        (by rw [heq2, herr]) with h | ⟨s', hs'⟩
      · exact Or.inl h
      · exact Or.inr ⟨s'.world, hs'⟩
    · simp at herr

/-- C17 amended, at a concrete input: on the scripted remote cluster whose host is never
reachable, with the question answered `No, please re-run the DNS check`, `success` returns
`wait.ErrWaitTimeout` after the two checks before the poll and the four checks of a poll of
three further attempts. -/
theorem success_remote_unreachable_polls_witness :
    (success (scriptedRemote (.ok "No, please re-run the DNS check")) {} { world := {} }).1
      = .returned (some ErrWaitTimeout) ∧
    (success (scriptedRemote (.ok "No, please re-run the DNS check")) {}
        { world := {} }).2.2.calls.countP Call.isIsLoftReachable
      = ([] : List Call).countP Call.isIsLoftReachable + 2 + (3 + 1) :=
  (success_remote_unreachable_polls (scriptedRemote (.ok "No, please re-run the DNS check"))
    {} {} { world := {} }
    { world := {}, calls := [.WaitForReadyLoftPod "loft", .EnsureAdminPassword ""] }
    { Name := "loft-0", Namespace := "loft" } "loft.example"
    "No, please re-run the DNS check" {} {} {} {} {}
    rfl rfl rfl rfl rfl rfl rfl (by decide) rfl).2.2.1 (fun _ => rfl)

/-! ## The email of a fresh install -/

/-- C20: the email of the `--email` flag reaches the chart deployment without a check against
`emailRegex`. `Run.email` returns a non-empty `Email` of the command as it is, with no call;
and on a fresh install (`IsLoftAlreadyInstalled` answers false) started with
`--email not-an-email`, a text the pattern rejects, `Run` invokes `UpgradeLoft` with
`admin.email=not-an-email` and returns `nil`. Only the prompt of `Run.email` carries the
pattern, as the `ValidationFunc` of its question. -/
theorem Run_deploys_unvalidated_email_flag :
    (∀ (W : Type) (c : Collaborators W) (cmd : StartCmd) (s : St W),
      cmd.Email ≠ "" → Run.email c cmd s = (.ok cmd.Email, s)) ∧
    emailRegex.MatchString "not-an-email" = false ∧
    (scripted.IsLoftAlreadyInstalled "loft" {}).1 = .ok false ∧
    (Run scripted { Email := "not-an-email", NoWait := true } { world := {} }).1
      = .returned none ∧
    Call.UpgradeLoft "loft" "https://charts.loft.sh/" "kind-kind" "loft"
        ["--set", "admin.email=not-an-email", "--set", "admin.password=uid-1234",
          "--reuse-values"] ∈
      (Run scripted { Email := "not-an-email", NoWait := true } { world := {} }).2.2.calls := by
  refine ⟨?_, by decide, rfl, by decide, by decide⟩
  intro W c cmd s hEmail
  simp [Run.email, hEmail]

/-! ## An existing installation: the ingress decision and the redeployment -/

/-- `waitForLoft` changes no flag but `Password`. -/
theorem waitForLoft_flags {W : Type} (c : Collaborators W) (cmd : StartCmd) (s : St W) :
    (waitForLoft c cmd s).2.1
      = { cmd with Password := (waitForLoft c cmd s).2.1.Password } := by
  simp only [waitForLoft]
  repeat' split
  all_goals rfl

/-- `success` changes no flag but `Password`. -/
theorem success_flags {W : Type} (c : Collaborators W) (cmd : StartCmd) (s : St W) :
    (success c cmd s).2.1 = { cmd with Password := (success c cmd s).2.1.Password } := by
  have hw := waitForLoft_flags c cmd s
  simp only [success]
  split
  · rfl
  · split
    · rename_i heq
      rw [heq] at hw
      exact hw
    · rename_i heq
      rw [heq] at hw
      simp only at hw
      repeat' split
      all_goals exact hw

/-- The ingress decision of `handleAlreadyExistingInstallation` returns the command as it
was, is positive only for a non-empty `Host` flag (and without `--upgrade`), and never asks
for a hostname. -/
theorem handleAlreadyExistingInstallation_enableIngress_host {W : Type}
    (c : Collaborators W) (cmd : StartCmd) (s : St W) :
    (handleAlreadyExistingInstallation.enableIngress c cmd s).2.1 = cmd ∧
    ((handleAlreadyExistingInstallation.enableIngress c cmd s).1 = .ok true →
      cmd.Host ≠ "" ∧ cmd.Upgrade = false) ∧
    St.Extends (fun x => decide (x ≠ .EnterHostNameQuestion)) s
      (handleAlreadyExistingInstallation.enableIngress c cmd s).2.2 := by
  by_cases hHost : cmd.Host = ""
  · refine ⟨?_, ?_, ?_⟩
    · simp only [handleAlreadyExistingInstallation.enableIngress, hHost]
      repeat' split
      all_goals simp_all
    · simp only [handleAlreadyExistingInstallation.enableIngress, hHost]
      repeat' split
      all_goals simp_all
    · simp only [handleAlreadyExistingInstallation.enableIngress, hHost]
      repeat' first
        | exact St.Extends.refl _ _
        | refine St.Extends.step ?_ rfl
        | split
  · have hb : (cmd.Host == "") = false := by simpa using hHost
    refine ⟨?_, ?_, ?_⟩
    · simp only [handleAlreadyExistingInstallation.enableIngress, hb]
      repeat' split
      all_goals simp_all
    · intro _
      refine ⟨hHost, ?_⟩
      by_contra hU
      simp_all [handleAlreadyExistingInstallation.enableIngress]
    · simp only [handleAlreadyExistingInstallation.enableIngress, hb]
      repeat' first
        | exact St.Extends.refl _ _
        | refine St.Extends.step ?_ rfl
        | refine St.Extends.of_eq ?_ (by assumption)
        | split

/-- C24: in `handleAlreadyExistingInstallation`, for every behaviour of the collaborators
(every sequence of prompt answers), the ingress decision is positive only when the `Host`
flag was non-empty on entry; the decision returns the command unchanged, the function makes
no `EnterHostNameQuestion` call, and the `Host` of the command it returns is the `Host` on
entry. So with an empty `Host` and `Upgrade = false` the function makes no chart deployment
and ends as `success` does, in a session with a terminal as in one without. -/
theorem handleAlreadyExistingInstallation_ingress_needs_host {W : Type}
    (c : Collaborators W) (cmd : StartCmd) (s : St W) :
    ((handleAlreadyExistingInstallation.enableIngress c cmd s).1 = .ok true →
      cmd.Host ≠ "") ∧
    (handleAlreadyExistingInstallation.enableIngress c cmd s).2.1 = cmd ∧
    (∃ new, (handleAlreadyExistingInstallation c cmd s).2.2.calls = s.calls ++ new ∧
      Call.EnterHostNameQuestion ∉ new) ∧
    (handleAlreadyExistingInstallation c cmd s).2.1.Host = cmd.Host ∧
    (cmd.Host = "" → cmd.Upgrade = false →
      deployments (handleAlreadyExistingInstallation c cmd s).2.2.calls
        = deployments s.calls ∧
      ((∃ err, handleAlreadyExistingInstallation c cmd s
          = (.returned (some err), cmd,
              (handleAlreadyExistingInstallation.enableIngress c cmd s).2.2)) ∨
        handleAlreadyExistingInstallation c cmd s
          = success c cmd (handleAlreadyExistingInstallation.enableIngress c cmd s).2.2)) := by
  obtain ⟨hcmd, hpos, hext⟩ := handleAlreadyExistingInstallation_enableIngress_host c cmd s
  have hU : ∀ x : Call, x.ofUpgradeLoft = true → decide (x ≠ .EnterHostNameQuestion) = true := by
    intro x; cases x <;> simp [Call.ofUpgradeLoft]
  have hS : ∀ x : Call, x.ofSuccess = true → decide (x ≠ .EnterHostNameQuestion) = true := by
    intro x; cases x <;> simp [Call.ofSuccess]
  have hES : ∀ x : Call, (x.ofEnableIngress = true ∨ x.ofSuccess = true) →
      x.isUpgradeLoft = false := by
    intro x; cases x <;> simp [Call.ofEnableIngress, Call.ofSuccess, Call.isUpgradeLoft]
  refine ⟨fun h => (hpos h).1, hcmd, ?_, ?_, ?_⟩
  · have hall : St.Extends (fun x => decide (x ≠ .EnterHostNameQuestion)) s
        (handleAlreadyExistingInstallation c cmd s).2.2 := by
      simp only [handleAlreadyExistingInstallation]
      split
      · rename_i heq
        exact hext.of_eq3 heq
      · rename_i heq
        have he1 := hext.of_eq3 heq
        split
        · split
          · rename_i heq2
            exact he1.trans ((upgradeLoft_extends c _ _ _ hU _).of_eq heq2)
          · rename_i heq2
            exact (he1.trans ((upgradeLoft_extends c _ _ _ hU _).of_eq heq2)).trans
              (success_extends c _ _ hS _)
        · exact he1.trans (success_extends c _ _ hS _)
    obtain ⟨new, hnew, hall⟩ := hall
    refine ⟨new, hnew, ?_⟩
    intro hmem
    simpa using hall _ hmem
  · simp only [handleAlreadyExistingInstallation]
    split
    · rename_i heq
      rw [heq] at hcmd
      simp only at hcmd
      rw [hcmd]
    · rename_i heq
      rw [heq] at hcmd
      simp only at hcmd
      subst hcmd
      split
      · split
        · rfl
        · rw [success_flags]
      · rw [success_flags]
  · intro hHost hUpgrade
    have hne : (handleAlreadyExistingInstallation.enableIngress c cmd s).1 ≠ .ok true :=
      fun h => (hpos h).1 hHost
    have hE := handleAlreadyExistingInstallation_enableIngress_extends c cmd
      (fun x => x.ofEnableIngress || x.ofSuccess) (by intro x hx; simp [hx]) s
    rcases hd : handleAlreadyExistingInstallation.enableIngress c cmd s with ⟨r, cmd1, s1⟩
    rw [hd] at hcmd hne hE
    simp only at hcmd hne hE
    subst hcmd
    cases r with
    | error err =>
      have heq : handleAlreadyExistingInstallation c cmd1 s = (.returned (some err), cmd1, s1) := by
        simp [handleAlreadyExistingInstallation, hd]
      refine ⟨?_, Or.inl ⟨err, heq⟩⟩
      rw [heq]
      exact hE.countP_eq _ (by intro x hx; exact hES x (by simpa using hx))
    | ok e =>
      have he : e = false := by
        cases e
        · rfl
        · exact absurd rfl hne
      subst he
      have heq : handleAlreadyExistingInstallation c cmd1 s = success c cmd1 s1 := by
        simp [handleAlreadyExistingInstallation, hd, hUpgrade]
      refine ⟨?_, Or.inr heq⟩
      rw [heq]
      have h2 := hE.trans (success_extends c cmd1 (fun x => x.ofEnableIngress || x.ofSuccess)
        (by intro x hx; simp [hx]) s1)
      exact h2.countP_eq _ (by intro x hx; exact hES x (by simpa using hx))

/-- C24, at a concrete input: an existing installation started again without `--host` and
without `--upgrade` from a session with a terminal makes no chart deployment. -/
theorem handleAlreadyExistingInstallation_ingress_needs_host_witness :
    (scripted.IsTerminal { installed := true, terminal := true }).1 = true ∧
    deployments (handleAlreadyExistingInstallation scripted {}
      { world := { installed := true, terminal := true } }).2.2.calls = deployments [] :=
  ⟨rfl, ((handleAlreadyExistingInstallation_ingress_needs_host scripted {}
    { world := { installed := true, terminal := true } }).2.2.2.2 rfl rfl).1⟩

/-- The arguments `upgradeLoft` builds for an email are the override of the email, when it is
not empty, followed by the arguments it builds for the empty email. -/
theorem upgradeLoft_extraArgs_email {W : Type} (c : Collaborators W) (cmd : StartCmd)
    (email : String) (s : St W) :
    (upgradeLoft.extraArgs c cmd email s).1
      = Except.map
          (fun args => (if email = "" then [] else ["--set", "admin.email=" ++ email]) ++ args)
          (upgradeLoft.extraArgs c cmd "" s).1 := by
  rw [upgradeLoft_extraArgs_eq c cmd email s, upgradeLoft_extraArgs_eq c cmd "" s]
  by_cases hv : cmd.Values = ""
  · simp [hv, Except.map]
  · simp only [hv, if_false]
    cases (c.Abs cmd.Values s.world).1 <;> simp [Except.map]

/-- C22: for an existing installation the chart deployment is invoked again exactly when
`Upgrade` is set or the ingress decision is positive. With `Upgrade = true`,
`handleAlreadyExistingInstallation` makes no call before `upgradeLoft` (no terminal check, no
question), calls `upgradeLoft` once, with the empty email, returns its error if it fails and
goes on to `success` otherwise; the chart deployments in the log are those of this one
`upgradeLoft`. The arguments built for the empty email carry no `admin.email` override: the
arguments for any other email are that override followed by them. Without `Upgrade`, a
negative ingress decision leads to `success` with no chart deployment, a positive one to
`upgradeLoft` with the empty email, and a failed one to its error with no chart deployment. -/
theorem handleAlreadyExistingInstallation_redeploys_iff {W : Type} (c : Collaborators W)
    (cmd : StartCmd) (s : St W) :
    (cmd.Upgrade = true →
      handleAlreadyExistingInstallation.enableIngress c cmd s = (.ok false, cmd, s) ∧
      handleAlreadyExistingInstallation c cmd s
        = (match upgradeLoft c cmd "" s with
            | (some err, s1) => (.returned (some err), cmd, s1)
            | (none, s1) => success c cmd s1) ∧
      deployments (handleAlreadyExistingInstallation c cmd s).2.2.calls
        = deployments (upgradeLoft c cmd "" s).2.calls) ∧
    (∀ email : String, email ≠ "" →
      (upgradeLoft.extraArgs c cmd email s).1
        = Except.map (fun args => ["--set", "admin.email=" ++ email] ++ args)
            (upgradeLoft.extraArgs c cmd "" s).1) ∧
    (cmd.Upgrade = false →
      (∀ (s1 : St W),
        handleAlreadyExistingInstallation.enableIngress c cmd s = (.ok false, cmd, s1) →
        handleAlreadyExistingInstallation c cmd s = success c cmd s1 ∧
        deployments (handleAlreadyExistingInstallation c cmd s).2.2.calls
          = deployments s.calls) ∧
      (∀ (s1 : St W),
        handleAlreadyExistingInstallation.enableIngress c cmd s = (.ok true, cmd, s1) →
        handleAlreadyExistingInstallation c cmd s
          = (match upgradeLoft c cmd "" s1 with
              | (some err, s2) => (.returned (some err), cmd, s2)
              | (none, s2) => success c cmd s2) ∧
        deployments (handleAlreadyExistingInstallation c cmd s).2.2.calls
          = deployments (upgradeLoft c cmd "" s1).2.calls) ∧
      (∀ (err : GoError) (s1 : St W),
        handleAlreadyExistingInstallation.enableIngress c cmd s = (.error err, cmd, s1) →
        handleAlreadyExistingInstallation c cmd s = (.returned (some err), cmd, s1) ∧
        deployments (handleAlreadyExistingInstallation c cmd s).2.2.calls
          = deployments s.calls)) ∧
    (deployments s.calls < deployments (handleAlreadyExistingInstallation c cmd s).2.2.calls →
      cmd.Upgrade = true ∨
        (handleAlreadyExistingInstallation.enableIngress c cmd s).1 = .ok true) := by
  obtain ⟨hcmd, -, -⟩ := handleAlreadyExistingInstallation_enableIngress_host c cmd s
  have hES : ∀ x : Call, (x.ofEnableIngress = true ∨ x.ofSuccess = true) →
      x.isUpgradeLoft = false := by
    intro x; cases x <;> simp [Call.ofEnableIngress, Call.ofSuccess, Call.isUpgradeLoft]
  have hE := handleAlreadyExistingInstallation_enableIngress_extends c cmd
    (fun x => x.ofEnableIngress || x.ofSuccess) (by intro x hx; simp [hx]) s
  have hEc := hE.countP_eq Call.isUpgradeLoft (by intro x hx; exact hES x (by simpa using hx))
  have hS : ∀ s' : St W, deployments (success c cmd s').2.2.calls = deployments s'.calls :=
    fun s' => (success_extends c cmd Call.ofSuccess (fun _ hx => hx) s').countP_eq _
      (by intro x hx; exact hES x (Or.inr hx))
  have hdeploy : ∀ s1 : St W,
      deployments (match upgradeLoft c cmd "" s1 with
          | (some err, s2) => ((.returned (some err), cmd, s2) : Return × StartCmd × St W)
          | (none, s2) => success c cmd s2).2.2.calls
        = deployments (upgradeLoft c cmd "" s1).2.calls := by
    intro s1
    split
    · rename_i heq
      rw [heq]
    · rename_i heq
      rw [heq, hS]
  have hneg : ∀ s1 : St W,
      handleAlreadyExistingInstallation.enableIngress c cmd s = (.ok false, cmd, s1) →
      cmd.Upgrade = false →
      handleAlreadyExistingInstallation c cmd s = success c cmd s1 ∧
      deployments (handleAlreadyExistingInstallation c cmd s).2.2.calls
        = deployments s.calls := by
    intro s1 hd hUpgrade
    have heq : handleAlreadyExistingInstallation c cmd s = success c cmd s1 := by
      simp [handleAlreadyExistingInstallation, hd, hUpgrade]
    refine ⟨heq, ?_⟩
    rw [heq, hS]
    rw [hd] at hEc
    exact hEc
  have herr : ∀ (err : GoError) (s1 : St W),
      handleAlreadyExistingInstallation.enableIngress c cmd s = (.error err, cmd, s1) →
      handleAlreadyExistingInstallation c cmd s = (.returned (some err), cmd, s1) ∧
      deployments (handleAlreadyExistingInstallation c cmd s).2.2.calls
        = deployments s.calls := by
    intro err s1 hd
    have heq : handleAlreadyExistingInstallation c cmd s = (.returned (some err), cmd, s1) := by
      simp [handleAlreadyExistingInstallation, hd]
    refine ⟨heq, ?_⟩
    rw [heq]
    rw [hd] at hEc
    exact hEc
  refine ⟨?_, ?_, ?_, ?_⟩
  · intro hUpgrade
    have hd : handleAlreadyExistingInstallation.enableIngress c cmd s = (.ok false, cmd, s) := by
      simp [handleAlreadyExistingInstallation.enableIngress, hUpgrade]
    have heq : handleAlreadyExistingInstallation c cmd s
        = (match upgradeLoft c cmd "" s with
            | (some err, s1) => (.returned (some err), cmd, s1)
            | (none, s1) => success c cmd s1) := by
      simp only [handleAlreadyExistingInstallation, hd, hUpgrade, Bool.true_or, if_true]
    refine ⟨hd, heq, ?_⟩
    rw [heq]
    exact hdeploy s
  · intro email hEmail
    rw [upgradeLoft_extraArgs_email c cmd email s]
    simp [hEmail]
  · intro hUpgrade
    refine ⟨fun s1 hd => hneg s1 hd hUpgrade, ?_, herr⟩
    intro s1 hd
    have heq : handleAlreadyExistingInstallation c cmd s
        = (match upgradeLoft c cmd "" s1 with
            | (some err, s2) => (.returned (some err), cmd, s2)
            | (none, s2) => success c cmd s2) := by
      simp only [handleAlreadyExistingInstallation, hd, Bool.or_true, if_true]
    refine ⟨heq, ?_⟩
    rw [heq]
    exact hdeploy s1
  · intro hlt
    by_contra hcon
    rw [not_or] at hcon
    obtain ⟨hU, hne⟩ := hcon
    have hUpgrade : cmd.Upgrade = false := by simpa using hU
    rcases hd : handleAlreadyExistingInstallation.enableIngress c cmd s with ⟨r, cmd1, s1⟩
    rw [hd] at hcmd hne
    simp only at hcmd hne
    subst hcmd
    cases r with
    | error err =>
      have := (herr err s1 hd).2
      omega
    | ok e =>
      cases e with
      | true => exact hne rfl
      | false =>
        have := (hneg s1 hd hUpgrade).2
        omega

/-- C22, at a concrete input: an existing installation started again with `--upgrade` is
deployed once, with no `admin.email` override. -/
theorem handleAlreadyExistingInstallation_redeploys_iff_witness :
    deployments (handleAlreadyExistingInstallation scripted
        { Upgrade := true, Password := "pw", NoWait := true }
        { world := { installed := true, terminal := true } }).2.2.calls
      = deployments (upgradeLoft scripted { Upgrade := true, Password := "pw", NoWait := true }
          "" { world := { installed := true, terminal := true } }).2.calls ∧
    (handleAlreadyExistingInstallation scripted
        { Upgrade := true, Password := "pw", NoWait := true }
        { world := { installed := true, terminal := true } }).2.2.calls
      = [.UpgradeLoft "loft" "https://charts.loft.sh/" "" "loft"
          ["--set", "admin.password=pw", "--reuse-values"]] :=
  ⟨((handleAlreadyExistingInstallation_redeploys_iff scripted
      { Upgrade := true, Password := "pw", NoWait := true }
      { world := { installed := true, terminal := true } }).1 rfl).2.2, by decide⟩

/-! ## A fresh install needs an email -/

/-- A call outside the class of the new calls was in the log before. -/
theorem St.Extends.mem_old {W : Type} {allowed : Call → Bool} {s s' : St W}
    (h : St.Extends allowed s s') (x : Call) (hx : x ∈ s'.calls) (hn : allowed x = false) :
    x ∈ s.calls := by
  obtain ⟨new, hnew, hall⟩ := h
  rw [hnew] at hx
  rcases List.mem_append.1 hx with hx | hx
  · exact hx
  · rw [hall x hx] at hn
    exact absurd hn (by simp)

/-- A chart deployment `upgradeLoft` logs carries the chart reference, the context, the
namespace and the arguments `upgradeLoft.extraArgs` built. -/
theorem upgradeLoft_deployment_args {W : Type} (c : Collaborators W) (cmd : StartCmd)
    (email : String) (s : St W) (x : Call) (hx : x ∈ (upgradeLoft c cmd email s).2.calls)
    (hd : x.isUpgradeLoft = true) :
    x ∈ s.calls ∨
    ∃ extraArgs, (upgradeLoft.extraArgs c cmd email s).1 = .ok extraArgs ∧
      x = .UpgradeLoft (upgradeLoft.chart cmd).1 (upgradeLoft.chart cmd).2 cmd.Context
        cmd.Namespace extraArgs := by
  have hargs := upgradeLoft_extraArgs_calls c cmd email s
  rcases he : upgradeLoft.extraArgs c cmd email s with ⟨r, s1⟩
  rw [he] at hargs
  simp only at hargs
  have hold : ∀ y : Call, y ∈ s1.calls → y.isUpgradeLoft = true → y ∈ s.calls := by
    intro y hy hyd
    rcases hargs with h | h
    · rw [h] at hy; exact hy
    · rw [h] at hy
      rcases List.mem_append.1 hy with hy | hy
      · exact hy
      · rw [List.mem_singleton.1 hy] at hyd
        simp [Call.isUpgradeLoft] at hyd
  cases r with
  | error err =>
    have heq : upgradeLoft c cmd email s = (some err, s1) := by simp [upgradeLoft, he]
    rw [heq] at hx
    exact Or.inl (hold x hx hd)
  | ok extraArgs =>
    have hmem : x ∈ s1.calls ∨
        x = .UpgradeLoft (upgradeLoft.chart cmd).1 (upgradeLoft.chart cmd).2 cmd.Context
          cmd.Namespace extraArgs := by
      rcases upgradeLoft_calls_shape c cmd email s s1 extraArgs he with h | h | ⟨m, h⟩
      · rw [h] at hx
        simp only [List.mem_append, List.mem_cons, List.mem_singleton, List.not_mem_nil,
          or_false] at hx
        exact hx
      · rw [h] at hx
        simp only [List.mem_append, List.mem_cons, List.mem_singleton, List.not_mem_nil,
          or_false] at hx
        rcases hx with hx | hx | hx
        · exact Or.inl hx
        · exact Or.inr hx
        · rw [hx] at hd; simp [Call.isUpgradeLoft] at hd
      · rw [h] at hx
        simp only [List.mem_append, List.mem_cons, List.mem_singleton, List.not_mem_nil,
          or_false] at hx
        rcases hx with hx | hx | hx | hx | hx
        · exact Or.inl hx
        · exact Or.inr hx
        · rw [hx] at hd; simp [Call.isUpgradeLoft] at hd
        · rw [hx] at hd; simp [Call.isUpgradeLoft] at hd
        · exact Or.inr hx
    rcases hmem with h | h
    · exact Or.inl (hold x h hd)
    · exact Or.inr ⟨extraArgs, rfl, h⟩

/-- The email `Run` goes on with is not empty when the prompt returns only answers that pass
the `ValidationFunc` of the question; an email read from the prompt matches `emailRegex`. -/
theorem Run_email_nonempty {W : Type} (c : Collaborators W) (cmd : StartCmd) (s s1 : St W)
    (email : String)
    (hValid : ∀ (o : QuestionOptions) (w : W) (answer : String)
      (f : String → Option GoError),
      (c.Question o w).1 = .ok answer → o.ValidationFunc = some f → f answer = none)
    (h : Run.email c cmd s = (.ok email, s1)) :
    email ≠ "" ∧ (cmd.Email = "" → emailRegex.MatchString email = true) := by
  by_cases hE : cmd.Email = ""
  · have hm : emailRegex.MatchString email = true := by
      simp only [Run.email, hE, beq_self_eq_true, if_true] at h
      split at h
      · simp at h
      · split at h
        · simp at h
        · rename_i answer w heq
          simp only [Prod.mk.injEq, Except.ok.injEq] at h
          have hv := hValid _ _ answer _ (by rw [heq]) rfl
          rw [← h.1]
          by_contra hne
          simp [hne] at hv
    refine ⟨?_, fun _ => hm⟩
    intro h0
    rw [h0] at hm
    exact absurd hm (by decide)
  · have hb : (cmd.Email == "") = false := by simpa using hE
    simp only [Run.email, hb] at h
    simp only [Bool.false_eq_true, if_false, Prod.mk.injEq, Except.ok.injEq] at h
    refine ⟨?_, fun h0 => absurd h0 hE⟩
    rw [← h.1]
    exact hE

/-- C21 as stated fails: on a cluster without a prior installation, with an empty `--email`
flag and a stdin that is no terminal, `Run` with an empty `--password` flag asks for the
default password before it looks at the email; when that lookup fails, `Run` returns its
error, not the request to pass `--email`. -/
theorem Run_fresh_install_password_error_first :
    (scripted.IsLoftAlreadyInstalled "loft"
      { defaultPassword := .error "namespace loft not found" }).1 = .ok false ∧
    (scripted.IsTerminal { defaultPassword := .error "namespace loft not found" }).1 = false ∧
    (Run scripted { Email := "" }
      { world := { defaultPassword := .error "namespace loft not found" } }).1
      = .returned (some "namespace loft not found") ∧
    (Run scripted { Email := "" }
      { world := { defaultPassword := .error "namespace loft not found" } }).1
      ≠ .returned (some "please enter an email via 'loft start --email my-email@domain.com'") :=
  ⟨rfl, by decide, by decide, by decide⟩

/-- C21, amended: when `Run` finds no prior installation (`prepare` and, under `--reset`, the
uninstall succeeded, `IsLoftAlreadyInstalled` answered false) and the password step
succeeded (the `--password` flag is set or the default password was looked up), then with an
empty `--email` flag and a stdin that is no terminal `Run` returns the error that asks for
`--email`; its only calls after the installation check are the password lookup and the
terminal check, so `prepareInstall` is not invoked, and the log holds no new chart
deployment. When the prompt returns only answers that pass the `ValidationFunc` of the
question, the email `Run` goes on with (the flag, or the answer of the prompt) is not empty:
`upgradeLoft` is called with it, and every chart deployment `Run` logs carries the
`admin.email` override of this non-empty email at the head of its arguments. -/
theorem Run_fresh_install_requires_email {W : Type} (c : Collaborators W)
    (cmd cmd1 cmd2 : StartCmd) (s s1 s2 s4 : St W) (w3 : W)
    (hPrepare : prepare c cmd s = (none, cmd1, s1))
    (hUninstall :
      (if cmd1.Reset then
        ((c.UninstallLoft cmd1.Context cmd1.Namespace s1.world).1,
          s1.after (.UninstallLoft cmd1.Context cmd1.Namespace)
            (c.UninstallLoft cmd1.Context cmd1.Namespace s1.world).2)
      else (none, s1)) = ((none : Option GoError), s2))
    (hInstalled : c.IsLoftAlreadyInstalled cmd1.Namespace s2.world = (.ok false, w3))
    (hPassword : Run.defaultPassword c cmd1
      (s2.after (.IsLoftAlreadyInstalled cmd1.Namespace) w3) = (none, cmd2, s4)) :
    (cmd.Email = "" → (c.IsTerminal s4.world).1 = false →
      Run c cmd s
        = (.returned
            (some "please enter an email via 'loft start --email my-email@domain.com'"),
            cmd2, s4.after .IsTerminal (c.IsTerminal s4.world).2) ∧
      (Run c cmd s).2.2.calls
        = s2.calls ++ .IsLoftAlreadyInstalled cmd1.Namespace ::
            ((if cmd1.Password = "" then [.GetLoftDefaultPassword cmd1.Namespace] else []) ++
              [.IsTerminal]) ∧
      deployments (Run c cmd s).2.2.calls = deployments s.calls) ∧
    ((∀ (o : QuestionOptions) (w : W) (answer : String) (f : String → Option GoError),
        (c.Question o w).1 = .ok answer → o.ValidationFunc = some f → f answer = none) →
      ∀ (email : String) (s5 : St W), Run.email c cmd2 s4 = (.ok email, s5) →
        email ≠ "" ∧
        Run c cmd s
          = (match prepareInstall c cmd2 s5 with
              | (some err, s6) => (.returned (some err), cmd2, s6)
              | (none, s6) =>
                match upgradeLoft c cmd2 email s6 with
                | (some err, s7) => (.returned (some err), cmd2, s7)
                | (none, s7) => success c cmd2 s7) ∧
        ∀ x ∈ (Run c cmd s).2.2.calls, x.isUpgradeLoft = true →
          x ∈ s.calls ∨
          ∃ rest, x = .UpgradeLoft (upgradeLoft.chart cmd2).1 (upgradeLoft.chart cmd2).2
            cmd2.Context cmd2.Namespace ("--set" :: ("admin.email=" ++ email) :: rest)) := by
  have hflags := prepare_flags c cmd s
  rw [hPrepare] at hflags
  simp only at hflags
  have hP : ∀ x : Call, x.ofPrepare = true → (!x.isUpgradeLoft) = true := by
    intro x; cases x <;> simp [Call.ofPrepare, Call.isUpgradeLoft]
  have hS : ∀ x : Call, x.ofSuccess = true → (!x.isUpgradeLoft) = true := by
    intro x; cases x <;> simp [Call.ofSuccess, Call.isUpgradeLoft]
  have h1 : St.Extends (fun x => !x.isUpgradeLoft) s s1 :=
    (prepare_extends c cmd _ hP s).of_eq3 hPrepare
  have h2 : St.Extends (fun x => !x.isUpgradeLoft) s1 s2 := by
    refine St.Extends.of_eq ?_ hUninstall
    split
    · exact (St.Extends.refl _ _).step rfl
    · exact St.Extends.refl _ _
  have hpw : cmd2.Email = cmd1.Email ∧
      s4.calls = s2.calls ++ .IsLoftAlreadyInstalled cmd1.Namespace ::
        (if cmd1.Password = "" then [.GetLoftDefaultPassword cmd1.Namespace] else []) := by
    by_cases hp : cmd1.Password = ""
    · simp only [Run.defaultPassword, hp, beq_self_eq_true, if_true] at hPassword
      split at hPassword
      · simp at hPassword
      · simp only [Prod.mk.injEq, true_and] at hPassword
        rw [← hPassword.1, ← hPassword.2]
        simp [St.after, hp]
    · have hb : (cmd1.Password == "") = false := by simpa using hp
      simp only [Run.defaultPassword, hb, Bool.false_eq_true, if_false, Prod.mk.injEq,
        true_and] at hPassword
      rw [← hPassword.1, ← hPassword.2]
      simp [St.after, hp]
  have h4 : St.Extends (fun x => !x.isUpgradeLoft) s s4 := by
    refine (h1.trans h2).trans ⟨_, hpw.2, ?_⟩
    intro x hx
    by_cases hp : cmd1.Password = ""
    · simp only [hp, if_true, List.mem_cons, List.mem_singleton, List.not_mem_nil,
        or_false] at hx
      rcases hx with hx | hx <;> rw [hx] <;> rfl
    · simp only [hp, if_false, List.mem_cons, List.not_mem_nil, or_false] at hx
      rw [hx]; rfl
  have hRun : Run c cmd s
      = (match Run.email c cmd2 s4 with
          | (.error err, s5) => (.returned (some err), cmd2, s5)
          | (.ok email, s5) =>
            match prepareInstall c cmd2 s5 with
            | (some err, s6) => (.returned (some err), cmd2, s6)
            | (none, s6) =>
              match upgradeLoft c cmd2 email s6 with
              | (some err, s7) => (.returned (some err), cmd2, s7)
              | (none, s7) => success c cmd2 s7) := by
    simp only [Run, hPrepare, hUninstall, hInstalled, hPassword, Bool.false_eq_true, if_false]
  have hEmailExt : St.Extends (fun x => !x.isUpgradeLoft) s4 (Run.email c cmd2 s4).2 := by
    simp only [Run.email]
    repeat' first
      | exact St.Extends.refl _ _
      | refine St.Extends.step ?_ rfl
      | split
  refine ⟨?_, ?_⟩
  · intro hEmail hTerminal
    have hE2 : cmd2.Email = "" := by rw [hpw.1, hflags]; exact hEmail
    have he : Run.email c cmd2 s4
        = (.error "please enter an email via 'loft start --email my-email@domain.com'",
            s4.after .IsTerminal (c.IsTerminal s4.world).2) := by
      simp [Run.email, hE2, hTerminal]
    have heq : Run c cmd s
        = (.returned
            (some "please enter an email via 'loft start --email my-email@domain.com'"),
            cmd2, s4.after .IsTerminal (c.IsTerminal s4.world).2) := by
      rw [hRun, he]
    refine ⟨heq, ?_, ?_⟩
    · rw [heq]
      simp [St.after, hpw.2]
    · rw [heq]
      exact (h4.step (c := .IsTerminal) (w := (c.IsTerminal s4.world).2) rfl).countP_eq _
        (by intro x hx; simpa using hx)
  · intro hValid email s5 he
    have hne := (Run_email_nonempty c cmd2 s4 s5 email hValid he).1
    have h5 : St.Extends (fun x => !x.isUpgradeLoft) s s5 := h4.trans (hEmailExt.of_eq he)
    have heq : Run c cmd s
        = (match prepareInstall c cmd2 s5 with
            | (some err, s6) => (.returned (some err), cmd2, s6)
            | (none, s6) =>
              match upgradeLoft c cmd2 email s6 with
              | (some err, s7) => (.returned (some err), cmd2, s7)
              | (none, s7) => success c cmd2 s7) := by
      rw [hRun, he]
    refine ⟨hne, heq, ?_⟩
    intro x hx hd
    have hdn : (fun x : Call => !x.isUpgradeLoft) x = false := by simp [hd]
    rw [heq] at hx
    have hpi : St.Extends (fun x => !x.isUpgradeLoft) s5 (prepareInstall c cmd2 s5).2 :=
      (St.Extends.refl _ _).step rfl
    rcases hpie : prepareInstall c cmd2 s5 with ⟨r, s6⟩
    rw [hpie] at hx hpi
    have h6 : St.Extends (fun x => !x.isUpgradeLoft) s s6 := h5.trans hpi
    have hup : ∀ y ∈ (upgradeLoft c cmd2 email s6).2.calls, y.isUpgradeLoft = true →
        y ∈ s.calls ∨
        ∃ rest, y = .UpgradeLoft (upgradeLoft.chart cmd2).1 (upgradeLoft.chart cmd2).2
          cmd2.Context cmd2.Namespace ("--set" :: ("admin.email=" ++ email) :: rest) := by
      intro y hy hyd
      rcases upgradeLoft_deployment_args c cmd2 email s6 y hy hyd with h | ⟨args, hargs, hyeq⟩
      · exact Or.inl (h6.mem_old y h (by simp [hyd]))
      · right
        rw [upgradeLoft_extraArgs_email c cmd2 email s6] at hargs
        cases h0 : (upgradeLoft.extraArgs c cmd2 "" s6).1 with
        | error e => rw [h0] at hargs; simp [Except.map] at hargs
        | ok args0 =>
          rw [h0] at hargs
          simp only [Except.map, hne, if_false, Except.ok.injEq] at hargs
          exact ⟨args0, by rw [hyeq, ← hargs]; rfl⟩
    cases r with
    | some err =>
      simp only at hx
      exact Or.inl (h6.mem_old x hx hdn)
    | none =>
      simp only at hx
      rcases hupe : upgradeLoft c cmd2 email s6 with ⟨r2, s7⟩
      rw [hupe] at hx hup
      cases r2 with
      | some err =>
        simp only at hx
        exact hup x hx hd
      | none =>
        simp only at hx
        by_cases hold : x ∈ s7.calls
        · exact hup x hold hd
        · exact absurd
            ((success_extends c cmd2 (fun x => !x.isUpgradeLoft) hS s7).mem_old x hx hdn) hold

/-- C21 amended, at concrete inputs: on the scripted cluster without an installation, `Run`
without `--email` and without a terminal returns the request for `--email` and deploys
nothing; with a terminal whose user types `a@b.com`, the non-empty answer is the email
`upgradeLoft` is called with, and `Run` ends in the local success message. -/
theorem Run_fresh_install_requires_email_witness :
    ((Run scripted {} { world := {} }).1
        = .returned
            (some "please enter an email via 'loft start --email my-email@domain.com'") ∧
      deployments (Run scripted {} { world := {} }).2.2.calls = deployments []) ∧
    ("a@b.com" ≠ "" ∧ (Run (scriptedPrompt "a@b.com") {} { world := {} }).1 = .blocked) :=
  ⟨⟨congrArg Prod.fst
      ((Run_fresh_install_requires_email scripted {} { Context := "kind-kind" }
        { Context := "kind-kind", Password := "uid-1234" } { world := {} }
        (prepare scripted {} { world := {} }).2.2 (prepare scripted {} { world := {} }).2.2
        (((prepare scripted {} { world := {} }).2.2.after (.IsLoftAlreadyInstalled "loft")
          {}).after (.GetLoftDefaultPassword "loft") {}) {}
        rfl rfl rfl rfl).1 rfl rfl).1,
      ((Run_fresh_install_requires_email scripted {} { Context := "kind-kind" }
        { Context := "kind-kind", Password := "uid-1234" } { world := {} }
        (prepare scripted {} { world := {} }).2.2 (prepare scripted {} { world := {} }).2.2
        (((prepare scripted {} { world := {} }).2.2.after (.IsLoftAlreadyInstalled "loft")
          {}).after (.GetLoftDefaultPassword "loft") {}) {}
        rfl rfl rfl rfl).1 rfl rfl).2.2⟩,
    have key := (Run_fresh_install_requires_email (scriptedPrompt "a@b.com") {}
      { Context := "kind-kind" } { Context := "kind-kind", Password := "uid-1234" }
      { world := {} }
      (prepare (scriptedPrompt "a@b.com") {} { world := {} }).2.2
      (prepare (scriptedPrompt "a@b.com") {} { world := {} }).2.2
      (((prepare (scriptedPrompt "a@b.com") {} { world := {} }).2.2.after
        (.IsLoftAlreadyInstalled "loft") {}).after (.GetLoftDefaultPassword "loft") {}) {}
      rfl rfl rfl rfl).2
      (by
        intro o w answer f h hf
        simp only [scriptedPrompt, hf] at h
        cases hfa : f "a@b.com" with
        | none =>
          rw [hfa] at h
          simp only [Except.ok.injEq] at h
          rw [← h]
          exact hfa
        | some err =>
          rw [hfa] at h
          simp at h)
      "a@b.com"
      ((((prepare (scriptedPrompt "a@b.com") {} { world := {} }).2.2.after
        (.IsLoftAlreadyInstalled "loft") {}).after (.GetLoftDefaultPassword "loft") {}).after
          .IsTerminal {} |>.after
            (.Question "Enter your email address to create the login for your admin user") {})
      rfl
    ⟨key.1, congrArg Prod.fst key.2.1⟩⟩

/-! ## Port-forward supervision -/

/-- One more firing of the stop signal: a loop that `Fatalf` ended stays as it is, and a loop
blocked on a channel receives from it and runs the loop body. -/
theorem restartPortForwarding_succ {W Chan : Type} (c : Collaborators W)
    (stopChanOf : W → Chan) (cmd : StartCmd) (signals : Nat) (stopChan : Chan) (s : St W) :
    restartPortForwarding c stopChanOf cmd (signals + 1) stopChan s
      = (match restartPortForwarding c stopChanOf cmd signals stopChan s with
          | (.fatal message s1, received) => (.fatal message s1, received)
          | (.waiting stopChan1 s1, received) =>
            (restartPortForwarding.iteration c stopChanOf cmd s1, received ++ [stopChan1])) := by
  induction signals generalizing stopChan s with
  | zero =>
    simp only [restartPortForwarding]
    cases restartPortForwarding.iteration c stopChanOf cmd s <;> rfl
  | succ n ih =>
    have hunfold : ∀ (k : Nat) (ch : Chan) (s0 : St W),
        restartPortForwarding c stopChanOf cmd (k + 1) ch s0
          = (match restartPortForwarding.iteration c stopChanOf cmd s0 with
              | .fatal message s1 => (.fatal message s1, [ch])
              | .waiting stopChan1 s1 =>
                ((restartPortForwarding c stopChanOf cmd k stopChan1 s1).1,
                  ch :: (restartPortForwarding c stopChanOf cmd k stopChan1 s1).2)) :=
      fun _ _ _ => rfl
    rw [hunfold (n + 1) stopChan s, hunfold n stopChan s]
    cases hi : restartPortForwarding.iteration c stopChanOf cmd s with
    | fatal message s1 => rfl
    | waiting stopChan1 s1 =>
      simp only
      rw [ih stopChan1 s1]
      rcases restartPortForwarding c stopChanOf cmd n stopChan1 s1 with ⟨r, received⟩
      cases r <;> rfl

/-- C23: port-forward supervision as a step relation. One pass of the loop, entered when the
stop signal of the current forward fired, first resolves a ready pod and then opens a new
forward to it, and goes back to waiting, on the stop channel of the new forward; a failure of
`WaitForReadyLoftPod` (before any forward is opened) or of `StartPortForwarding` ends the
process through `Fatalf`. A loop that no signal reaches stays blocked and calls nothing; each
further signal makes a blocked loop receive from its current channel and run one pass, and
leaves an ended loop as it is, whatever the number of further signals. The loop receives at
most once per signal, exactly once per signal while it has not ended, and its receive number
`i` is from the channel that was current after `i` signals: the channel of each forward is
received from once, and then replaced. `startPortForwarding` starts the supervisor right
after the first forward is opened, and not when opening it failed. -/
theorem restartPortForwarding_supervision {W Chan : Type} (c : Collaborators W)
    (stopChanOf : W → Chan) (cmd : StartCmd) :
    (∀ (s : St W),
      (∀ (err : GoError) (w : W),
        c.WaitForReadyLoftPod cmd.Namespace s.world = (.error err, w) →
        restartPortForwarding.iteration c stopChanOf cmd s
          = .fatal ("Error waiting for ready loft pod: " ++ err)
              (s.after (.WaitForReadyLoftPod cmd.Namespace) w)) ∧
      (∀ (loftPod : Pod) (w w2 : W) (err : GoError),
        c.WaitForReadyLoftPod cmd.Namespace s.world = (.ok loftPod, w) →
        c.StartPortForwarding loftPod cmd.LocalPort w = (some err, w2) →
        restartPortForwarding.iteration c stopChanOf cmd s
          = .fatal ("Error starting port forwarding: " ++ err)
              ((s.after (.WaitForReadyLoftPod cmd.Namespace) w).after
                (.StartPortForwarding loftPod cmd.LocalPort) w2)) ∧
      (∀ (loftPod : Pod) (w w2 : W),
        c.WaitForReadyLoftPod cmd.Namespace s.world = (.ok loftPod, w) →
        c.StartPortForwarding loftPod cmd.LocalPort w = (none, w2) →
        restartPortForwarding.iteration c stopChanOf cmd s
          = .waiting (stopChanOf w2)
              ((s.after (.WaitForReadyLoftPod cmd.Namespace) w).after
                (.StartPortForwarding loftPod cmd.LocalPort) w2))) ∧
    (∀ (stopChan : Chan) (s : St W),
      restartPortForwarding c stopChanOf cmd 0 stopChan s = (.waiting stopChan s, [])) ∧
    (∀ (signals : Nat) (stopChan stopChan1 : Chan) (s s1 : St W) (received : List Chan),
      restartPortForwarding c stopChanOf cmd signals stopChan s
        = (.waiting stopChan1 s1, received) →
      restartPortForwarding c stopChanOf cmd (signals + 1) stopChan s
        = (restartPortForwarding.iteration c stopChanOf cmd s1, received ++ [stopChan1])) ∧
    (∀ (signals more : Nat) (stopChan : Chan) (s : St W),
      (restartPortForwarding c stopChanOf cmd signals stopChan s).1.isFatal = true →
      restartPortForwarding c stopChanOf cmd (signals + more) stopChan s
        = restartPortForwarding c stopChanOf cmd signals stopChan s) ∧
    (∀ (signals : Nat) (stopChan : Chan) (s : St W),
      (restartPortForwarding c stopChanOf cmd signals stopChan s).2.length ≤ signals ∧
      ((restartPortForwarding c stopChanOf cmd signals stopChan s).1.isFatal = false →
        (restartPortForwarding c stopChanOf cmd signals stopChan s).2.length = signals) ∧
      ∀ (i : Nat) (received : Chan),
        (restartPortForwarding c stopChanOf cmd signals stopChan s).2[i]? = some received →
        ∃ s1, (restartPortForwarding c stopChanOf cmd i stopChan s).1
          = .waiting received s1) ∧
    (∀ (loftPod : Pod) (s : St W),
      (∀ (err : GoError) (w : W),
        c.StartPortForwarding loftPod cmd.LocalPort s.world = (some err, w) →
        startPortForwarding c cmd loftPod s
          = (some err, s.after (.StartPortForwarding loftPod cmd.LocalPort) w)) ∧
      (∀ (w : W), c.StartPortForwarding loftPod cmd.LocalPort s.world = (none, w) →
        ∃ rest, (startPortForwarding c cmd loftPod s).2.calls
          = s.calls ++ .StartPortForwarding loftPod cmd.LocalPort ::
              .restartPortForwarding :: rest)) := by
  have hstay : ∀ (signals more : Nat) (stopChan : Chan) (s : St W),
      (restartPortForwarding c stopChanOf cmd signals stopChan s).1.isFatal = true →
      restartPortForwarding c stopChanOf cmd (signals + more) stopChan s
        = restartPortForwarding c stopChanOf cmd signals stopChan s := by
    intro signals more stopChan s hfatal
    induction more with
    | zero => rfl
    | succ k ih =>
      rw [← Nat.add_assoc, restartPortForwarding_succ, ih]
      rcases hr : restartPortForwarding c stopChanOf cmd signals stopChan s with ⟨r, received⟩
      rw [hr] at hfatal
      cases r with
      | fatal message s1 => rfl
      | waiting stopChan1 s1 => simp [Supervision.isFatal] at hfatal
  refine ⟨?_, fun _ _ => rfl, ?_, hstay, ?_, ?_⟩
  · intro s
    refine ⟨?_, ?_, ?_⟩
    · intro err w hWait
      simp [restartPortForwarding.iteration, hWait]
    · intro loftPod w w2 err hWait hStart
      simp [restartPortForwarding.iteration, hWait, St.after, hStart]
    · intro loftPod w w2 hWait hStart
      simp [restartPortForwarding.iteration, hWait, St.after, hStart]
  · intro signals stopChan stopChan1 s s1 received hr
    rw [restartPortForwarding_succ, hr]
  · intro signals stopChan s
    induction signals with
    | zero =>
      refine ⟨Nat.le_refl _, fun _ => rfl, ?_⟩
      intro i received h
      simp [restartPortForwarding] at h
    | succ n ih =>
      rw [restartPortForwarding_succ]
      rcases hr : restartPortForwarding c stopChanOf cmd n stopChan s with ⟨r, recv⟩
      rw [hr] at ih
      obtain ⟨hle, hlen, hget⟩ := ih
      cases r with
      | fatal message s1 =>
        refine ⟨Nat.le_succ_of_le hle, ?_, ?_⟩
        · intro h
          simp [Supervision.isFatal] at h
        · intro i received h
          exact hget i received h
      | waiting stopChan1 s1 =>
        have hn : recv.length = n := hlen rfl
        refine ⟨by simp [hn], fun _ => by simp [hn], ?_⟩
        intro i received h
        simp only at h
        by_cases hi : i < recv.length
        · rw [List.getElem?_append_left hi] at h
          exact hget i received h
        · have hge : recv.length ≤ i := Nat.le_of_not_lt hi
          rw [List.getElem?_append_right hge] at h
          cases hk : i - recv.length with
          | zero =>
            rw [hk] at h
            simp only [List.getElem?_cons_zero, Option.some.injEq] at h
            have hin : i = n := by omega
            rw [hin, hr, ← h]
            exact ⟨s1, rfl⟩
          | succ k =>
            rw [hk] at h
            simp at h
  · intro loftPod s
    refine ⟨?_, ?_⟩
    · intro err w hStart
      simp [startPortForwarding, hStart]
    · intro w hStart
      have hp := poll_extends (fun _ => true)
        (healthProbe c ("https://localhost:" ++ cmd.LocalPort ++ "/version"))
        (fun s' => healthProbe_calls c _ _ (fun _ _ => rfl) s') DeadlineExceeded
        (c.pollAttempts Second c.Timeout w)
        ((s.after (.StartPortForwarding loftPod cmd.LocalPort) w).after
          .restartPortForwarding w)
      obtain ⟨new, hnew, -⟩ := hp
      refine ⟨new, ?_⟩
      simp only [startPortForwarding, hStart]
      simp only [St.after] at hnew ⊢
      rw [hnew]
      simp

/-- C23, at a concrete input: the first forward (channel 3) drops and is replaced (channel 2),
the second drops and the new forward cannot be opened: the process ends, after two receives,
and a third signal changes nothing. -/
theorem restartPortForwarding_supervision_witness :
    restartPortForwarding scriptedForwards scriptedStopChan {} (2 + 1) 3
        { world := { deploys := [none, some "port in use", none] } }
      = restartPortForwarding scriptedForwards scriptedStopChan {} 2 3
          { world := { deploys := [none, some "port in use", none] } } ∧
    (restartPortForwarding scriptedForwards scriptedStopChan {} 2 3
      { world := { deploys := [none, some "port in use", none] } }).2 = [3, 2] ∧
    (restartPortForwarding scriptedForwards scriptedStopChan {} 2 3
      { world := { deploys := [none, some "port in use", none] } }).1.state.calls
      = [.WaitForReadyLoftPod "loft",
          .StartPortForwarding { Name := "loft-0", Namespace := "loft" } "9898",
          .WaitForReadyLoftPod "loft",
          .StartPortForwarding { Name := "loft-0", Namespace := "loft" } "9898"] :=
  ⟨(restartPortForwarding_supervision scriptedForwards scriptedStopChan {}).2.2.2.1 2 1 3
      { world := { deploys := [none, some "port in use", none] } } rfl,
    by decide, by decide⟩

/-! ## The default-password lookup comes before the email -/

/-- With an empty `--password` flag, a failing default-password lookup ends `Run` with the
error of the lookup, whether or not Loft is installed: the email is not looked at,
`prepareInstall` is not invoked and the log holds no new chart deployment. -/
theorem Run_default_password_error {W : Type} (c : Collaborators W) (cmd cmd1 : StartCmd)
    (s s1 s2 : St W) (isInstalled : Bool) (w3 w4 : W) (err : GoError)
    (hPrepare : prepare c cmd s = (none, cmd1, s1))
    (hUninstall :
      (if cmd1.Reset then
        ((c.UninstallLoft cmd1.Context cmd1.Namespace s1.world).1,
          s1.after (.UninstallLoft cmd1.Context cmd1.Namespace)
            (c.UninstallLoft cmd1.Context cmd1.Namespace s1.world).2)
      else (none, s1)) = ((none : Option GoError), s2))
    (hInstalled : c.IsLoftAlreadyInstalled cmd1.Namespace s2.world = (.ok isInstalled, w3))
    (hPasswordFlag : cmd1.Password = "")
    (hLookup : c.GetLoftDefaultPassword cmd1.Namespace w3 = (.error err, w4)) :
    Run c cmd s
      = (.returned (some err), cmd1,
          (s2.after (.IsLoftAlreadyInstalled cmd1.Namespace) w3).after
            (.GetLoftDefaultPassword cmd1.Namespace) w4) ∧
    (Run c cmd s).2.2.calls
      = s2.calls ++ [.IsLoftAlreadyInstalled cmd1.Namespace,
          .GetLoftDefaultPassword cmd1.Namespace] ∧
    deployments (Run c cmd s).2.2.calls = deployments s.calls := by
  have hP : ∀ x : Call, x.ofPrepare = true → (!x.isUpgradeLoft) = true := by
    intro x; cases x <;> simp [Call.ofPrepare, Call.isUpgradeLoft]
  have h1 : St.Extends (fun x => !x.isUpgradeLoft) s s1 :=
    (prepare_extends c cmd _ hP s).of_eq3 hPrepare
  have h2 : St.Extends (fun x => !x.isUpgradeLoft) s1 s2 := by
    refine St.Extends.of_eq ?_ hUninstall
    split
    · exact (St.Extends.refl _ _).step rfl
    · exact St.Extends.refl _ _
  have hdp : Run.defaultPassword c cmd1 (s2.after (.IsLoftAlreadyInstalled cmd1.Namespace) w3)
      = (some err, cmd1,
          (s2.after (.IsLoftAlreadyInstalled cmd1.Namespace) w3).after
            (.GetLoftDefaultPassword cmd1.Namespace) w4) := by
    simp [Run.defaultPassword, hPasswordFlag, St.after, hLookup]
  have heq : Run c cmd s
      = (.returned (some err), cmd1,
          (s2.after (.IsLoftAlreadyInstalled cmd1.Namespace) w3).after
            (.GetLoftDefaultPassword cmd1.Namespace) w4) := by
    simp only [Run, hPrepare, hUninstall, hInstalled, hdp]
  refine ⟨heq, ?_, ?_⟩
  · rw [heq]
    simp [St.after]
  · rw [heq]
    exact (((h1.trans h2).step (c := .IsLoftAlreadyInstalled cmd1.Namespace) (w := w3)
      rfl).step (c := .GetLoftDefaultPassword cmd1.Namespace) (w := w4) rfl).countP_eq _
        (by intro x hx; simpa using hx)

end Loftctl.Cmd
